import Mathlib

/-!
# Aptos WalletFlow: the settlement pipeline

A shallow embedding of the backend of the repository: the settlement record
(`backend/models/Transaction.js`), the on-ramp routes
(`backend/routes/payments.js`), the off-ramp routes
(`backend/routes/offramp.js`), the ledger service
(`backend/services/aptosService.js`) and the bank accounts on file
(`backend/models/BankDetails.js`, `backend/routes/bankDetails.js`).

Modelling conventions.

* JavaScript numbers are exact rationals (`ℚ`); `Math.round` and `toFixed`
  are given on rationals.
* Strings stay strings: status names are compared as the source compares
  them, and the schema enumerations are lists of strings.
* The collection of settlement records is a list of documents; `findOne` is
  the first document matching the filter.
* `new Date()` / `Date.now()` is the request's clock value `now`; fresh
  object ids are supplied by the caller of a handler.
* Calls to collaborators (the transfer executor, the payment gateway, the
  ledger client, the keyed hash) are parameters of the handlers; every call a
  handler makes is recorded in the `calls` log of its outcome.
* Object ids in route parameters are well-formed (a natural number).
* The ledger client of the service is a record of answers, one per method; a
  method either returns a value or throws an error with a message. The draws
  of `Math.random()` are a sequence of rationals.
* The callback that `verify-token-transfer` schedules with `setTimeout` is a
  step of its own (`Offramp.bankTransferStep`), run on the collection as it is
  when the timer fires.
* `doc.save()` validates every path of the document before it writes, as
  Mongoose does, also the paths that the handler did not touch; the validator
  of `amount.inr` reads `paymentId`. A hypothesis `t.validate = true` on a
  stored record says that the record passes this validation, as every record
  does that `save` has written.
* A route module is loaded before it serves: `Bank.router` runs the
  registrations of `routes/bankDetails.js` as Express does, and a registration
  with a handler that is not a function throws.
-/

namespace WalletFlow

/-! ## JSON-like values -/

/-- Values carried in response bodies and in the `additionalData` argument of
`updateStatus`. -/
inductive Json where
  | null
  | bool (b : Bool)
  | num (q : ℚ)
  | str (s : String)
  | date (t : Nat)
  | obj (fields : List (String × Json))

/-- JavaScript truthiness of a value. -/
def Json.truthy : Json → Bool
  | .null => false
  | .bool b => b
  | .num q => decide (q ≠ 0)
  | .str s => decide (s ≠ "")
  | .date _ => true
  | .obj _ => true

/-- Property access `o[k]` on an object value. -/
def Json.get? : Json → String → Option Json
  | .obj fields, k => fields.lookup k
  | _, _ => none

/-- Optional string as a JSON value (`null` when absent). -/
def Json.ofOptStr : Option String → Json
  | some s => .str s
  | none => .null

/-- Nested property access `o[k₁][k₂]...` on a JSON value. -/
def Json.path? : Json → List String → Option Json
  | j, [] => some j
  | j, k :: ks =>
    match j.get? k with
    | some v => Json.path? v ks
    | none => none

/-! ## The settlement record (`models/Transaction.js`) -/

/-- White space as `String.prototype.trim` understands it. -/
def isJsWhitespace (c : Char) : Bool :=
  decide (c.val ∈ [0x09, 0x0a, 0x0b, 0x0c, 0x0d, 0x20, 0xa0, 0x1680, 0x2028, 0x2029, 0x202f,
    0x205f, 0x3000, 0xfeff]) || (decide (0x2000 ≤ c.val) && decide (c.val ≤ 0x200a))

/-- The method `s.trim()`, which the schema applies to `walletAddress`. -/
def jsTrim (s : String) : String :=
  String.mk ((s.toList.dropWhile isJsWhitespace).reverse.dropWhile isJsWhitespace).reverse

/-- The `amount` sub-document. -/
structure Amount where
  inr : ℚ
  token : ℚ
deriving DecidableEq

/-- The `fees` sub-document. -/
structure Fees where
  razorpay : ℚ := 0
  gas : ℚ := 0
  platform : ℚ := 0
deriving DecidableEq

/-- The `metadata` sub-document. The schema declares four string paths; under
the schema's strict mode every other key handed to the constructor is dropped. -/
structure Metadata where
  userAgent : Option String := none
  ipAddress : Option String := none
  razorpayOrderId : Option String := none
  receiptId : Option String := none
deriving DecidableEq

/-- The `timestamps` sub-document. -/
structure Timestamps where
  created : Nat
  paymentVerified : Option Nat := none
  transferCompleted : Option Nat := none
deriving DecidableEq

/-- A document of the `Transaction` collection. -/
structure Transaction where
  _id : Nat
  user : Nat
  orderId : String
  paymentId : Option String := none
  razorpaySignature : Option String := none
  amount : Amount
  tokenType : String
  walletAddress : String
  status : String := "created"
  paymentStatus : String := "pending"
  transferStatus : String := "pending"
  transactionHash : Option String := none
  explorerUrl : Option String := none
  conversionRate : ℚ
  fees : Fees := {}
  metadata : Metadata := {}
  timestamps : Timestamps
  notes : Option String := none
  createdAt : Nat
  updatedAt : Nat
deriving DecidableEq

/-- The `enum` of the `status` path. -/
def statusEnum : List String :=
  ["created", "payment_verified", "transfer_pending", "completed", "failed", "cancelled",
   "withdrawal_requested", "transfer_verified", "bank_transfer_initiated",
   "bank_transfer_completed"]

/-- The `enum` of the `paymentStatus` and `transferStatus` paths. -/
def subStatusEnum : List String := ["pending", "success", "failed"]

/-- The `enum` of the `tokenType` path. -/
def tokenTypeEnum : List String := ["APT", "USDC"]

/-- The keys of `schema.paths`. -/
def schemaPaths : List String :=
  ["user", "orderId", "paymentId", "razorpaySignature", "amount.inr", "amount.token",
   "tokenType", "walletAddress", "status", "paymentStatus", "transferStatus",
   "transactionHash", "explorerUrl", "conversionRate", "fees.razorpay", "fees.gas",
   "fees.platform", "metadata.userAgent", "metadata.ipAddress", "metadata.razorpayOrderId",
   "metadata.receiptId", "timestamps.created", "timestamps.paymentVerified",
   "timestamps.transferCompleted", "notes", "_id", "createdAt", "updatedAt", "__v"]

/-- The custom validator of `amount.inr`. The third disjunct of the source,
`this.metadata.transferType === 'direct_payment'`, reads a key that the schema
does not declare and that is therefore never present on a document. -/
def amountInrValidator (t : Transaction) : Bool :=
  if t.paymentId = some "direct_wallet_transfer" ∨
      t.paymentId = some "direct_wallet_transfer_failed" then
    decide (0 ≤ t.amount.inr)
  else
    decide (10 ≤ t.amount.inr)

/-- The assignment `this[key] = value` for a key of `schema.paths`. The string
valued top-level paths and `conversionRate` are assignable; a dotted key names
no property of the document, and the identity and bookkeeping paths are never
passed by a caller. -/
def Transaction.assign (t : Transaction) (key : String) (v : Json) : Transaction :=
  match v with
  | .str s =>
    if key = "orderId" then { t with orderId := s }
    else if key = "paymentId" then { t with paymentId := some s }
    else if key = "razorpaySignature" then { t with razorpaySignature := some s }
    else if key = "tokenType" then { t with tokenType := s }
    else if key = "walletAddress" then { t with walletAddress := jsTrim s }
    else if key = "status" then { t with status := s }
    else if key = "paymentStatus" then { t with paymentStatus := s }
    else if key = "transferStatus" then { t with transferStatus := s }
    else if key = "transactionHash" then { t with transactionHash := some s }
    else if key = "explorerUrl" then { t with explorerUrl := some s }
    else if key = "notes" then { t with notes := some s }
    else t
  | .num q => if key = "conversionRate" then { t with conversionRate := q } else t
  | _ => t

/-- The loop `Object.keys(additionalData).forEach(...)` of `updateStatus`. -/
def Transaction.assignAll (t : Transaction) : List (String × Json) → Transaction
  | [] => t
  | (key, v) :: rest =>
    Transaction.assignAll (if key ∈ schemaPaths then t.assign key v else t) rest

/-- The value `additionalData[k]` tested for truthiness. -/
def flag (additionalData : List (String × Json)) (k : String) : Bool :=
  match additionalData.lookup k with
  | some v => v.truthy
  | none => false

/-- The in-memory part of `transactionSchema.methods.updateStatus`: everything
before `return this.save()`. -/
def Transaction.updateStatus (t : Transaction) (newStatus : String)
    (additionalData : List (String × Json)) (now : Nat) : Transaction :=
  let t1 := { t with status := newStatus }
  let t2 :=
    if newStatus = "payment_verified" ∧ t1.timestamps.paymentVerified = none then
      { t1 with timestamps := { t1.timestamps with paymentVerified := some now },
                paymentStatus := "success" }
    else t1
  let t3 :=
    if newStatus = "completed" ∧ t2.timestamps.transferCompleted = none then
      { t2 with timestamps := { t2.timestamps with transferCompleted := some now },
                transferStatus := "success" }
    else t2
  let t4 :=
    if newStatus = "failed" then
      { t3 with
        paymentStatus := if flag additionalData "paymentFailed" then "failed" else t3.paymentStatus,
        transferStatus :=
          if flag additionalData "transferFailed" then "failed" else t3.transferStatus }
    else t3
  t4.assignAll additionalData

/-! ## The collection and `save` -/

/-- The `Transaction` collection. -/
abbrev Db := List Transaction

/-- Validation of a document, as `doc.save()` runs it before it writes. Mongoose
validates every path of the document, of a newly constructed document and of a
loaded one alike, whether or not the path was modified. -/
def Transaction.validate (t : Transaction) : Bool :=
  decide (t.orderId ≠ "") && decide (t.walletAddress ≠ "") &&
  decide (t.tokenType ∈ tokenTypeEnum) && decide (t.status ∈ statusEnum) &&
  decide (t.paymentStatus ∈ subStatusEnum) && decide (t.transferStatus ∈ subStatusEnum) &&
  amountInrValidator t &&
  (match t.notes with
   | some s => decide (s.length ≤ 500)
   | none => true)

/-- Replace the stored document that has the id of `t`. -/
def Db.replace (db : Db) (t : Transaction) : Db :=
  db.map (fun r => if r._id = t._id then t else r)

/-- The call `doc.save()` on a loaded document. `orig` is the document as it was
loaded (or last saved) and `t` its present in-memory state. The document is
validated, every path of it; a failed validation rejects with an error and
leaves the collection as it was. If validation passes and the document has
changes, it is written back with `updatedAt` stamped; a document without
changes is not written. The collection and the saved document are returned. -/
def save (db : Db) (orig t : Transaction) (now : Nat) : Except String (Db × Transaction) :=
  if ¬ Transaction.validate t then .error "Transaction validation failed"
  else if t = orig then .ok (db, t)
  else .ok (Db.replace db { t with updatedAt := now }, { t with updatedAt := now })

/-- The call `doc.save()` on a new document: validate every path, then insert;
the unique indexes on `_id` and on `orderId` reject a duplicate. -/
def saveNew (db : Db) (t : Transaction) : Except String Db :=
  if ¬ Transaction.validate t then .error "Transaction validation failed"
  else if db.any (fun r => decide (r._id = t._id ∨ r.orderId = t.orderId)) then
    .error "E11000 duplicate key error"
  else .ok (db ++ [t])

/-! ## Requests, responses, effects -/

/-- The authenticated user document that `auth` puts in `req.user`. -/
structure User where
  _id : Nat
  name : String
  email : String
  phone : Option String := none
  walletAddress : Option String := none
deriving DecidableEq

/-- What a handler reads from the request besides its body and parameters:
the authenticated user (`req.userId` is `req.user._id`), two headers, and the
clock. -/
structure Req where
  user : User
  userAgent : Option String := none
  ip : Option String := none
  now : Nat

/-- The caller's identity, `req.userId`. -/
def Req.userId (req : Req) : Nat := req.user._id

/-- An HTTP response: status code and JSON body. -/
structure Response where
  code : Nat
  body : Json

/-- A call made to a collaborator. -/
inductive Call where
  | transferTokens (toAddress tokenType : String) (amountInINR : ℚ)
  | razorpayOrdersCreate (amountInPaise : ℤ) (receipt : String)
  | razorpayOrdersFetch (orderId : String)
  | userUpdateWallet (userId : Nat) (walletAddress : String)
  | getTransactionByHash (hash : String)
  | setTimeout (delayMs : Nat) (withdrawalId : Nat)
  | transferAPTDirect (fromAddress toAddress : String) (amount : ℚ)
  | getLedgerInfo
  | getAccountAPTAmount
  | fundAccount (amount : ℤ)
  | sleep (delayMs : ℚ)
  | buildSimple (toAddress : String) (amountInOctas : ℤ)
  | simulateSimple
  | signAndSubmitTransaction
  | waitForTransaction (transactionHash : String)
deriving DecidableEq

/-- Whether a logged call is a call of the transfer executor. -/
def Call.isTransfer : Call → Bool
  | .transferTokens _ _ _ => true
  | _ => false

/-- What a handler leaves behind: the collection, the response, and the calls
it made, in order. -/
structure Outcome where
  db : Db
  resp : Response
  calls : List Call

/-- The error response `res.status(code).json({ success: false, error })`. -/
def failure (code : Nat) (error : String) : Response :=
  ⟨code, .obj [("success", .bool false), ("error", .str error)]⟩

/-- Modelled from the spec: the middleware `handleValidationErrors`
(`middleware/validation`), which is not among the sources. A request that fails
one of the route's validators is answered directly with a validation error
(status 400) and the handler does not run. -/
def validationError : Response := failure 400 "Validation failed"

/-- The result object returned by `transferTokens`. -/
structure TransferResult where
  hash : String
  amount : ℚ
  tokenType : String
  recipient : String
  success : Bool := true
  simulated : Bool
  network : Option String := none
  gasUsed : Option String := none
  gasPrice : Option String := none
  sender : Option String := none
  timestamp : Option Nat := none
deriving DecidableEq

/-- The expression `x || 'N/A'` on an optional string. -/
def orDefault (x : Option String) (d : String) : String :=
  match x with
  | some s => if s = "" then d else s
  | none => d

/-- The explorer link built for a transaction hash. -/
def explorerLink (hash : String) : String :=
  "https://explorer.aptoslabs.com/txn/" ++ hash ++ "?network=testnet"

/-- The expression `Math.round(x)`. -/
def mathRound (x : ℚ) : ℤ := ⌊x + 1 / 2⌋

/-- The expression `String(n).slice(-8)`. -/
def last8 (n : Nat) : String := (toString n).takeRight 8

/-- Two decimal digits of a number below one hundred. -/
def pad2 (n : Nat) : String := if n < 10 then "0" ++ toString n else toString n

/-- The expression `x.toFixed(2)` for a non-negative `x`. -/
def toFixed2Abs (x : ℚ) : String :=
  let n := (⌊x * 100 + 1 / 2⌋).toNat
  toString (n / 100) ++ "." ++ pad2 (n % 100)

/-- The expression `x.toFixed(2)`: the nearest number with two decimals, ties
to the larger one, printed in fixed notation. -/
def toFixed2 (x : ℚ) : String :=
  if x < 0 then "-" ++ toFixed2Abs (-x) else toFixed2Abs x

/-! ## On-ramp routes (`routes/payments.js`) -/

namespace Payments

/-- The table `CONVERSION_RATES` of `routes/payments.js` (token per INR). -/
def CONVERSION_RATES (tokenType : String) : Option ℚ :=
  if tokenType = "APT" then some (1 / 10)
  else if tokenType = "USDC" then some (12 / 1000)
  else none

/-- The body of `POST /create-order`. -/
structure CreateOrderBody where
  amount : ℚ
  tokenType : String
  walletAddress : String

/-- The validators `createOrderValidation`. -/
def createOrderValidation (b : CreateOrderBody) : Bool :=
  decide (10 ≤ b.amount) && decide (b.tokenType ∈ ["APT", "USDC"]) &&
  decide (b.walletAddress ≠ "")

/-- The document built by `new Transaction(...)` in `POST /create-order`. -/
def newOrderTransaction (newId : Nat) (req : Req) (b : CreateOrderBody)
    (conversionRate tokenAmount : ℚ) (razorpayOrderId receipt : String) : Transaction :=
  { _id := newId
    user := req.userId
    orderId := razorpayOrderId
    amount := { inr := b.amount, token := tokenAmount }
    tokenType := b.tokenType
    walletAddress := jsTrim b.walletAddress
    conversionRate := conversionRate
    metadata :=
      { razorpayOrderId := some razorpayOrderId
        receiptId := some receipt
        userAgent := req.userAgent
        ipAddress := req.ip }
    timestamps := { created := req.now }
    createdAt := req.now
    updatedAt := req.now }

/-- The handler `POST /api/payments/create-order`. `razorpayCreate` is
`razorpay.orders.create`, returning the id of the gateway order or throwing.
The rate limiter in front of the handler is not among the sources and is
outside the core; it is taken to let the request through. -/
def createOrder (razorpayCreate : ℤ → String → Except String String) (newId : Nat)
    (req : Req) (b : CreateOrderBody) (db : Db) : Outcome :=
  if ¬ createOrderValidation b then ⟨db, validationError, []⟩
  else
    let calls1 :=
      if b.walletAddress ≠ "" ∧ some b.walletAddress ≠ req.user.walletAddress then
        [Call.userUpdateWallet req.userId b.walletAddress]
      else []
    match CONVERSION_RATES b.tokenType with
    | none => ⟨db, failure 500 "Failed to create payment order", calls1⟩
    | some conversionRate =>
      let tokenAmount := b.amount * conversionRate
      let amountInPaise := mathRound (b.amount * 100)
      let receipt := "onramp_" ++ last8 req.now
      let calls2 := calls1 ++ [Call.razorpayOrdersCreate amountInPaise receipt]
      match razorpayCreate amountInPaise receipt with
      | .error _ => ⟨db, failure 500 "Failed to create payment order", calls2⟩
      | .ok razorpayOrderId =>
        let transaction :=
          newOrderTransaction newId req b conversionRate tokenAmount razorpayOrderId receipt
        match saveNew db transaction with
        | .error _ => ⟨db, failure 500 "Failed to create payment order", calls2⟩
        | .ok db1 =>
          ⟨db1,
           ⟨200, .obj [("success", .bool true), ("order_id", .str razorpayOrderId),
                       ("amount", .num b.amount), ("currency", .str "INR"),
                       ("tokenAmount", .num tokenAmount),
                       ("conversionRate", .num conversionRate),
                       ("transactionId", .num transaction._id)]⟩,
           calls2⟩

/-- The body of `POST /verify-payment`. -/
structure VerifyPaymentBody where
  razorpay_order_id : String
  razorpay_payment_id : String
  razorpay_signature : String

/-- The validators `verifyPaymentValidation`. -/
def verifyPaymentValidation (b : VerifyPaymentBody) : Bool :=
  decide (b.razorpay_order_id ≠ "") && decide (b.razorpay_payment_id ≠ "") &&
  decide (b.razorpay_signature ≠ "")

/-- The signature the gateway is expected to have issued:
`createHmac('sha256', secret).update(orderId + '|' + paymentId).digest('hex')`,
with the keyed hash `hmacHex` of the `crypto` library as a parameter. -/
def expectedSignature (hmacHex : String → String → String) (secret : String)
    (b : VerifyPaymentBody) : String :=
  hmacHex secret (b.razorpay_order_id ++ "|" ++ b.razorpay_payment_id)

/-- The `additionalData` of the successful transfer in `POST /verify-payment`. -/
def completedData (r : TransferResult) : List (String × Json) :=
  [("transactionHash", .str r.hash),
   ("explorerUrl", .str (explorerLink r.hash)),
   ("gasUsed", .str (orDefault r.gasUsed "N/A")),
   ("gasPrice", .str (orDefault r.gasPrice "N/A")),
   ("network", .str (orDefault r.network "testnet")),
   ("simulated", .bool r.simulated)]

/-- The `catch (transferError)` block of `POST /verify-payment`, run on the
in-memory document `doc` (last saved as `orig`) with the message of the error
caught. -/
def verifyPaymentCatch (db : Db) (orig doc : Transaction) (message : String) (req : Req)
    (paymentId : String) (calls : List Call) : Outcome :=
  let failed := doc.updateStatus "failed"
    [("transferFailed", .bool true), ("notes", .str ("Transfer failed: " ++ message))] req.now
  match save db orig failed req.now with
  | .error _ => ⟨db, failure 500 "Payment verification failed", calls⟩
  | .ok (db1, _) =>
    ⟨db1,
     ⟨500, .obj [("success", .bool false),
                 ("error", .str ("Payment verified but token transfer failed. " ++
                    "Our team has been notified and will resolve this shortly.")),
                 ("payment_id", .str paymentId),
                 ("transaction_id", .num doc._id),
                 ("support_message",
                    .str "Please contact support with your transaction ID for assistance.")]⟩,
     calls⟩

/-- The handler `POST /api/payments/verify-payment`. `hmacHex` is the keyed
hash, `secret` the gateway secret, and `transferTokens` the transfer executor,
which returns a result or throws an error with a message. -/
def verifyPayment (hmacHex : String → String → String) (secret : String)
    (transferTokens : String → String → ℚ → Except String TransferResult)
    (req : Req) (b : VerifyPaymentBody) (db : Db) : Outcome :=
  if ¬ verifyPaymentValidation b then ⟨db, validationError, []⟩
  else
    match db.find? (fun t => decide (t.orderId = b.razorpay_order_id ∧ t.user = req.userId)) with
    | none => ⟨db, failure 404 "Transaction not found", []⟩
    | some transaction =>
      if expectedSignature hmacHex secret b ≠ b.razorpay_signature then
        match save db transaction
            (transaction.updateStatus "failed" [("paymentFailed", .bool true)] req.now)
            req.now with
        | .error _ => ⟨db, failure 500 "Payment verification failed", []⟩
        | .ok (db1, _) => ⟨db1, failure 400 "Invalid payment signature", []⟩
      else
        let withProof :=
          { transaction with
            paymentId := some b.razorpay_payment_id
            razorpaySignature := some b.razorpay_signature }
        match save db transaction (withProof.updateStatus "payment_verified" [] req.now)
            req.now with
        | .error _ => ⟨db, failure 500 "Payment verification failed", []⟩
        | .ok (db1, verified) =>
          let calls :=
            [Call.transferTokens verified.walletAddress verified.tokenType verified.amount.inr]
          match transferTokens verified.walletAddress verified.tokenType verified.amount.inr with
          | .error message =>
            verifyPaymentCatch db1 verified verified message req b.razorpay_payment_id calls
          | .ok transferResult =>
            match save db1 verified
                (verified.updateStatus "completed" (completedData transferResult) req.now)
                req.now with
            | .error message =>
              verifyPaymentCatch db1 verified
                (verified.updateStatus "completed" (completedData transferResult) req.now)
                message req b.razorpay_payment_id calls
            | .ok (db2, completed) =>
              ⟨db2,
               ⟨200, .obj [("success", .bool true),
                           ("message",
                              .str "Payment verified and tokens transferred successfully"),
                           ("payment_id", .str b.razorpay_payment_id),
                           ("transaction_hash", .str transferResult.hash),
                           ("explorer_url", .str (explorerLink transferResult.hash)),
                           ("user", .obj [("name", .str req.user.name),
                                          ("walletAddress", .str completed.walletAddress),
                                          ("tokenReceived", .num completed.amount.token),
                                          ("tokenType", .str completed.tokenType),
                                          ("amountPaid", .num completed.amount.inr)]),
                           ("transaction", .obj [("id", .num completed._id),
                                                 ("status", .str completed.status),
                                                 ("createdAt", .date completed.createdAt)])]⟩,
               calls⟩

/-- A stored document as it is serialised into a response. -/
def transactionJson (t : Transaction) : Json :=
  .obj [("_id", .num t._id), ("user", .num t.user), ("orderId", .str t.orderId),
        ("paymentId", Json.ofOptStr t.paymentId),
        ("amount", .obj [("inr", .num t.amount.inr), ("token", .num t.amount.token)]),
        ("tokenType", .str t.tokenType), ("walletAddress", .str t.walletAddress),
        ("status", .str t.status), ("paymentStatus", .str t.paymentStatus),
        ("transferStatus", .str t.transferStatus),
        ("transactionHash", Json.ofOptStr t.transactionHash),
        ("explorerUrl", Json.ofOptStr t.explorerUrl),
        ("conversionRate", .num t.conversionRate),
        ("notes", Json.ofOptStr t.notes)]

/-- The handler `GET /api/payments/transaction/:id`. -/
def getTransaction (req : Req) (id : Nat) (db : Db) : Outcome :=
  match db.find? (fun t => decide (t._id = id ∧ t.user = req.userId)) with
  | none => ⟨db, failure 404 "Transaction not found", []⟩
  | some transaction =>
    ⟨db, ⟨200, .obj [("success", .bool true), ("transaction", transactionJson transaction)]⟩, []⟩

/-- The `additionalData` of a cancellation; `reason` is `req.body.reason`. -/
def cancelData (reason : Option String) (now : Nat) : List (String × Json) :=
  [("cancelledBy", .str "user"), ("cancelledAt", .date now),
   ("reason", .str (orDefault reason "Cancelled by user"))]

/-- The handler `PUT /api/payments/transaction/:id/cancel`. -/
def cancelTransaction (req : Req) (id : Nat) (reason : Option String) (db : Db) : Outcome :=
  match db.find? (fun t => decide (t._id = id ∧ t.user = req.userId)) with
  | none => ⟨db, failure 404 "Transaction not found", []⟩
  | some transaction =>
    if ¬ (transaction.status ∈ ["pending", "payment_failed"]) then
      ⟨db, failure 400 "Only pending transactions can be cancelled", []⟩
    else
      match save db transaction
          (transaction.updateStatus "cancelled" (cancelData reason req.now) req.now)
          req.now with
      | .error _ => ⟨db, failure 500 "Failed to cancel transaction", []⟩
      | .ok (db1, _) =>
        ⟨db1,
         ⟨200, .obj [("success", .bool true),
                     ("message", .str "Transaction cancelled successfully"),
                     ("transaction", .obj [("id", .num transaction._id),
                                           ("status", .str "cancelled"),
                                           ("orderId", .str transaction.orderId)])]⟩,
         []⟩

/-- The order object returned by `razorpay.orders.fetch`. -/
structure RazorpayOrder where
  id : String
  status : String
  amount : ℤ
  currency : String
  created_at : Nat

/-- The `transaction` part of the order-status responses. -/
def statusSummary (t : Transaction) : Json :=
  .obj [("id", .num t._id), ("status", .str t.status), ("tokenType", .str t.tokenType),
        ("tokenAmount", .num t.amount.token), ("walletAddress", .str t.walletAddress)]

/-- The handler `GET /api/payments/orders/:orderId/status`. -/
def orderStatus (razorpayFetch : String → Except String RazorpayOrder)
    (req : Req) (orderId : String) (db : Db) : Outcome :=
  match db.find? (fun t => decide (t.orderId = orderId ∧ t.user = req.userId)) with
  | none => ⟨db, failure 404 "Order not found", []⟩
  | some transaction =>
    match razorpayFetch orderId with
    | .ok o =>
      ⟨db,
       ⟨200, .obj [("success", .bool true),
                   ("order", .obj [("id", .str o.id), ("status", .str o.status),
                                   ("amount", .num o.amount), ("currency", .str o.currency),
                                   ("created_at", .num o.created_at)]),
                   ("transaction", statusSummary transaction)]⟩,
       [Call.razorpayOrdersFetch orderId]⟩
    | .error _ =>
      ⟨db,
       ⟨200, .obj [("success", .bool true), ("transaction", statusSummary transaction),
                   ("note",
                      .str "Razorpay status unavailable, showing local transaction status")]⟩,
       [Call.razorpayOrdersFetch orderId]⟩

/-- The condition `!transaction.paymentId`. -/
def noPaymentId (t : Transaction) : Bool :=
  match t.paymentId with
  | some s => decide (s = "")
  | none => true

/-- The `catch (transferError)` block of `POST /retry-transfer/:id`. -/
def retryCatch (db : Db) (orig doc : Transaction) (message : String) (req : Req)
    (calls : List Call) : Outcome :=
  let failed := doc.updateStatus "failed"
    [("retryFailed", .bool true), ("retryError", .str message), ("retryAt", .date req.now)]
    req.now
  match save db orig failed req.now with
  | .error _ => ⟨db, failure 500 "Failed to retry token transfer", calls⟩
  | .ok (db1, _) =>
    ⟨db1,
     ⟨500, .obj [("success", .bool false), ("error", .str "Token transfer retry failed"),
                 ("details", .str message)]⟩,
     calls⟩

/-- The handler `POST /api/payments/retry-transfer/:id`. -/
def retryTransfer (transferTokens : String → String → ℚ → Except String TransferResult)
    (req : Req) (id : Nat) (db : Db) : Outcome :=
  match db.find? (fun t => decide (t._id = id ∧ t.user = req.userId)) with
  | none => ⟨db, failure 404 "Transaction not found", []⟩
  | some transaction =>
    if transaction.status ≠ "failed" ∨ noPaymentId transaction then
      ⟨db, failure 400 "Only failed transactions with verified payments can be retried", []⟩
    else
      let calls :=
        [Call.transferTokens transaction.walletAddress transaction.tokenType
          transaction.amount.inr]
      match transferTokens transaction.walletAddress transaction.tokenType
          transaction.amount.inr with
      | .error message => retryCatch db transaction transaction message req calls
      | .ok transferResult =>
        let completed := transaction.updateStatus "completed"
          [("transactionHash", .str transferResult.hash),
           ("explorerUrl", .str (explorerLink transferResult.hash)),
           ("retryAttempt", .bool true), ("retryAt", .date req.now)] req.now
        match save db transaction completed req.now with
        | .error message => retryCatch db transaction completed message req calls
        | .ok (db1, _) =>
          ⟨db1,
           ⟨200, .obj [("success", .bool true),
                       ("message", .str "Token transfer retry successful"),
                       ("transaction_hash", .str transferResult.hash),
                       ("explorer_url", .str (explorerLink transferResult.hash)),
                       ("transaction", .obj [("id", .num transaction._id),
                                             ("status", .str "completed")])]⟩,
           calls⟩

end Payments

/-! ## Off-ramp routes (`routes/offramp.js`) -/

namespace Offramp

/-- The table `CONVERSION_RATES` of `routes/offramp.js` (INR per token). -/
def CONVERSION_RATES (tokenType : String) : Option ℚ :=
  if tokenType = "APT" then some 10 else none

/-- The body of `POST /estimate` and of `POST /create-withdrawal`. -/
structure WithdrawalBody where
  amount : ℚ
  tokenType : String
  walletAddress : String := ""

/-- The validators of `POST /estimate`; those of `POST /create-withdrawal` add
`isString().trim()` on the wallet address, which a string always passes. -/
def withdrawalValidation (b : WithdrawalBody) : Bool :=
  decide ((1 : ℚ) / 100 ≤ b.amount) && decide (b.tokenType ∈ ["APT"])

/-- The handler `POST /api/offramp/estimate`. -/
def estimate (b : WithdrawalBody) (db : Db) : Outcome :=
  if ¬ withdrawalValidation b then ⟨db, validationError, []⟩
  else
    match CONVERSION_RATES b.tokenType with
    | none => ⟨db, failure 500 "Failed to estimate off-ramp conversion", []⟩
    | some conversionRate =>
      let grossINR := b.amount * conversionRate
      let platformFee := max 5 (min 500 (grossINR * (25 / 1000)))
      let netINR := grossINR - platformFee
      ⟨db,
       ⟨200, .obj [("success", .bool true),
                   ("estimation",
                     .obj [("tokenAmount", .num b.amount), ("tokenType", .str b.tokenType),
                           ("grossINR", .str (toFixed2 grossINR)),
                           ("platformFee", .str (toFixed2 platformFee)),
                           ("netINR", .str (toFixed2 netINR)),
                           ("conversionRate", .num conversionRate),
                           ("feePercentage", .num (5 / 2)),
                           ("processingTime", .str "2-3 business days")])]⟩,
       []⟩

/-- A document of the `BankDetails` collection, as far as the off-ramp reads it. -/
structure BankDetails where
  accountNumber : String
  ifscCode : String
  accountHolderName : String
  bankName : String

/-- The condition `!user.phone`. -/
def noPhone (u : User) : Bool :=
  match u.phone with
  | some s => decide (s = "")
  | none => true

/-- The document built by `new Transaction(...)` in `POST /create-withdrawal`.
The keys `withdrawalType`, `bankDetails`, `netINR` and `platformFee` handed to
`metadata` are not paths of the schema. -/
def newWithdrawal (newId : Nat) (req : Req) (b : WithdrawalBody)
    (conversionRate grossINR platformFee : ℚ) : Transaction :=
  { _id := newId
    user := req.userId
    orderId := "offramp_" ++ last8 req.now
    amount := { inr := grossINR, token := b.amount }
    tokenType := b.tokenType
    walletAddress := jsTrim b.walletAddress
    conversionRate := conversionRate
    status := "withdrawal_requested"
    paymentStatus := "pending"
    transferStatus := "pending"
    fees := { platform := platformFee, razorpay := 0, gas := 0 }
    metadata := { userAgent := req.userAgent, ipAddress := req.ip }
    timestamps := { created := req.now }
    createdAt := req.now
    updatedAt := req.now }

/-- The handler `POST /api/offramp/create-withdrawal`. `userBankDetails` is the
caller's active default bank account, if there is one. The rate limiter in
front of the handler is taken to let the request through. -/
def createWithdrawal (userBankDetails : Option BankDetails) (newId : Nat)
    (req : Req) (b : WithdrawalBody) (db : Db) : Outcome :=
  if ¬ withdrawalValidation b then ⟨db, validationError, []⟩
  else
    match userBankDetails with
    | none =>
      ⟨db, failure 400 "Please add your bank details first using the bank details manager", []⟩
    | some bank =>
      if noPhone req.user then
        ⟨db,
         failure 400
           "KYC verification required. Please complete your profile with phone number.",
         []⟩
      else
        match CONVERSION_RATES b.tokenType with
        | none => ⟨db, failure 500 "Failed to create withdrawal request", []⟩
        | some conversionRate =>
          let grossINR := b.amount * conversionRate
          let platformFee := max 5 (min 500 (grossINR * (25 / 1000)))
          let netINR := grossINR - platformFee
          if netINR < 5 then
            ⟨db, failure 400 "Minimum withdrawal amount is ₹5 after fees", []⟩
          else
            let withdrawalRequest := newWithdrawal newId req b conversionRate grossINR platformFee
            match saveNew db withdrawalRequest with
            | .error _ => ⟨db, failure 500 "Failed to create withdrawal request", []⟩
            | .ok db1 =>
              ⟨db1,
               ⟨200, .obj [("success", .bool true),
                           ("message", .str "Withdrawal request created successfully"),
                           ("withdrawalId", .num withdrawalRequest._id),
                           ("details",
                             .obj [("tokenAmount", .num b.amount),
                                   ("tokenType", .str b.tokenType),
                                   ("grossINR", .str (toFixed2 grossINR)),
                                   ("platformFee", .str (toFixed2 platformFee)),
                                   ("netINR", .str (toFixed2 netINR)),
                                   ("processingTime", .str "2-3 business days"),
                                   ("status", .str "withdrawal_requested"),
                                   ("bankDetails",
                                     .obj [("accountHolderName", .str bank.accountHolderName),
                                           ("bankName", .str bank.bankName),
                                           ("accountNumber",
                                             .str ("****" ++ bank.accountNumber.takeRight 4))])])]⟩,
               []⟩

/-- The body of `POST /verify-token-transfer`. -/
structure VerifyTransferBody where
  withdrawalId : Nat
  transactionHash : String

/-- A hexadecimal digit, `[a-fA-F0-9]`. -/
def isHex (c : Char) : Bool :=
  c.isDigit || (decide ('a' ≤ c) && decide (c ≤ 'f')) || (decide ('A' ≤ c) && decide (c ≤ 'F'))

/-- The validator `matches(/^0x[a-fA-F0-9]{64}$/)` on the claimed hash. -/
def verifyTransferValidation (b : VerifyTransferBody) : Bool :=
  match b.transactionHash.toList with
  | '0' :: 'x' :: digits => decide (digits.length = 64) && digits.all isHex
  | _ => false

/-- The transaction returned by the ledger client's `getTransactionByHash`. -/
structure AptosTransaction where
  success : Bool

/-- The answer of `POST /verify-token-transfer` once the record is marked
verified: the bank-transfer step is scheduled and success is reported. -/
def transferVerified (db : Db) (withdrawal : Transaction) (b : VerifyTransferBody)
    (calls : List Call) : Outcome :=
  ⟨db,
   ⟨200, .obj [("success", .bool true),
               ("message", .str "Token transfer verified successfully"),
               ("withdrawal",
                 .obj [("id", .num withdrawal._id), ("status", .str "transfer_verified"),
                       ("transactionHash", .str b.transactionHash),
                       ("explorerUrl", .str (explorerLink b.transactionHash)),
                       ("nextSteps", .str "Bank transfer will be initiated within 24 hours"),
                       ("expectedCompletion", .str "2-3 business days")])]⟩,
   calls ++ [Call.setTimeout 2000 withdrawal._id]⟩

/-- The `catch (aptosError)` block of `POST /verify-token-transfer`, run on the
in-memory document `doc` (last saved as `orig`). -/
def verifyTransferCatch (db : Db) (orig doc : Transaction) (req : Req)
    (b : VerifyTransferBody) (calls : List Call) : Outcome :=
  let accepted := doc.updateStatus "transfer_verified"
    [("transactionHash", .str b.transactionHash),
     ("explorerUrl", .str (explorerLink b.transactionHash)),
     ("verificationMethod", .str "demo_accepted"),
     ("verificationNote", .str "Verified in demo mode")] req.now
  match save db orig accepted req.now with
  | .error _ => ⟨db, failure 500 "Failed to verify token transfer", calls⟩
  | .ok (db1, saved) => transferVerified db1 saved b calls

/-- The handler `POST /api/offramp/verify-token-transfer`, up to its response;
the step it schedules with `setTimeout` is logged as a call. -/
def verifyTokenTransfer (getTransactionByHash : String → Except String AptosTransaction)
    (req : Req) (b : VerifyTransferBody) (db : Db) : Outcome :=
  if ¬ verifyTransferValidation b then ⟨db, validationError, []⟩
  else
    match db.find? (fun t => decide (t._id = b.withdrawalId ∧ t.user = req.userId ∧
        t.status = "withdrawal_requested")) with
    | none => ⟨db, failure 404 "Withdrawal request not found or already processed", []⟩
    | some withdrawal =>
      let calls := [Call.getTransactionByHash b.transactionHash]
      match getTransactionByHash b.transactionHash with
      | .error _ => verifyTransferCatch db withdrawal withdrawal req b calls
      | .ok aptosTransaction =>
        if ¬ aptosTransaction.success then
          verifyTransferCatch db withdrawal withdrawal req b calls
        else
          let confirmed := withdrawal.updateStatus "transfer_verified"
            [("transactionHash", .str b.transactionHash),
             ("explorerUrl", .str (explorerLink b.transactionHash)),
             ("verificationMethod", .str "blockchain_confirmed")] req.now
          match save db withdrawal confirmed req.now with
          | .error _ => verifyTransferCatch db withdrawal confirmed req b calls
          | .ok (db1, saved) => transferVerified db1 saved b calls

/-- The handler `GET /api/offramp/withdrawal/:id`. -/
def getWithdrawal (req : Req) (id : Nat) (db : Db) : Outcome :=
  match db.find? (fun t => decide (t._id = id ∧ t.user = req.userId)) with
  | none => ⟨db, failure 404 "Withdrawal not found", []⟩
  | some withdrawal =>
    ⟨db,
     ⟨200, .obj [("success", .bool true), ("withdrawal", Payments.transactionJson withdrawal)]⟩,
     []⟩

/-- The handler `PUT /api/offramp/withdrawal/:id/cancel`. -/
def cancelWithdrawal (req : Req) (id : Nat) (reason : Option String) (db : Db) : Outcome :=
  match db.find? (fun t => decide (t._id = id ∧ t.user = req.userId)) with
  | none => ⟨db, failure 404 "Withdrawal not found", []⟩
  | some withdrawal =>
    if withdrawal.status ≠ "withdrawal_requested" then
      ⟨db, failure 400 "Only pending withdrawal requests can be cancelled", []⟩
    else
      match save db withdrawal
          (withdrawal.updateStatus "cancelled" (Payments.cancelData reason req.now) req.now)
          req.now with
      | .error _ => ⟨db, failure 500 "Failed to cancel withdrawal request", []⟩
      | .ok (db1, _) =>
        ⟨db1,
         ⟨200, .obj [("success", .bool true),
                     ("message", .str "Withdrawal request cancelled successfully"),
                     ("withdrawal", .obj [("id", .num withdrawal._id),
                                          ("status", .str "cancelled")])]⟩,
         []⟩

/-- The handler `POST /api/offramp/confirm-payment/:id`. `razorpayOrderId` is
the order reference it draws at random. After a successful `save` the response
is built from `metadata.bankDetails`, which is no path of the schema, so the
handler's `catch` answers. -/
def confirmPayment (razorpayOrderId : String) (req : Req) (id : Nat) (db : Db) : Outcome :=
  match db.find? (fun t => decide (t._id = id ∧ t.user = req.userId)) with
  | none => ⟨db, failure 404 "Withdrawal not found", []⟩
  | some withdrawal =>
    if withdrawal.status ≠ "crypto_verified" then
      ⟨db, failure 400 "Withdrawal must be verified before payment confirmation", []⟩
    else
      let completed :=
        { withdrawal with
          status := "completed"
          paymentStatus := "completed"
          metadata := { withdrawal.metadata with razorpayOrderId := some razorpayOrderId } }
      match save db withdrawal completed req.now with
      | .error _ => ⟨db, failure 500 "Failed to confirm payment", []⟩
      | .ok (db1, _) => ⟨db1, failure 500 "Failed to confirm payment", []⟩

end Offramp

/-! ## The direct payment route (`POST /send-payment` of `routes/payments.js`) -/

namespace Payments

/-- The body of `POST /send-payment`. -/
structure SendPaymentBody where
  amount : ℚ
  recipientAddress : String
  senderAddress : String
  description : Option String := none
  paymentMethod : Option String := none

/-- The validators of `POST /send-payment`. -/
def sendPaymentValidation (b : SendPaymentBody) : Bool :=
  decide ((1 : ℚ) / 100 ≤ b.amount) && decide (b.recipientAddress ≠ "") &&
  decide (b.senderAddress ≠ "")

/-- The method `s.toLowerCase()`, on the ASCII letters an address is made of. -/
def toLowerCase (s : String) : String := String.mk (s.toList.map Char.toLower)

/-- The record built by `new Transaction(...)` for a direct payment that went
through. Of the keys handed to `metadata` only `userAgent` and `ipAddress` are
paths of the schema. -/
def directTransaction (newId : Nat) (req : Req) (b : SendPaymentBody) (hash : String) :
    Transaction :=
  { _id := newId
    user := req.userId
    orderId := "direct_" ++ toString req.now
    amount := { inr := 0, token := b.amount }
    tokenType := "APT"
    walletAddress := jsTrim b.recipientAddress
    conversionRate := 1
    status := "completed"
    paymentId := some "direct_wallet_transfer"
    transactionHash := some hash
    metadata := { userAgent := req.userAgent, ipAddress := req.ip }
    timestamps := { created := req.now }
    createdAt := req.now
    updatedAt := req.now }

/-- The record built by `new Transaction(...)` for a direct payment whose
transfer failed. -/
def directFailedTransaction (newId : Nat) (req : Req) (b : SendPaymentBody) : Transaction :=
  { _id := newId
    user := req.userId
    orderId := "direct_failed_" ++ toString req.now
    amount := { inr := 0, token := b.amount }
    tokenType := "APT"
    walletAddress := jsTrim b.recipientAddress
    conversionRate := 1
    status := "failed"
    paymentId := some "direct_wallet_transfer_failed"
    metadata := { userAgent := req.userAgent, ipAddress := req.ip }
    timestamps := { created := req.now }
    createdAt := req.now
    updatedAt := req.now }

/-- The `catch (transferError)` block of `POST /send-payment`. -/
def sendPaymentCatch (db : Db) (newId : Nat) (req : Req) (b : SendPaymentBody)
    (message : String) (calls : List Call) : Outcome :=
  match saveNew db (directFailedTransaction newId req b) with
  | .error _ => ⟨db, failure 500 "Failed to process payment request", calls⟩
  | .ok db1 =>
    ⟨db1,
     ⟨500, .obj [("success", .bool false), ("error", .str "Payment transfer failed"),
                 ("message", .str (orDefault (some message) "Failed to send payment")),
                 ("transaction", .obj [("id", .num newId), ("status", .str "failed")])]⟩,
     calls⟩

/-- The handler `POST /api/payments/send-payment`. `transferAPTDirect` is the
direct transfer of the ledger service; `newId` and `newId2` are the object ids
of the two documents the handler may construct. -/
def sendPayment (transferAPTDirect : String → String → ℚ → Except String TransferResult)
    (newId newId2 : Nat) (req : Req) (b : SendPaymentBody) (db : Db) : Outcome :=
  if ¬ sendPaymentValidation b then ⟨db, validationError, []⟩
  else if toLowerCase b.senderAddress = toLowerCase b.recipientAddress then
    ⟨db, failure 400 "Cannot send payment to the same address", []⟩
  else if b.paymentMethod ≠ some "wallet" then
    ⟨db, failure 400 "Only wallet transfers are currently supported", []⟩
  else
    let calls := [Call.transferAPTDirect b.senderAddress b.recipientAddress b.amount]
    match transferAPTDirect b.senderAddress b.recipientAddress b.amount with
    | .error message => sendPaymentCatch db newId2 req b message calls
    | .ok transferResult =>
      match saveNew db (directTransaction newId req b transferResult.hash) with
      | .error message => sendPaymentCatch db newId2 req b message calls
      | .ok db1 =>
        ⟨db1,
         ⟨200, .obj [("success", .bool true), ("message", .str "Payment sent successfully"),
                     ("transactionHash", .str transferResult.hash),
                     ("explorerUrl",
                        .str (if transferResult.simulated then
                                "#simulated-transaction-" ++ transferResult.hash
                              else explorerLink transferResult.hash)),
                     ("payment", .obj [("amount", .num b.amount), ("tokenType", .str "APT"),
                                       ("from", .str b.senderAddress),
                                       ("to", .str b.recipientAddress),
                                       ("description", .str (orDefault b.description "")),
                                       ("isSimulated", .bool transferResult.simulated)]),
                     ("transaction", .obj [("id", .num newId), ("status", .str "completed"),
                                           ("createdAt", .date req.now),
                                           ("simulated", .bool transferResult.simulated)])]⟩,
         calls⟩

end Payments

/-! ## The ledger service (`services/aptosService.js`) -/

namespace AptosService

/-- An entry of the array returned by `transaction.simulate.simple`. -/
structure SimulationResult where
  success : Bool
  vm_status : Option String := none

/-- The transaction returned by `waitForTransaction`. -/
structure ConfirmedTransaction where
  hash : String
  success : Bool
  vm_status : Option String := none
  gas_used : Option String := none
  gas_unit_price : Option String := none

/-- The ledger client `this.aptos`: each method returns a value or throws an
error with a message. The balance query is given the number of balance queries
answered before it, so that a later query may see another balance. A built
transaction is an opaque handle. -/
structure Ledger where
  getLedgerInfo : Except String String
  getAccountAPTAmount : Nat → Except String ℤ
  fundAccount : ℤ → Except String Unit
  buildSimple : String → ℤ → Except String String
  simulateSimple : String → Except String (List SimulationResult)
  signAndSubmitTransaction : String → Except String String
  waitForTransaction : String → Except String ConfirmedTransaction

/-- The state of the service object that the transfers read: whether it is
initialised, its network, the address of its account, the number of balance
queries answered so far, and the clock. -/
structure Service where
  isInitialized : Bool
  network : String := "testnet"
  accountAddress : String
  queries : Nat := 0
  now : Nat

/-- What a service method leaves behind: the value it returns or the message
of the error it throws, and the calls it made, in order. -/
structure Outcome where
  result : Except String TransferResult
  calls : List Call

/-- The method `checkAccountBalance`: the balance in octas, or 0 when the
query throws. -/
def checkAccountBalance (L : Ledger) (k : Nat) : ℤ :=
  match L.getAccountAPTAmount k with
  | .ok balance => balance
  | .error _ => 0

/-- The calls of `initialize` when the service is not yet initialised: its one
balance check. Loading the account and creating the client are taken not to
throw. -/
def initCalls (svc : Service) : List Call :=
  if svc.isInitialized then [] else [Call.getAccountAPTAmount]

/-- The service after `if (!this.isInitialized) await this.initialize()`. -/
def initialized (svc : Service) : Service :=
  if svc.isInitialized then svc
  else { svc with isInitialized := true, queries := svc.queries + 1 }

/-- The expression `n.toString(16)` on an integer. -/
def toString16 (n : ℤ) : String :=
  if n < 0 then "-" ++ String.mk (Nat.toDigits 16 n.natAbs)
  else String.mk (Nat.toDigits 16 n.toNat)

/-- The mock hash of `simulateTransfer`: `"0x"` followed by sixty-four times
`Math.floor(Math.random() * 16).toString(16)`; `random i` is the `i`-th draw. -/
def mockHash (random : Nat → ℚ) : String :=
  "0x" ++ String.join ((List.range 64).map (fun i => toString16 ⌊random i * 16⌋))

/-- The method `simulateTransfer`. `random` gives the draws of `Math.random()`:
sixty-four for the hash and one for the delay. -/
def simulateTransfer (random : Nat → ℚ) (svc : Service) (toAddress : String) (amount : ℚ)
    (tokenType : String) : Outcome :=
  ⟨.ok { hash := mockHash random
         amount := amount
         tokenType := tokenType
         recipient := toAddress
         success := true
         simulated := true
         network := some svc.network
         gasUsed := some "2000"
         gasPrice := some "100"
         sender := some (if svc.isInitialized then orDefault (some svc.accountAddress) "0x1"
                         else "0x1")
         timestamp := some svc.now },
   [Call.sleep (2000 + random 64 * 1000)]⟩

/-- The method `transferUSDC`: the simulated transfer; its `catch` would run
the simulated transfer once more, but the simulated transfer does not throw. -/
def transferUSDC (random : Nat → ℚ) (svc : Service) (toAddress : String) (amount : ℚ) :
    Outcome :=
  simulateTransfer random svc toAddress amount "USDC"

/-- The outer `catch` of `transferAPT`: every error is thrown again with this
prefix. -/
def realFailed (message : String) : String := "Real APT transfer failed: " ++ message

/-- The part of `transferAPT` after the balance check: build, simulate, sign and
submit, wait for confirmation. `calls` are the calls made so far. -/
def submitAPT (L : Ledger) (svc : Service) (toAddress : String) (amount : ℚ)
    (amountInOctas : ℤ) (calls : List Call) : Outcome :=
  match L.buildSimple toAddress amountInOctas with
  | .error message =>
    ⟨.error (realFailed message), calls ++ [Call.buildSimple toAddress amountInOctas]⟩
  | .ok transaction =>
    match L.simulateSimple transaction with
    | .error message =>
      ⟨.error (realFailed message),
       calls ++ [Call.buildSimple toAddress amountInOctas, Call.simulateSimple]⟩
    | .ok simulationResult =>
      if ¬ (simulationResult.head?.map (fun s => s.success) = some true) then
        ⟨.error (realFailed ("Transaction simulation failed: " ++
            orDefault (simulationResult.head?.bind (fun s => s.vm_status)) "Unknown error")),
         calls ++ [Call.buildSimple toAddress amountInOctas, Call.simulateSimple]⟩
      else
        match L.signAndSubmitTransaction transaction with
        | .error message =>
          ⟨.error (realFailed message),
           calls ++ [Call.buildSimple toAddress amountInOctas, Call.simulateSimple,
             Call.signAndSubmitTransaction]⟩
        | .ok pendingHash =>
          match L.waitForTransaction pendingHash with
          | .error message =>
            ⟨.error (realFailed message),
             calls ++ [Call.buildSimple toAddress amountInOctas, Call.simulateSimple,
               Call.signAndSubmitTransaction, Call.waitForTransaction pendingHash]⟩
          | .ok confirmedTransaction =>
            if ¬ confirmedTransaction.success then
              ⟨.error (realFailed ("Transaction failed: " ++
                  orDefault confirmedTransaction.vm_status "Unknown error")),
               calls ++ [Call.buildSimple toAddress amountInOctas, Call.simulateSimple,
                 Call.signAndSubmitTransaction, Call.waitForTransaction pendingHash]⟩
            else
              ⟨.ok { hash := confirmedTransaction.hash
                     amount := amount
                     tokenType := "APT"
                     recipient := toAddress
                     success := true
                     network := some svc.network
                     gasUsed := confirmedTransaction.gas_used
                     gasPrice := confirmedTransaction.gas_unit_price
                     sender := some svc.accountAddress
                     timestamp := some svc.now
                     simulated := false },
               calls ++ [Call.buildSimple toAddress amountInOctas, Call.simulateSimple,
                 Call.signAndSubmitTransaction, Call.waitForTransaction pendingHash]⟩

/-- The method `transferAPT`. -/
def transferAPT (L : Ledger) (svc : Service) (toAddress : String) (amount : ℚ) : Outcome :=
  let amountInOctas : ℤ := ⌊amount * 100000000⌋
  let k := (initialized svc).queries
  match L.getLedgerInfo with
  | .error message => ⟨.error (realFailed message), initCalls svc ++ [Call.getLedgerInfo]⟩
  | .ok _ =>
    let balance := checkAccountBalance L k
    let calls1 := initCalls svc ++ [Call.getLedgerInfo, Call.getAccountAPTAmount]
    if balance < amountInOctas then
      let fundAmount := max 1000000000 (amountInOctas * 2)
      match L.fundAccount fundAmount with
      | .error message =>
        ⟨.error (realFailed ("Insufficient balance and faucet funding failed: " ++ message)),
         calls1 ++ [Call.fundAccount fundAmount]⟩
      | .ok _ =>
        let newBalance := checkAccountBalance L (k + 1)
        let calls2 :=
          calls1 ++ [Call.fundAccount fundAmount, Call.sleep 3000, Call.getAccountAPTAmount]
        if newBalance < amountInOctas then
          ⟨.error (realFailed ("Insufficient balance and faucet funding failed: " ++
              ("Still insufficient balance after faucet funding. Required: " ++
                toString amountInOctas ++ ", Available: " ++ toString newBalance))),
           calls2⟩
        else submitAPT L (initialized svc) toAddress amount amountInOctas calls2
    else submitAPT L (initialized svc) toAddress amount amountInOctas calls1

/-- The table `conversionRates` local to `transferTokens` (token per INR). -/
def conversionRates (tokenType : String) : Option ℚ :=
  if tokenType = "APT" then some (1 / 10)
  else if tokenType = "USDC" then some (12 / 1000)
  else none

/-- The method `transferTokens` of the service, which the routes call as the
transfer executor. -/
def transferTokens (L : Ledger) (random : Nat → ℚ) (svc : Service)
    (toAddress tokenType : String) (amountInINR : ℚ) : Outcome :=
  match conversionRates tokenType with
  | none => ⟨.error ("Unsupported token type: " ++ tokenType), initCalls svc⟩
  | some rate =>
    let tokenAmount := amountInINR * rate
    if tokenType = "APT" then
      let out := transferAPT L (initialized svc) toAddress tokenAmount
      ⟨out.result, initCalls svc ++ out.calls⟩
    else if tokenType = "USDC" then
      let out := transferUSDC random (initialized svc) toAddress tokenAmount
      ⟨out.result, initCalls svc ++ out.calls⟩
    else ⟨.error ("Unsupported token type: " ++ tokenType), initCalls svc⟩

end AptosService

/-! ## The manual transfer route (`POST /transfer-tokens` of `routes/payments.js`) -/

namespace Payments

/-- The record built by `new Transaction(...)` in `POST /transfer-tokens`. The
key `transferType` handed to `metadata` is no path of the schema. -/
def manualTransaction (newId : Nat) (req : Req) (b : CreateOrderBody)
    (conversionRate : ℚ) (hash : String) : Transaction :=
  { _id := newId
    user := req.userId
    orderId := "manual_" ++ toString req.now
    amount := { inr := b.amount, token := b.amount * conversionRate }
    tokenType := b.tokenType
    walletAddress := jsTrim b.walletAddress
    conversionRate := conversionRate
    status := "completed"
    paymentId := some "manual_transfer"
    transactionHash := some hash
    metadata := { userAgent := req.userAgent, ipAddress := req.ip }
    timestamps := { created := req.now }
    createdAt := req.now
    updatedAt := req.now }

/-- The handler `POST /api/payments/transfer-tokens`. Its body has the fields
and the validators of the body of `POST /create-order`; `transferTokens` is the
transfer executor. -/
def manualTransfer (transferTokens : String → String → ℚ → Except String TransferResult)
    (newId : Nat) (req : Req) (b : CreateOrderBody) (db : Db) : Outcome :=
  if ¬ createOrderValidation b then ⟨db, validationError, []⟩
  else
    let calls := [Call.transferTokens b.walletAddress b.tokenType b.amount]
    match transferTokens b.walletAddress b.tokenType b.amount with
    | .error message => ⟨db, failure 500 (orDefault (some message) "Failed to transfer tokens"), calls⟩
    | .ok transferResult =>
      match CONVERSION_RATES b.tokenType with
      | none => ⟨db, failure 500 "Transaction validation failed", calls⟩
      | some conversionRate =>
        let transaction := manualTransaction newId req b conversionRate transferResult.hash
        match saveNew db transaction with
        | .error message =>
          ⟨db, failure 500 (orDefault (some message) "Failed to transfer tokens"), calls⟩
        | .ok db1 =>
          ⟨db1,
           ⟨200, .obj [("success", .bool true),
                       ("message", .str "Tokens transferred successfully"),
                       ("transaction_hash", .str transferResult.hash),
                       ("explorer_url", .str (explorerLink transferResult.hash)),
                       ("transaction", .obj [("id", .num transaction._id),
                                             ("status", .str "completed"),
                                             ("tokenAmount", .num transaction.amount.token),
                                             ("tokenType", .str transaction.tokenType)])]⟩,
           calls⟩

end Payments

/-! ## The delayed step and the listing of `routes/offramp.js` -/

namespace Offramp

/-- The callback that `POST /verify-token-transfer` schedules with `setTimeout`,
run at time `now` on the document `withdrawal` the handler holds:
`withdrawal.updateStatus('bank_transfer_initiated', ...)`. Neither key of its
`additionalData` is a path of the schema, so `status` is the one path modified
in memory, and `save` sets that path and `updatedAt` on the stored document
with the id of `withdrawal`, whatever the stored document holds by then. -/
def bankTransferStep (db : Db) (withdrawal : Transaction) (now : Nat) : Db :=
  let initiated := withdrawal.updateStatus "bank_transfer_initiated"
    [("bankTransferInitiated", .date now),
     ("expectedCompletionDate", .date (now + 3 * 24 * 60 * 60 * 1000))] now
  if initiated.status ∈ statusEnum then
    db.map (fun r =>
      if r._id = withdrawal._id then { r with status := initiated.status, updatedAt := now }
      else r)
  else db

/-- The statuses listed in the filter of `GET /withdrawals`. -/
def withdrawalStatuses : List String :=
  ["withdrawal_requested", "transfer_verified", "bank_transfer_initiated", "completed"]

/-- The filter of `GET /withdrawals` as a predicate on stored documents;
`status` is `req.query.status`. The first disjunct of `$or` tests
`metadata.withdrawalType`, a key that is no path of the schema and that no
stored document holds, so the second disjunct decides. When a status is asked
for, the document must have it as well. -/
def withdrawalsFilter (userId : Nat) (status : Option String) (t : Transaction) : Bool :=
  decide (t.user = userId) &&
  (false || decide (t.status ∈ withdrawalStatuses)) &&
  (match status with
   | some s => if s = "" then true else decide (t.status = s)
   | none => true)

/-- The answer of `GET /withdrawals`: the page of documents and the pagination
block. -/
structure WithdrawalsPage where
  withdrawals : List Transaction
  currentPage : Nat
  totalPages : Nat
  totalWithdrawals : Nat
  hasNext : Bool
  hasPrev : Bool

/-- The handler `GET /api/offramp/withdrawals` for a page number and a page
size that are positive integers (the defaults are 1 and 10): the documents
that pass the filter, latest first, one page of them. -/
def getWithdrawals (req : Req) (page limit : Nat) (status : Option String) (db : Db) :
    WithdrawalsPage :=
  let matching := db.filter (withdrawalsFilter req.userId status)
  let sorted := matching.insertionSort (fun a b => b.createdAt ≤ a.createdAt)
  let total := matching.length
  { withdrawals := (sorted.drop ((page - 1) * limit)).take limit
    currentPage := page
    totalPages := (total + limit - 1) / limit
    totalWithdrawals := total
    hasNext := decide (page * limit < total)
    hasPrev := decide (1 < page) }

end Offramp

/-! ## Bank accounts on file (`models/BankDetails.js`, `routes/bankDetails.js`) -/

namespace Bank

/-- A document of the `BankDetails` collection. -/
structure BankDetails where
  _id : Nat
  userId : Nat
  bankName : String
  accountNumber : String
  accountHolderName : String
  ifscCode : String
  accountType : String := "savings"
  bankCountry : String := "India"
  isDefault : Bool := false
  isActive : Bool := true
  nickname : Option String := none
  createdAt : Nat
  updatedAt : Nat
deriving DecidableEq

/-- The `BankDetails` collection. -/
abbrev Collection := List BankDetails

/-- What a handler of `routes/bankDetails.js` leaves behind: the collection and
the response. -/
structure Outcome where
  db : Collection
  resp : Response

/-- The `enum` of the `accountType` path. -/
def accountTypeEnum : List String := ["savings", "current", "salary"]

/-- Validation of a document, as `doc.save()` runs it: the required paths are
present and `accountType` is a value of its `enum`. -/
def BankDetails.validate (doc : BankDetails) : Bool :=
  decide (doc.bankName ≠ "") && decide (doc.accountNumber ≠ "") &&
  decide (doc.accountHolderName ≠ "") && decide (doc.ifscCode ≠ "") &&
  decide (doc.bankCountry ≠ "") && decide (doc.accountType ∈ accountTypeEnum)

/-- The hook `bankDetailsSchema.pre('save')`: when the document is the default
and its `isDefault` was modified, `updateMany` clears `isDefault` on the other
active accounts of the same user. -/
def preSave (db : Collection) (orig doc : BankDetails) (now : Nat) : Collection :=
  if doc.isDefault = true ∧ doc.isDefault ≠ orig.isDefault then
    db.map (fun r =>
      if r.userId = doc.userId ∧ r._id ≠ doc._id ∧ r.isActive = true then
        { r with isDefault := false, updatedAt := now }
      else r)
  else db

/-- The call `doc.save()` on a loaded document: validation of the document,
the `pre('save')` hook, then the write. `orig` is the document as it was
loaded and `doc` its present in-memory state. -/
def save (db : Collection) (orig doc : BankDetails) (now : Nat) :
    Except String (Collection × BankDetails) :=
  if ¬ doc.validate then .error "BankDetails validation failed"
  else
    let db1 := preSave db orig doc now
    if doc = orig then .ok (db1, doc)
    else
      .ok (db1.map (fun r => if r._id = doc._id then { doc with updatedAt := now } else r),
           { doc with updatedAt := now })

/-- The query `findOne(filter).sort({ createdAt: -1 })`: the latest created
document that passes the filter. -/
def findLatest (p : BankDetails → Bool) (db : Collection) : Option BankDetails :=
  ((db.filter p).insertionSort (fun a b => b.createdAt ≤ a.createdAt)).head?

/-- The success response of `DELETE /:id`. -/
def deleted : Response :=
  ⟨200, .obj [("success", .bool true), ("message", .str "Bank details deleted successfully")]⟩

/-- The body of the handler that `routes/bankDetails.js` passes to
`router.delete('/:id', ...)` (soft delete). The test `if (bankDetails.isDefault)`
reads the in-memory document after the handler has assigned `isDefault = false`
to it and saved it. -/
def deleteBankDetails (req : Req) (id : Nat) (db : Collection) : Outcome :=
  match db.find? (fun r => decide (r._id = id ∧ r.userId = req.userId ∧ r.isActive = true)) with
  | none => ⟨db, failure 404 "Bank details not found"⟩
  | some bankDetails =>
    let activeBanksCount :=
      db.countP (fun r => decide (r.userId = req.userId ∧ r.isActive = true))
    if activeBanksCount = 1 then
      ⟨db, failure 400 "Cannot delete the only bank account. Add another bank account first."⟩
    else
      match save db bankDetails { bankDetails with isActive := false, isDefault := false }
          req.now with
      | .error _ => ⟨db, failure 500 "Failed to delete bank details"⟩
      | .ok (db1, saved) =>
        if saved.isDefault = true then
          match findLatest
              (fun r => decide (r.userId = req.userId ∧ r.isActive = true ∧ r._id ≠ id)) db1 with
          | none => ⟨db1, deleted⟩
          | some nextBank =>
            match save db1 nextBank { nextBank with isDefault := true } req.now with
            | .error _ => ⟨db1, failure 500 "Failed to delete bank details"⟩
            | .ok (db2, _) => ⟨db2, deleted⟩
        else ⟨db1, deleted⟩

/-- A value handed to a route registration of Express, as far as Express looks
at it: a function, or an object with the given keys. -/
inductive Handler where
  | function (name : String)
  | object (keys : List String)
deriving DecidableEq

/-- The string `Object.prototype.toString.call(handle)` that Express prints for
a handler it refuses. -/
def Handler.tag : Handler → String
  | .function _ => "[object Function]"
  | .object _ => "[object Object]"

/-- The test `typeof handle !== 'function'` of Express. -/
def Handler.notFunction : Handler → Bool
  | .function _ => false
  | .object _ => true

/-- The registration `router.METHOD(path, ...handlers)` of Express: a handler
that is not a function makes the call throw; otherwise the route is added to the
routes of the router. -/
def register (method path : String) (handlers : List Handler)
    (routes : List (String × String)) : Except String (List (String × String)) :=
  match handlers.find? Handler.notFunction with
  | some handle =>
    .error ("Route." ++ method ++ "() requires a callback function but got a " ++ handle.tag)
  | none => .ok (routes ++ [(method, path)])

/-- The exports of `middleware/auth.js`:
`module.exports = { auth, optionalAuth, adminOnly, kycVerified }`. -/
def authExports : Handler := .object ["auth", "optionalAuth", "adminOnly", "kycVerified"]

/-- The binding `const auth = require('../middleware/auth')` of
`routes/bankDetails.js`: the whole exports object, not its member `auth` (the
other route modules bind `const { auth } = require('../middleware/auth')`). -/
def auth : Handler := authExports

/-- The module body of `routes/bankDetails.js`: its six registrations in source
order, each with `auth` and the handler of the route. The result is the routes
of the exported router, or the error thrown while the module loads. -/
def router : Except String (List (String × String)) := do
  let r ← register "get" "/" [auth, .function "getBankDetails"] []
  let r ← register "get" "/default" [auth, .function "getDefault"] r
  let r ← register "post" "/" [auth, .function "createBankDetails"] r
  let r ← register "put" "/:id" [auth, .function "updateBankDetails"] r
  let r ← register "put" "/:id/set-default" [auth, .function "setDefault"] r
  register "delete" "/:id" [auth, .function "deleteBankDetails"] r

/-- The request `DELETE /api/bank-details/:id` as the application serves it:
`server.js` mounts the router that the module exports, so the handler runs only
when the module has loaded and registered the route. An error says why no
handler of the module ran. -/
def serveDelete (req : Req) (id : Nat) (db : Collection) : Except String Outcome :=
  match router with
  | .error e => .error e
  | .ok routes =>
    if ("delete", "/:id") ∈ routes then .ok (deleteBankDetails req id db)
    else .error "Cannot DELETE /api/bank-details/:id"

/-- The lookup of `POST /create-withdrawal`: the caller's active default bank
account, `BankDetails.findOne({ userId, isActive: true, isDefault: true })`. -/
def findDefault (userId : Nat) (db : Collection) : Option BankDetails :=
  db.find? (fun r => decide (r.userId = userId ∧ r.isActive = true ∧ r.isDefault = true))

/-- The fields of a bank account that `POST /create-withdrawal` reads. -/
def BankDetails.forWithdrawal (r : BankDetails) : Offramp.BankDetails :=
  { accountNumber := r.accountNumber, ifscCode := r.ifscCode,
    accountHolderName := r.accountHolderName, bankName := r.bankName }

end Bank

/-! ## Notions used in the statements -/

/-- The string `s` with the character at position `i` replaced by `c`. -/
def mutateAt (s : String) (i : Nat) (c : Char) : String :=
  String.mk (s.toList.set i c)

/-- The record `t'` is the record `t` as far as identity, owner and quote go. -/
def sameQuote (t t' : Transaction) : Prop :=
  t'._id = t._id ∧ t'.user = t.user ∧ t'.orderId = t.orderId ∧
  t'.walletAddress = t.walletAddress ∧ t'.tokenType = t.tokenType ∧ t'.amount = t.amount ∧
  t'.conversionRate = t.conversionRate

/-- The statuses from which the state machine of the spec allows no further
automatic transition. -/
def terminalStatuses : List String := ["completed", "cancelled", "failed"]

/-- A lowercase hexadecimal digit. -/
def isLowerHex (c : Char) : Bool := decide (c ∈ "0123456789abcdef".toList)

/-- A call that builds, simulates, signs, submits or awaits a ledger
transaction. -/
def Call.isSubmission : Call → Bool
  | .buildSimple _ _ => true
  | .simulateSimple => true
  | .signAndSubmitTransaction => true
  | .waitForTransaction _ => true
  | _ => false

/-- The quote of a record: its conversion rate and its two amounts. -/
def quoteOf (t : Transaction) : ℚ × ℚ × ℚ := (t.conversionRate, t.amount.inr, t.amount.token)

/-- The statuses of the off-ramp state machine. -/
def offrampStatuses : List String :=
  ["withdrawal_requested", "transfer_verified", "bank_transfer_initiated", "completed",
   "cancelled"]

/-! ## Sample data -/

/-- A sample authenticated user. -/
def sampleUser : User :=
  { _id := 1, name := "Asha", email := "asha@example.com", phone := some "9000000000",
    walletAddress := some "0xabc" }

/-- A sample request context of `sampleUser`. -/
def sampleReq : Req := { user := sampleUser, now := 1700000000123 }

/-- A sample request context of a second user. -/
def otherReq : Req :=
  { user := { _id := 2, name := "Ravi", email := "ravi@example.com", phone := some "9000000001" },
    now := 1700000000456 }

/-- A sample on-ramp record of `sampleUser` with the given status. -/
def sampleRecord (status : String) : Transaction :=
  { _id := 7, user := 1, orderId := "order_1", amount := { inr := 100, token := 10 },
    tokenType := "APT", walletAddress := "0xabc", conversionRate := 1 / 10, status := status,
    timestamps := { created := 5 }, createdAt := 5, updatedAt := 5 }

/-- A sample keyed hash: the digest spells out key and message. -/
def sampleHmac (secret message : String) : String := secret ++ "#" ++ message

/-- A sample transfer executor that always succeeds. -/
def sampleTransfer (toAddress tokenType : String) (amountInINR : ℚ) :
    Except String TransferResult :=
  .ok { hash := "0x1", amount := amountInINR / 10, tokenType := tokenType,
        recipient := toAddress, simulated := false }

/-- A sample gateway that always creates the order `order_9`. -/
def sampleGateway (_amountInPaise : ℤ) (_receipt : String) : Except String String :=
  .ok "order_9"

/-- A sample default bank account. -/
def sampleBank : Offramp.BankDetails :=
  { accountNumber := "123456789012", ifscCode := "HDFC0123456", accountHolderName := "Asha",
    bankName := "HDFC" }

/-- A sample withdrawal request: ten APT. -/
def sampleWithdrawalBody : Offramp.WithdrawalBody :=
  { amount := 10, tokenType := "APT", walletAddress := "0xabc" }

/-- A sample payment proof for `sampleRecord`, signed with `sampleHmac` under
the secret `k`. -/
def sampleProof : Payments.VerifyPaymentBody :=
  { razorpay_order_id := "order_1", razorpay_payment_id := "pay_1",
    razorpay_signature := "k#order_1|pay_1" }

/-- A later request of `sampleUser`. -/
def otherReqSameUser : Req := { user := sampleUser, now := 1700000009999 }

/-- A sample on-ramp record of `sampleUser` that has been settled. -/
def sampleCompleted : Transaction :=
  { sampleRecord "completed" with
    paymentId := some "pay_1"
    razorpaySignature := some "k#order_1|pay_1"
    paymentStatus := "success"
    transferStatus := "success"
    transactionHash := some "0x1"
    explorerUrl := some (explorerLink "0x1")
    timestamps := { created := 5, paymentVerified := some 6, transferCompleted := some 7 } }

/-- A sample withdrawal record of `sampleUser` with the given status. -/
def sampleWithdrawal (status : String) : Transaction :=
  { _id := 9, user := 1, orderId := "offramp_00000123", amount := { inr := 100, token := 10 },
    tokenType := "APT", walletAddress := "0xabc", conversionRate := 10, status := status,
    fees := { platform := 5 }, timestamps := { created := 5 }, createdAt := 5, updatedAt := 5 }

/-- A sample direct payment of `sampleUser`. -/
def sampleDirectBody : Payments.SendPaymentBody :=
  { amount := 2, recipientAddress := "0xdef", senderAddress := "0xabc",
    paymentMethod := some "wallet" }

/-- A sample direct transfer that always throws. -/
def failingDirect (_fromAddress _toAddress : String) (_amount : ℚ) :
    Except String TransferResult :=
  .error "Direct APT transfer failed: network down"

/-- A sample deposit claim for `sampleWithdrawal`. -/
def sampleVerifyBody : Offramp.VerifyTransferBody :=
  { withdrawalId := 9,
    transactionHash := "0x" ++ String.mk (List.replicate 64 'a') }

/-- A sample on-ramp record of `sampleUser` whose payment was verified and whose
transfer failed with the reason `first`. -/
def sampleFailed : Transaction :=
  { sampleRecord "failed" with
    paymentId := some "pay_1"
    razorpaySignature := some "k#order_1|pay_1"
    paymentStatus := "success"
    transferStatus := "failed"
    notes := some "Transfer failed: first"
    timestamps := { created := 5, paymentVerified := some 6 } }

/-- A sample transfer executor that always throws the error `second`. -/
def failingTransfer (_toAddress _tokenType : String) (_amountInINR : ℚ) :
    Except String TransferResult :=
  .error "second"

/-- A sample transfer executor that always succeeds with a simulated transfer
carrying the hash that `sampleTransfer` reports. -/
def simulatedTransfer (toAddress tokenType : String) (amountInINR : ℚ) :
    Except String TransferResult :=
  .ok { hash := "0x1", amount := amountInINR / 10, tokenType := tokenType,
        recipient := toAddress, simulated := true }

/-- A sample error message of five hundred characters. -/
def longMessage : String := String.mk (List.replicate 500 'x')

/-- A sample transfer executor that always throws `longMessage`. -/
def longFailingTransfer (_toAddress _tokenType : String) (_amountInINR : ℚ) :
    Except String TransferResult :=
  .error longMessage

/-- A sample initialised ledger service. -/
def sampleService : AptosService.Service :=
  { isInitialized := true, accountAddress := "0x5e7", now := 1700000000123 }

/-- A sample sequence of random draws, all one half. -/
def sampleRandom (_i : Nat) : ℚ := 1 / 2

/-- A sample ledger whose signer account stays empty: the faucet accepts the
request, but the balance remains 0. -/
def poorLedger : AptosService.Ledger :=
  { getLedgerInfo := .ok "1"
    getAccountAPTAmount := fun _ => .ok 0
    fundAccount := fun _ => .ok ()
    buildSimple := fun _ _ => .ok "tx"
    simulateSimple := fun _ => .ok [{ success := true }]
    signAndSubmitTransaction := fun _ => .ok "0xpending"
    waitForTransaction := fun h => .ok { hash := h, success := true } }

/-- A sample ledger with a funded signer account whose simulation rejects the
transfer. -/
def rejectingLedger : AptosService.Ledger :=
  { getLedgerInfo := .ok "1"
    getAccountAPTAmount := fun _ => .ok 10000000000
    fundAccount := fun _ => .ok ()
    buildSimple := fun _ _ => .ok "tx"
    simulateSimple := fun _ => .ok [{ success := false, vm_status := some "MOVE_ABORT" }]
    signAndSubmitTransaction := fun _ => .ok "0xpending"
    waitForTransaction := fun h => .ok { hash := h, success := true } }

/-- A sample direct transfer that always succeeds. -/
def sampleDirect (_fromAddress toAddress : String) (amount : ℚ) :
    Except String TransferResult :=
  .ok { hash := "0x1", amount := amount, tokenType := "APT", recipient := toAddress,
        simulated := false }

/-- A second payment proof for `sampleRecord`, carrying another payment id and
signed with `sampleHmac` under the secret `k`. -/
def secondProof : Payments.VerifyPaymentBody :=
  { razorpay_order_id := "order_1", razorpay_payment_id := "pay_2",
    razorpay_signature := "k#order_1|pay_2" }

/-- Two sample bank accounts of `sampleUser`: the first is the default, the
second was added later. -/
def sampleAccounts : Bank.Collection :=
  [{ _id := 21, userId := 1, bankName := "HDFC", accountNumber := "123456789012",
     accountHolderName := "Asha", ifscCode := "HDFC0123456", isDefault := true,
     createdAt := 3, updatedAt := 3 },
   { _id := 22, userId := 1, bankName := "SBI", accountNumber := "998877665544",
     accountHolderName := "Asha", ifscCode := "SBIN0001234", isDefault := false,
     createdAt := 4, updatedAt := 4 }]

/-- A request of `sampleUser` made 100000000 ms (about 28 hours) after
`sampleReq`. -/
def laterReq : Req := { user := sampleUser, now := 1700100000123 }

end WalletFlow

/-! ## Theorems -/

namespace WalletFlow

/-! ### Helper lemmas -/

theorem updateStatus_paymentFailed (t : Transaction) (now : Nat) :
    t.updateStatus "failed" [("paymentFailed", .bool true)] now
      = { t with status := "failed", paymentStatus := "failed" } := by
  simp +decide [Transaction.updateStatus, flag, List.lookup, Json.truthy,
    Transaction.assignAll, schemaPaths]

theorem validate_iff (t : Transaction) :
    t.validate = true ↔
      t.orderId ≠ "" ∧ t.walletAddress ≠ "" ∧ t.tokenType ∈ tokenTypeEnum ∧
      t.status ∈ statusEnum ∧ t.paymentStatus ∈ subStatusEnum ∧
      t.transferStatus ∈ subStatusEnum ∧ amountInrValidator t = true ∧
      (∀ s, t.notes = some s → s.length ≤ 500) := by
  unfold Transaction.validate
  simp only [Bool.and_eq_true, decide_eq_true_eq]
  constructor
  · rintro ⟨⟨⟨⟨⟨⟨⟨h1, h2⟩, h3⟩, h4⟩, h5⟩, h6⟩, h7⟩, h8⟩
    refine ⟨h1, h2, h3, h4, h5, h6, h7, ?_⟩
    intro s hs
    rw [hs] at h8
    simpa using h8
  · rintro ⟨h1, h2, h3, h4, h5, h6, h7, h8⟩
    refine ⟨⟨⟨⟨⟨⟨⟨h1, h2⟩, h3⟩, h4⟩, h5⟩, h6⟩, h7⟩, ?_⟩
    cases hn : t.notes with
    | none => rfl
    | some s => simpa using h8 s hn

/-- Validation passes for a document that passed it before an update of its
status fields, when the new statuses are values of their enums and the payment
id, the amounts and the identifying strings are as before. -/
theorem validate_of_same (t u : Transaction) (hv : t.validate = true)
    (h1 : u.orderId = t.orderId) (h2 : u.walletAddress = t.walletAddress)
    (h3 : u.tokenType = t.tokenType) (h4 : u.status ∈ statusEnum)
    (h5 : u.paymentStatus ∈ subStatusEnum) (h6 : u.transferStatus ∈ subStatusEnum)
    (h7 : u.amount = t.amount) (h8 : u.paymentId = t.paymentId)
    (h9 : ∀ s, u.notes = some s → s.length ≤ 500) : u.validate = true := by
  rw [validate_iff] at hv ⊢
  obtain ⟨a1, a2, a3, -, -, -, a7, -⟩ := hv
  refine ⟨by rw [h1]; exact a1, by rw [h2]; exact a2, by rw [h3]; exact a3, h4, h5, h6, ?_, h9⟩
  unfold amountInrValidator at a7 ⊢
  rw [h7, h8]
  exact a7

theorem save_of_valid (db : Db) (orig t : Transaction) (now : Nat)
    (h : t.validate = true) :
    save db orig t now
      = if t = orig then .ok (db, t)
        else .ok (Db.replace db { t with updatedAt := now }, { t with updatedAt := now }) := by
  unfold save
  rw [if_neg (fun hn => hn h)]

theorem save_of_invalid (db : Db) (orig t : Transaction) (now : Nat)
    (h : t.validate = false) :
    save db orig t now = .error "Transaction validation failed" := by
  unfold save
  rw [if_pos (by rw [h]; decide)]

/-- What a successful `save` tells: the document passed validation, and either
it had no changes and nothing was written, or it was written with `updatedAt`
stamped. -/
theorem save_ok (db db1 : Db) (orig t d : Transaction) (now : Nat)
    (hs : save db orig t now = .ok (db1, d)) :
    t.validate = true ∧
    ((t = orig ∧ db1 = db ∧ d = t) ∨
     (t ≠ orig ∧ db1 = Db.replace db { t with updatedAt := now } ∧
      d = { t with updatedAt := now })) := by
  cases hv : t.validate with
  | false => rw [save_of_invalid db orig t now hv] at hs; cases hs
  | true =>
    rw [save_of_valid db orig t now hv] at hs
    refine ⟨rfl, ?_⟩
    by_cases h : t = orig
    · rw [if_pos h] at hs
      injection hs with hs
      injection hs with h1 h2
      exact Or.inl ⟨h, h1.symm, h2.symm⟩
    · rw [if_neg h] at hs
      injection hs with hs
      injection hs with h1 h2
      exact Or.inr ⟨h, h1.symm, h2.symm⟩

theorem validate_updatedAt (t : Transaction) (u : Nat) :
    Transaction.validate { t with updatedAt := u } = t.validate := rfl

theorem save_valid (db db1 : Db) (orig t d : Transaction) (now : Nat)
    (hs : save db orig t now = .ok (db1, d)) : d.validate = true := by
  obtain ⟨hv, h | h⟩ := save_ok db db1 orig t d now hs
  · rw [h.2.2]; exact hv
  · rw [h.2.2, validate_updatedAt]; exact hv

theorem valid_paymentFailed (t : Transaction) (now : Nat) (hv : t.validate = true) :
    Transaction.validate (t.updateStatus "failed" [("paymentFailed", .bool true)] now)
      = true := by
  rw [updateStatus_paymentFailed]
  exact validate_of_same t _ hv rfl rfl rfl (by decide : "failed" ∈ statusEnum)
    (by decide : "failed" ∈ subStatusEnum)
    ((validate_iff t).mp hv).2.2.2.2.2.1 rfl rfl ((validate_iff t).mp hv).2.2.2.2.2.2.2

theorem save_paymentFailed (db : Db) (t : Transaction) (now : Nat) (hv : t.validate = true) :
    ∃ db1 d, save db t (t.updateStatus "failed" [("paymentFailed", .bool true)] now) now
      = .ok (db1, d) ∧ d.status = "failed" ∧ d.paymentStatus = "failed" ∧
        d.paymentId = t.paymentId ∧ d.transactionHash = t.transactionHash := by
  rw [save_of_valid _ _ _ _ (valid_paymentFailed t now hv), updateStatus_paymentFailed]
  split
  · exact ⟨_, _, rfl, rfl, rfl, rfl, rfl⟩
  · exact ⟨_, _, rfl, rfl, rfl, rfl, rfl⟩

theorem mutateAt_ne (s : String) (i : Nat) (c : Char) (hi : i < s.length)
    (hc : s.toList[i]? ≠ some c) : mutateAt s i c ≠ s := by
  intro h
  apply hc
  have h2 : s.toList.set i c = s.toList := congrArg String.toList h
  have hi2 : i < s.toList.length := hi
  have h3 : (s.toList.set i c)[i]? = some c := List.getElem?_set_self hi2
  rw [h2] at h3
  exact h3

theorem updateStatus_verified (t : Transaction) (now : Nat) :
    t.updateStatus "payment_verified" [] now
      = if t.timestamps.paymentVerified = none then
          { t with status := "payment_verified",
                   timestamps := { t.timestamps with paymentVerified := some now },
                   paymentStatus := "success" }
        else { t with status := "payment_verified" } := by
  simp +decide [Transaction.updateStatus, Transaction.assignAll]

theorem valid_verified (t : Transaction) (pid sig : String) (now : Nat)
    (hv : t.validate = true) (hinr : 10 ≤ t.amount.inr) :
    Transaction.validate (Transaction.updateStatus
      { t with paymentId := some pid, razorpaySignature := some sig }
      "payment_verified" [] now) = true := by
  obtain ⟨a1, a2, a3, -, a5, a6, -, a8⟩ := (validate_iff t).mp hv
  have hamt : ∀ u : Transaction, u.amount = t.amount → amountInrValidator u = true := by
    intro u hu
    unfold amountInrValidator
    rw [hu]
    split
    · exact decide_eq_true (le_trans (by norm_num) hinr)
    · exact decide_eq_true hinr
  rw [updateStatus_verified]
  split
  · exact (validate_iff _).mpr ⟨a1, a2, a3, (by decide : "payment_verified" ∈ statusEnum),
      (by decide : "success" ∈ subStatusEnum), a6, hamt _ rfl, a8⟩
  · exact (validate_iff _).mpr ⟨a1, a2, a3, (by decide : "payment_verified" ∈ statusEnum),
      a5, a6, hamt _ rfl, a8⟩

theorem save_verified (db : Db) (t : Transaction) (pid sig : String) (now : Nat)
    (hv : t.validate = true) (hinr : 10 ≤ t.amount.inr) :
    ∃ db1 d,
      save db t (Transaction.updateStatus
        { t with paymentId := some pid, razorpaySignature := some sig }
        "payment_verified" [] now) now = .ok (db1, d) ∧
      d.walletAddress = t.walletAddress ∧ d.tokenType = t.tokenType ∧ d.amount = t.amount ∧
      d.status = "payment_verified" ∧ d.paymentId = some pid ∧ d._id = t._id ∧
      (db1 = db ∨ db1 = Db.replace db d) := by
  rw [save_of_valid _ _ _ _ (valid_verified t pid sig now hv hinr), updateStatus_verified]
  split
  · split
    · refine ⟨_, _, rfl, ?_⟩; simp
    · refine ⟨_, _, rfl, ?_⟩; simp
  · split
    · refine ⟨_, _, rfl, ?_⟩; simp
    · refine ⟨_, _, rfl, ?_⟩; simp

theorem find?_replace (p : Transaction → Bool) (db : Db) (t d : Transaction)
    (hfind : db.find? p = some t) (hid : d._id = t._id) (hp : p d = true) :
    (Db.replace db d).find? p = some d := by
  induction db with
  | nil => simp at hfind
  | cons r rest ih =>
    simp only [Db.replace, List.map_cons, List.find?_cons] at hfind ⊢
    by_cases hr : r._id = d._id
    · simp [hr, hp]
    · simp only [hr, if_false]
      cases hpr : p r with
      | true =>
        simp only [hpr] at hfind
        injection hfind with h
        exact absurd (by rw [h, hid]) hr
      | false =>
        simp only [hpr] at hfind ⊢
        exact ih hfind

theorem updateStatus_completed (t : Transaction) (r : TransferResult) (now : Nat) :
    t.updateStatus "completed" (Payments.completedData r) now
      = if t.timestamps.transferCompleted = none then
          { t with status := "completed",
                   timestamps := { t.timestamps with transferCompleted := some now },
                   transferStatus := "success",
                   transactionHash := some r.hash,
                   explorerUrl := some (explorerLink r.hash) }
        else
          { t with status := "completed",
                   transactionHash := some r.hash,
                   explorerUrl := some (explorerLink r.hash) } := by
  by_cases h : t.timestamps.transferCompleted = none <;>
    simp +decide [Transaction.updateStatus, Transaction.assignAll, Payments.completedData,
      schemaPaths, Transaction.assign, h]

theorem updateStatus_transferFailed (t : Transaction) (note : String) (now : Nat) :
    t.updateStatus "failed" [("transferFailed", .bool true), ("notes", .str note)] now
      = { t with status := "failed", transferStatus := "failed", notes := some note } := by
  simp +decide [Transaction.updateStatus, Transaction.assignAll, flag, List.lookup, Json.truthy,
    schemaPaths, Transaction.assign]

theorem valid_completed (t : Transaction) (r : TransferResult) (now : Nat)
    (hv : t.validate = true) :
    Transaction.validate (t.updateStatus "completed" (Payments.completedData r) now)
      = true := by
  obtain ⟨-, -, -, -, a5, a6, -, a8⟩ := (validate_iff t).mp hv
  rw [updateStatus_completed]
  split
  · exact validate_of_same t _ hv rfl rfl rfl (by decide : "completed" ∈ statusEnum) a5
      (by decide : "success" ∈ subStatusEnum) rfl rfl a8
  · exact validate_of_same t _ hv rfl rfl rfl (by decide : "completed" ∈ statusEnum) a5 a6
      rfl rfl a8

theorem save_find (p : Transaction → Bool) (db db1 : Db) (orig t d : Transaction) (now : Nat)
    (hs : save db orig t now = .ok (db1, d)) (hfind : db.find? p = some orig)
    (hid : t._id = orig._id) (hp : ∀ u, p { t with updatedAt := u } = true) :
    db1.find? p = some d ∧ (d = t ∨ d = { t with updatedAt := now }) := by
  obtain ⟨-, h | h⟩ := save_ok db db1 orig t d now hs
  · rw [h.2.1, h.2.2, h.1]
    exact ⟨hfind, Or.inl rfl⟩
  · rw [h.2.1, h.2.2]
    exact ⟨find?_replace p db orig _ hfind hid (hp now), Or.inr rfl⟩

/-- What `verify-payment` does with a valid proof for a record it finds: it
calls the transfer executor once, with the record's wallet, token type and
fiat amount, and leaves the record findable under the same key, with the same
quote and with the proof's payment id; it answers 200 and the record is
completed, carrying the new hash, when the transfer succeeds, and answers 500
with the record failed or still payment_verified when it throws. -/
theorem verifyPayment_valid (hmacHex : String → String → String) (secret : String)
    (transferTokens : String → String → ℚ → Except String TransferResult)
    (req : Req) (b : Payments.VerifyPaymentBody) (db : Db) (t : Transaction)
    (hv : Payments.verifyPaymentValidation b = true)
    (hfind : db.find? (fun t => decide (t.orderId = b.razorpay_order_id ∧ t.user = req.userId))
      = some t)
    (heq : b.razorpay_signature = Payments.expectedSignature hmacHex secret b)
    (hvt : t.validate = true) (hinr : 10 ≤ t.amount.inr) :
    (Payments.verifyPayment hmacHex secret transferTokens req b db).calls
      = [Call.transferTokens t.walletAddress t.tokenType t.amount.inr] ∧
    ∃ t', (Payments.verifyPayment hmacHex secret transferTokens req b db).db.find?
        (fun t => decide (t.orderId = b.razorpay_order_id ∧ t.user = req.userId)) = some t' ∧
      sameQuote t t' ∧ t'.paymentId = some b.razorpay_payment_id ∧
      (∀ r, transferTokens t.walletAddress t.tokenType t.amount.inr = .ok r →
        (Payments.verifyPayment hmacHex secret transferTokens req b db).resp.code = 200 ∧
        t'.status = "completed" ∧ t'.transactionHash = some r.hash) ∧
      (∀ m, transferTokens t.walletAddress t.tokenType t.amount.inr = .error m →
        (Payments.verifyPayment hmacHex secret transferTokens req b db).resp.code = 500 ∧
        (t'.status = "failed" ∨ t'.status = "payment_verified")) ∧
      t'.validate = true := by
  have hpt : t.orderId = b.razorpay_order_id ∧ t.user = req.userId := by
    have := List.find?_some hfind
    simpa using this
  -- first save: payment verified
  have hs1 := save_of_valid db t (Transaction.updateStatus
      { t with paymentId := some b.razorpay_payment_id,
               razorpaySignature := some b.razorpay_signature }
      "payment_verified" [] req.now) req.now (valid_verified t _ _ _ hvt hinr)
  obtain ⟨db1, d, hsave1⟩ : ∃ db1 d, save db t (Transaction.updateStatus
      { t with paymentId := some b.razorpay_payment_id,
               razorpaySignature := some b.razorpay_signature }
      "payment_verified" [] req.now) req.now = .ok (db1, d) := by
    rw [hs1]; split <;> exact ⟨_, _, rfl⟩
  have hd := save_find _ db db1 t _ d req.now hsave1 hfind
    (by rw [updateStatus_verified]; split <;> rfl)
    (by intro u; rw [updateStatus_verified]; split <;> simpa using hpt)
  have hdq : sameQuote t d ∧ d.status = "payment_verified" ∧
      d.paymentId = some b.razorpay_payment_id := by
    rcases hd.2 with h | h <;> rw [h, updateStatus_verified] <;> split <;>
      simp [sameQuote]
  obtain ⟨hq, hst, hpid⟩ := hdq
  have hdv : d.validate = true := save_valid _ _ _ _ _ _ hsave1
  have hpd : d.orderId = b.razorpay_order_id ∧ d.user = req.userId := by
    rw [hq.2.2.1, hq.2.1]; exact hpt
  unfold Payments.verifyPayment
  simp only [hv, not_true_eq_false, if_false, hfind]
  rw [if_neg (fun h => h heq.symm)]
  simp only [hsave1]
  rw [hq.2.2.2.1, hq.2.2.2.2.1, hq.2.2.2.2.2.1]
  cases hx : transferTokens t.walletAddress t.tokenType t.amount.inr with
  | error m =>
    simp only [Payments.verifyPaymentCatch]
    cases hsave2 : save db1 d (d.updateStatus "failed"
        [("transferFailed", .bool true), ("notes", .str ("Transfer failed: " ++ m))] req.now)
        req.now with
    | error e =>
      refine ⟨rfl, d, hd.1, hq, hpid, ?_, ?_, hdv⟩
      · intro r hr; cases hr
      · intro m2 _; exact ⟨rfl, Or.inr hst⟩
    | ok res =>
      obtain ⟨db2, f⟩ := res
      have hf := save_find _ db1 db2 d _ f req.now hsave2 hd.1
        (by rw [updateStatus_transferFailed])
        (by intro u; rw [updateStatus_transferFailed]; simpa using hpd)
      have hfq : sameQuote d f ∧ f.status = "failed" ∧ f.paymentId = d.paymentId := by
        rcases hf.2 with h | h <;> rw [h, updateStatus_transferFailed] <;> simp [sameQuote]
      refine ⟨rfl, f, hf.1, ?_, ?_, ?_, ?_, save_valid _ _ _ _ _ _ hsave2⟩
      · obtain ⟨a1, a2, a3, a4, a5, a6, a7⟩ := hfq.1
        obtain ⟨c1, c2, c3, c4, c5, c6, c7⟩ := hq
        exact ⟨a1.trans c1, a2.trans c2, a3.trans c3, a4.trans c4, a5.trans c5, a6.trans c6,
          a7.trans c7⟩
      · rw [hfq.2.2, hpid]
      · intro r hr; cases hr
      · intro m2 _; exact ⟨rfl, Or.inl hfq.2.1⟩
  | ok r =>
    simp only
    have hs2 := save_of_valid db1 d (d.updateStatus "completed" (Payments.completedData r)
      req.now) req.now (valid_completed d r req.now hdv)
    obtain ⟨db2, c, hsave2⟩ : ∃ db2 c, save db1 d
        (d.updateStatus "completed" (Payments.completedData r) req.now) req.now
          = .ok (db2, c) := by
      rw [hs2]; split <;> exact ⟨_, _, rfl⟩
    have hc := save_find _ db1 db2 d _ c req.now hsave2 hd.1
      (by rw [updateStatus_completed]; split <;> rfl)
      (by intro u; rw [updateStatus_completed]; split <;> simpa using hpd)
    have hcq : sameQuote d c ∧ c.status = "completed" ∧ c.paymentId = d.paymentId ∧
        c.transactionHash = some r.hash := by
      rcases hc.2 with h | h <;> rw [h, updateStatus_completed] <;> split <;>
        simp [sameQuote]
    simp only [hsave2]
    refine ⟨trivial, c, hc.1, ?_, ?_, ?_, ?_, save_valid _ _ _ _ _ _ hsave2⟩
    · obtain ⟨a1, a2, a3, a4, a5, a6, a7⟩ := hcq.1
      obtain ⟨c1, c2, c3, c4, c5, c6, c7⟩ := hq
      exact ⟨a1.trans c1, a2.trans c2, a3.trans c3, a4.trans c4, a5.trans c5, a6.trans c6,
        a7.trans c7⟩
    · rw [hcq.2.2.1, hpid]
    · intro r2 hr
      injection hr with hr
      subst hr
      exact ⟨trivial, hcq.2.1, hcq.2.2.2⟩
    · intro m hm; cases hm

theorem find?_other_owner_id (db : Db) (r : Transaction) (uid : Nat) (q : Transaction → Prop)
    [DecidablePred q]
    (huniq : ∀ x ∈ db, x._id = r._id → x = r) (hne : uid ≠ r.user) :
    db.find? (fun t => decide (t._id = r._id ∧ t.user = uid ∧ q t)) = none := by
  rw [List.find?_eq_none]
  intro x hx
  simp only [decide_eq_true_eq, not_and]
  intro hid hu
  rw [huniq x hx hid] at hu
  exact absurd hu.symm hne

theorem find?_other_owner_id2 (db : Db) (r : Transaction) (uid : Nat)
    (huniq : ∀ x ∈ db, x._id = r._id → x = r) (hne : uid ≠ r.user) :
    db.find? (fun t => decide (t._id = r._id ∧ t.user = uid)) = none := by
  rw [List.find?_eq_none]
  intro x hx
  simp only [decide_eq_true_eq, not_and]
  intro hid hu
  rw [huniq x hx hid] at hu
  exact absurd hu.symm hne

theorem find?_other_owner_order (db : Db) (r : Transaction) (uid : Nat)
    (huniq : ∀ x ∈ db, x.orderId = r.orderId → x = r) (hne : uid ≠ r.user) :
    db.find? (fun t => decide (t.orderId = r.orderId ∧ t.user = uid)) = none := by
  rw [List.find?_eq_none]
  intro x hx
  simp only [decide_eq_true_eq, not_and]
  intro hid hu
  rw [huniq x hx hid] at hu
  exact absurd hu.symm hne

/-- What `verify-payment` does with a wrong signature for a record it finds:
one write, of the record with status and paymentStatus set to failed, and the
answer 400, without any call. -/
theorem verifyPayment_invalid (hmacHex : String → String → String) (secret : String)
    (transferTokens : String → String → ℚ → Except String TransferResult)
    (req : Req) (b : Payments.VerifyPaymentBody) (db : Db) (t : Transaction)
    (hv : Payments.verifyPaymentValidation b = true)
    (hfind : db.find? (fun t => decide (t.orderId = b.razorpay_order_id ∧ t.user = req.userId))
      = some t)
    (hne : b.razorpay_signature ≠ Payments.expectedSignature hmacHex secret b)
    (hvt : t.validate = true) :
    ∃ db1 d, Payments.verifyPayment hmacHex secret transferTokens req b db
        = ⟨db1, failure 400 "Invalid payment signature", []⟩ ∧
      db1.find? (fun t => decide (t.orderId = b.razorpay_order_id ∧ t.user = req.userId))
        = some d ∧
      (d = { t with status := "failed", paymentStatus := "failed" } ∨
       d = { t with status := "failed", paymentStatus := "failed", updatedAt := req.now }) ∧
      (db1 = db ∨ db1 = Db.replace db d) := by
  have hpt : t.orderId = b.razorpay_order_id ∧ t.user = req.userId := by
    have := List.find?_some hfind
    simpa using this
  have hs := save_of_valid db t (t.updateStatus "failed" [("paymentFailed", .bool true)] req.now)
    req.now (valid_paymentFailed t req.now hvt)
  obtain ⟨db1, d, hsave⟩ : ∃ db1 d, save db t
      (t.updateStatus "failed" [("paymentFailed", .bool true)] req.now) req.now
        = .ok (db1, d) := by
    rw [hs]; split <;> exact ⟨_, _, rfl⟩
  have hd := save_find _ db db1 t _ d req.now hsave hfind
    (by rw [updateStatus_paymentFailed])
    (by intro u; rw [updateStatus_paymentFailed]; simpa using hpt)
  have hdb : db1 = db ∨ db1 = Db.replace db d := by
    rw [hs] at hsave
    split at hsave
    · injection hsave with h; injection h with h1 h2; exact Or.inl h1.symm
    · injection hsave with h; injection h with h1 h2; rw [← h1, ← h2]; exact Or.inr rfl
  refine ⟨db1, d, ?_, hd.1, ?_, hdb⟩
  · unfold Payments.verifyPayment
    simp only [hv, not_true_eq_false, if_false, hfind]
    rw [if_pos (Ne.symm hne)]
    simp only [hsave]
  · rcases hd.2 with h | h
    · left; rw [h, updateStatus_paymentFailed]
    · right; rw [h, updateStatus_paymentFailed]

theorem saveNew_ok (db db1 : Db) (t : Transaction) (h : saveNew db t = .ok db1) :
    db1 = db ++ [t] := by
  unfold saveNew at h
  split at h
  · cases h
  · split at h
    · cases h
    · injection h with h; exact h.symm

theorem createOrder_prefix (razorpayCreate : ℤ → String → Except String String) (newId : Nat)
    (req : Req) (b : Payments.CreateOrderBody) (db : Db) :
    db <+: (Payments.createOrder razorpayCreate newId req b db).db := by
  unfold Payments.createOrder
  by_cases hv : Payments.createOrderValidation b = true
  · simp only [hv, not_true_eq_false, if_false]
    cases Payments.CONVERSION_RATES b.tokenType with
    | none => exact List.prefix_refl _
    | some rate =>
      simp only
      cases razorpayCreate (mathRound (b.amount * 100)) ("onramp_" ++ last8 req.now) with
      | error e => exact List.prefix_refl _
      | ok oid =>
        simp only
        cases hins : saveNew db (Payments.newOrderTransaction newId req b rate (b.amount * rate)
            oid ("onramp_" ++ last8 req.now)) with
        | error e => exact List.prefix_refl _
        | ok db1 =>
          simp only
          rw [saveNew_ok _ _ _ hins]
          exact List.prefix_append _ _
  · simp only [hv, not_false_eq_true, if_true]
    exact List.prefix_refl _

theorem createWithdrawal_prefix (bank : Option Offramp.BankDetails) (newId : Nat) (req : Req)
    (b : Offramp.WithdrawalBody) (db : Db) :
    db <+: (Offramp.createWithdrawal bank newId req b db).db := by
  unfold Offramp.createWithdrawal
  by_cases hv : Offramp.withdrawalValidation b = true
  · simp only [hv, not_true_eq_false, if_false]
    cases bank with
    | none => exact List.prefix_refl _
    | some bk =>
      simp only
      by_cases hp : Offramp.noPhone req.user = true
      · simp only [hp, if_true]
        exact List.prefix_refl _
      · simp only [hp, if_false]
        cases Offramp.CONVERSION_RATES b.tokenType with
        | none => exact List.prefix_refl _
        | some rate =>
          simp only
          by_cases hnet : b.amount * rate - max 5 (min 500 (b.amount * rate * (25 / 1000))) < 5
          · simp only [hnet, if_true]
            exact List.prefix_refl _
          · simp only [hnet, if_false]
            cases hins : saveNew db (Offramp.newWithdrawal newId req b rate (b.amount * rate)
                (max 5 (min 500 (b.amount * rate * (25 / 1000))))) with
            | error e => exact List.prefix_refl _
            | ok db1 =>
              simp only
              rw [saveNew_ok _ _ _ hins]
              exact List.prefix_append _ _
  · simp only [hv, not_false_eq_true, if_true]
    exact List.prefix_refl _

theorem updateStatus_cancelled (t : Transaction) (reason : Option String) (now : Nat) :
    t.updateStatus "cancelled" (Payments.cancelData reason now) now
      = { t with status := "cancelled" } := by
  simp +decide [Transaction.updateStatus, Transaction.assignAll, Payments.cancelData,
    schemaPaths]

theorem updateStatus_blockchainConfirmed (w : Transaction) (hash : String) (now : Nat) :
    w.updateStatus "transfer_verified"
        [("transactionHash", .str hash), ("explorerUrl", .str (explorerLink hash)),
         ("verificationMethod", .str "blockchain_confirmed")] now
      = { w with status := "transfer_verified", transactionHash := some hash,
                 explorerUrl := some (explorerLink hash) } := by
  simp +decide [Transaction.updateStatus, Transaction.assignAll, schemaPaths,
    Transaction.assign]

theorem updateStatus_demoAccepted (w : Transaction) (hash : String) (now : Nat) :
    w.updateStatus "transfer_verified"
        [("transactionHash", .str hash), ("explorerUrl", .str (explorerLink hash)),
         ("verificationMethod", .str "demo_accepted"),
         ("verificationNote", .str "Verified in demo mode")] now
      = { w with status := "transfer_verified", transactionHash := some hash,
                 explorerUrl := some (explorerLink hash) } := by
  simp +decide [Transaction.updateStatus, Transaction.assignAll, schemaPaths,
    Transaction.assign]

theorem save_transferVerified (db : Db) (w : Transaction) (hash : String) (now : Nat)
    (hw : w.status = "withdrawal_requested") (hvw : w.validate = true) :
    save db w { w with status := "transfer_verified", transactionHash := some hash,
                       explorerUrl := some (explorerLink hash) } now
      = .ok (Db.replace db { w with status := "transfer_verified", transactionHash := some hash,
                                    explorerUrl := some (explorerLink hash), updatedAt := now },
             { w with status := "transfer_verified", transactionHash := some hash,
                      explorerUrl := some (explorerLink hash), updatedAt := now }) := by
  have hvalid : Transaction.validate
      { w with status := "transfer_verified", transactionHash := some hash,
               explorerUrl := some (explorerLink hash) } = true :=
    validate_of_same w _ hvw rfl rfl rfl (by decide : "transfer_verified" ∈ statusEnum)
      ((validate_iff w).mp hvw).2.2.2.2.1 ((validate_iff w).mp hvw).2.2.2.2.2.1 rfl rfl
      ((validate_iff w).mp hvw).2.2.2.2.2.2.2
  have hchg : ({ w with status := "transfer_verified", transactionHash := some hash,
                        explorerUrl := some (explorerLink hash) } : Transaction) ≠ w := by
    intro h
    have h2 : "transfer_verified" = w.status := congrArg Transaction.status h
    rw [hw] at h2
    revert h2
    decide
  rw [save_of_valid _ _ _ _ hvalid, if_neg hchg]

/-- What `verify-token-transfer` does for a well-formed request whose record
it finds, whatever the ledger lookup returns: one write, of the record with
status transfer_verified, the claimed hash and its explorer link. -/
theorem verifyTokenTransfer_found
    (getTransactionByHash : String → Except String Offramp.AptosTransaction)
    (req : Req) (b : Offramp.VerifyTransferBody) (db : Db) (w : Transaction)
    (hv : Offramp.verifyTransferValidation b = true)
    (hfind : db.find? (fun t => decide (t._id = b.withdrawalId ∧ t.user = req.userId ∧
        t.status = "withdrawal_requested")) = some w)
    (hvw : w.validate = true) :
    Offramp.verifyTokenTransfer getTransactionByHash req b db
      = Offramp.transferVerified
          (Db.replace db { w with status := "transfer_verified",
                                  transactionHash := some b.transactionHash,
                                  explorerUrl := some (explorerLink b.transactionHash),
                                  updatedAt := req.now })
          { w with status := "transfer_verified", transactionHash := some b.transactionHash,
                   explorerUrl := some (explorerLink b.transactionHash), updatedAt := req.now }
          b [Call.getTransactionByHash b.transactionHash] := by
  have hw : w.status = "withdrawal_requested" := by
    have := List.find?_some hfind
    simp only [decide_eq_true_eq] at this
    exact this.2.2
  have hcatch : ∀ calls, Offramp.verifyTransferCatch db w w req b calls
      = Offramp.transferVerified
          (Db.replace db { w with status := "transfer_verified",
                                  transactionHash := some b.transactionHash,
                                  explorerUrl := some (explorerLink b.transactionHash),
                                  updatedAt := req.now })
          { w with status := "transfer_verified", transactionHash := some b.transactionHash,
                   explorerUrl := some (explorerLink b.transactionHash), updatedAt := req.now }
          b calls := by
    intro calls
    unfold Offramp.verifyTransferCatch
    simp only [updateStatus_demoAccepted, save_transferVerified db w _ _ hw hvw]
  unfold Offramp.verifyTokenTransfer
  simp only [hv, not_true_eq_false, if_false, hfind]
  cases getTransactionByHash b.transactionHash with
  | error m => exact hcatch _
  | ok tx =>
    simp only
    by_cases hs : tx.success = true
    · simp only [hs, not_true_eq_false, if_false, updateStatus_blockchainConfirmed,
        save_transferVerified db w _ _ hw hvw]
    · simp only [hs, not_false_eq_true, if_true]
      exact hcatch _

theorem updateStatus_retryFailed (t : Transaction) (message : String) (now : Nat) :
    t.updateStatus "failed"
        [("retryFailed", .bool true), ("retryError", .str message), ("retryAt", .date now)] now
      = { t with status := "failed" } := by
  simp +decide [Transaction.updateStatus, Transaction.assignAll, flag, List.lookup,
    schemaPaths]

/-- What `verify-payment` writes for a valid proof when the transfer succeeds
with result `r`: after the write of the verified record `d`, one more write,
of `d` updated to completed with the data of `r`. -/
theorem verifyPayment_success (hmacHex : String → String → String) (secret : String)
    (transferTokens : String → String → ℚ → Except String TransferResult)
    (req : Req) (b : Payments.VerifyPaymentBody) (db : Db) (t : Transaction)
    (r : TransferResult)
    (hv : Payments.verifyPaymentValidation b = true)
    (hfind : db.find? (fun t => decide (t.orderId = b.razorpay_order_id ∧ t.user = req.userId))
      = some t)
    (heq : b.razorpay_signature = Payments.expectedSignature hmacHex secret b)
    (hvt : t.validate = true) (hinr : 10 ≤ t.amount.inr)
    (hx : transferTokens t.walletAddress t.tokenType t.amount.inr = .ok r) :
    ∃ db1 d,
      save db t (Transaction.updateStatus
        { t with paymentId := some b.razorpay_payment_id,
                 razorpaySignature := some b.razorpay_signature }
        "payment_verified" [] req.now) req.now = .ok (db1, d) ∧
      db1.find? (fun t => decide (t.orderId = b.razorpay_order_id ∧ t.user = req.userId))
        = some d ∧
      sameQuote t d ∧ d.status = "payment_verified" ∧
      d.timestamps.transferCompleted = t.timestamps.transferCompleted ∧
      d.transferStatus = t.transferStatus ∧
      (Payments.verifyPayment hmacHex secret transferTokens req b db).db
        = Db.replace db1
            { d.updateStatus "completed" (Payments.completedData r) req.now with
              updatedAt := req.now } := by
  have hpt : t.orderId = b.razorpay_order_id ∧ t.user = req.userId := by
    have := List.find?_some hfind
    simpa using this
  have hs1 := save_of_valid db t (Transaction.updateStatus
      { t with paymentId := some b.razorpay_payment_id,
               razorpaySignature := some b.razorpay_signature }
      "payment_verified" [] req.now) req.now (valid_verified t _ _ _ hvt hinr)
  obtain ⟨db1, d, hsave1⟩ : ∃ db1 d, save db t (Transaction.updateStatus
      { t with paymentId := some b.razorpay_payment_id,
               razorpaySignature := some b.razorpay_signature }
      "payment_verified" [] req.now) req.now = .ok (db1, d) := by
    rw [hs1]; split <;> exact ⟨_, _, rfl⟩
  have hd := save_find _ db db1 t _ d req.now hsave1 hfind
    (by rw [updateStatus_verified]; split <;> rfl)
    (by intro u; rw [updateStatus_verified]; split <;> simpa using hpt)
  have hdq : sameQuote t d ∧ d.status = "payment_verified" ∧
      d.timestamps.transferCompleted = t.timestamps.transferCompleted ∧
      d.transferStatus = t.transferStatus := by
    rcases hd.2 with h | h <;> rw [h, updateStatus_verified] <;> split <;>
      simp [sameQuote]
  obtain ⟨hq, hst, htc, hts⟩ := hdq
  refine ⟨db1, d, hsave1, hd.1, hq, hst, htc, hts, ?_⟩
  have hchg : d.updateStatus "completed" (Payments.completedData r) req.now ≠ d := by
    intro h
    have h2 := congrArg Transaction.status h
    rw [updateStatus_completed, hst] at h2
    have h3 : "completed" = "payment_verified" := by
      split at h2 <;> exact h2
    revert h3
    decide
  unfold Payments.verifyPayment
  simp only [hv, not_true_eq_false, if_false, hfind]
  rw [if_neg (fun h => h heq.symm)]
  simp only [hsave1]
  rw [hq.2.2.2.1, hq.2.2.2.2.1, hq.2.2.2.2.2.1]
  simp only [hx, save_of_valid db1 d _ req.now (valid_completed d r req.now (save_valid _ _ _ _ _ _ hsave1)), if_neg hchg]

theorem save_doc (db : Db) (orig t : Transaction) (now : Nat) (db1 : Db) (d : Transaction)
    (hs : save db orig t now = .ok (db1, d)) :
    d = t ∨ d = { t with updatedAt := now } := by
  obtain ⟨-, h | h⟩ := save_ok db db1 orig t d now hs
  · exact Or.inl h.2.2
  · exact Or.inr h.2.2

theorem find?_id_of_unique (db : Db) (t : Transaction) (uid : Nat)
    (hmem : t ∈ db) (huser : t.user = uid) (huniq : ∀ x ∈ db, x._id = t._id → x = t) :
    db.find? (fun x => decide (x._id = t._id ∧ x.user = uid)) = some t := by
  cases hf : db.find? (fun x => decide (x._id = t._id ∧ x.user = uid)) with
  | none =>
    rw [List.find?_eq_none] at hf
    have := hf t hmem
    simp [huser] at this
  | some x =>
    have hx := List.find?_some hf
    simp only [decide_eq_true_eq] at hx
    rw [huniq x (List.mem_of_find?_eq_some hf) hx.1]

/-- What `retry-transfer` calls for an eligible record: the transfer executor,
once, with the record's wallet, token type and fiat amount. -/
theorem retryTransfer_calls
    (transferTokens : String → String → ℚ → Except String TransferResult)
    (db : Db) (req : Req) (id : Nat) (t : Transaction) (p : String)
    (hfind : db.find? (fun t => decide (t._id = id ∧ t.user = req.userId)) = some t)
    (hstatus : t.status = "failed") (hpid : t.paymentId = some p) (hp : p ≠ "") :
    (Payments.retryTransfer transferTokens req id db).calls
      = [Call.transferTokens t.walletAddress t.tokenType t.amount.inr] := by
  have hno : Payments.noPaymentId t = false := by
    simp [Payments.noPaymentId, hpid, hp]
  unfold Payments.retryTransfer
  simp only [hfind]
  rw [if_neg (by simp [hstatus, hno])]
  cases transferTokens t.walletAddress t.tokenType t.amount.inr with
  | error m =>
    simp only [Payments.retryCatch]
    split <;> rfl
  | ok r =>
    simp only
    split
    · simp only [Payments.retryCatch]
      split <;> rfl
    · rfl

/-- What `verify-payment` does with a valid proof when the transfer throws an
error with message `m`: after the write of the verified record `d`, it runs
its `catch` block on `d`. -/
theorem verifyPayment_failure (hmacHex : String → String → String) (secret : String)
    (transferTokens : String → String → ℚ → Except String TransferResult)
    (req : Req) (b : Payments.VerifyPaymentBody) (db : Db) (t : Transaction) (m : String)
    (hv : Payments.verifyPaymentValidation b = true)
    (hfind : db.find? (fun t => decide (t.orderId = b.razorpay_order_id ∧ t.user = req.userId))
      = some t)
    (heq : b.razorpay_signature = Payments.expectedSignature hmacHex secret b)
    (hvt : t.validate = true) (hinr : 10 ≤ t.amount.inr)
    (hx : transferTokens t.walletAddress t.tokenType t.amount.inr = .error m) :
    ∃ db1 d,
      save db t (Transaction.updateStatus
        { t with paymentId := some b.razorpay_payment_id,
                 razorpaySignature := some b.razorpay_signature }
        "payment_verified" [] req.now) req.now = .ok (db1, d) ∧
      sameQuote t d ∧ d.status = "payment_verified" ∧ d.notes = t.notes ∧
      d.paymentId = some b.razorpay_payment_id ∧
      Payments.verifyPayment hmacHex secret transferTokens req b db
        = Payments.verifyPaymentCatch db1 d d m req b.razorpay_payment_id
            [Call.transferTokens t.walletAddress t.tokenType t.amount.inr] := by
  have hs1 := save_of_valid db t (Transaction.updateStatus
      { t with paymentId := some b.razorpay_payment_id,
               razorpaySignature := some b.razorpay_signature }
      "payment_verified" [] req.now) req.now (valid_verified t _ _ _ hvt hinr)
  obtain ⟨db1, d, hsave1⟩ : ∃ db1 d, save db t (Transaction.updateStatus
      { t with paymentId := some b.razorpay_payment_id,
               razorpaySignature := some b.razorpay_signature }
      "payment_verified" [] req.now) req.now = .ok (db1, d) := by
    rw [hs1]; split <;> exact ⟨_, _, rfl⟩
  have hd := save_doc db t _ req.now db1 d hsave1
  have hdq : sameQuote t d ∧ d.status = "payment_verified" ∧ d.notes = t.notes ∧
      d.paymentId = some b.razorpay_payment_id := by
    rcases hd with h | h <;> rw [h, updateStatus_verified] <;> split <;>
      simp [sameQuote]
  obtain ⟨hq, hst, hn, hp⟩ := hdq
  refine ⟨db1, d, hsave1, hq, hst, hn, hp, ?_⟩
  unfold Payments.verifyPayment
  simp only [hv, not_true_eq_false, if_false, hfind]
  rw [if_neg (fun h => h heq.symm)]
  simp only [hsave1]
  rw [hq.2.2.2.1, hq.2.2.2.2.1, hq.2.2.2.2.2.1]
  simp only [hx]

theorem toString16_of_draw (q : ℚ) (h0 : 0 ≤ q) (h1 : q < 1) :
    ∃ c, AptosService.toString16 ⌊q * 16⌋ = String.mk [c] ∧ isLowerHex c = true := by
  have hn0 : (0 : ℤ) ≤ ⌊q * 16⌋ := Int.floor_nonneg.mpr (by positivity)
  have hn1 : ⌊q * 16⌋ < 16 := by
    rw [Int.floor_lt]
    push_cast
    linarith
  have hk : (⌊q * 16⌋).toNat < 16 := by omega
  unfold AptosService.toString16
  rw [if_neg (by omega)]
  generalize (⌊q * 16⌋).toNat = k at hk
  refine ⟨Nat.digitChar k, ?_, ?_⟩ <;> interval_cases k <;> decide

theorem flatten_map_singleton {α β : Type} (g : α → β) (l : List α) :
    (l.map (fun i => [g i])).flatten = l.map g := by
  induction l with
  | nil => rfl
  | cons a l ih => simp [List.flatten, ih]

/-- The calls of the submission part of `transferAPT`: the calls made before
it, then calls of building, simulating, signing and awaiting only. -/
theorem submitAPT_calls (L : AptosService.Ledger) (svc : AptosService.Service)
    (toAddress : String) (amount : ℚ) (amountInOctas : ℤ) (calls : List Call) :
    ∃ extra, (AptosService.submitAPT L svc toAddress amount amountInOctas calls).calls
        = calls ++ extra ∧ ∀ c ∈ extra, c.isSubmission = true := by
  unfold AptosService.submitAPT
  cases L.buildSimple toAddress amountInOctas with
  | error m => exact ⟨_, rfl, by simp [Call.isSubmission]⟩
  | ok tx =>
    simp only
    cases L.simulateSimple tx with
    | error m => exact ⟨_, rfl, by simp [Call.isSubmission]⟩
    | ok sims =>
      simp only
      split
      · exact ⟨_, rfl, by simp [Call.isSubmission]⟩
      · cases L.signAndSubmitTransaction tx with
        | error m => exact ⟨_, rfl, by simp [Call.isSubmission]⟩
        | ok h =>
          simp only
          cases L.waitForTransaction h with
          | error m => exact ⟨_, rfl, by simp [Call.isSubmission]⟩
          | ok c =>
            simp only
            split <;> exact ⟨_, rfl, by simp [Call.isSubmission]⟩

/-- The simulation gate in the submission part of `transferAPT`. -/
theorem submitAPT_gate (L : AptosService.Ledger) (svc : AptosService.Service)
    (toAddress : String) (amount : ℚ) (amountInOctas : ℤ) (calls : List Call)
    (hpre : ∀ c ∈ calls, c.isSubmission = false) :
    (Call.signAndSubmitTransaction
        ∈ (AptosService.submitAPT L svc toAddress amount amountInOctas calls).calls →
      ∃ tx sims, L.buildSimple toAddress amountInOctas = .ok tx ∧
        L.simulateSimple tx = .ok sims ∧
        sims.head?.map (fun s => s.success) = some true) ∧
    (∀ tx sims, L.buildSimple toAddress amountInOctas = .ok tx →
      L.simulateSimple tx = .ok sims →
      sims.head?.map (fun s => s.success) ≠ some true →
      (AptosService.submitAPT L svc toAddress amount amountInOctas calls).result
        = .error (AptosService.realFailed ("Transaction simulation failed: " ++
            orDefault (sims.head?.bind (fun s => s.vm_status)) "Unknown error")) ∧
      (AptosService.submitAPT L svc toAddress amount amountInOctas calls).calls
        = calls ++ [Call.buildSimple toAddress amountInOctas, Call.simulateSimple]) ∧
    (∀ r, (AptosService.submitAPT L svc toAddress amount amountInOctas calls).result = .ok r →
      ∃ tx sims pendingHash confirmed, L.buildSimple toAddress amountInOctas = .ok tx ∧
        L.simulateSimple tx = .ok sims ∧
        sims.head?.map (fun s => s.success) = some true ∧
        L.signAndSubmitTransaction tx = .ok pendingHash ∧
        L.waitForTransaction pendingHash = .ok confirmed ∧
        confirmed.success = true ∧ r.hash = confirmed.hash ∧ r.simulated = false) := by
  have hnot : Call.signAndSubmitTransaction ∉ calls := by
    intro h
    have := hpre _ h
    simp [Call.isSubmission] at this
  unfold AptosService.submitAPT
  cases hb : L.buildSimple toAddress amountInOctas with
  | error m =>
    refine ⟨?_, ?_, ?_⟩
    · intro h; simp [hnot] at h
    · intro tx sims h; cases h
    · intro r h; cases h
  | ok tx =>
    simp only
    cases hs : L.simulateSimple tx with
    | error m =>
      refine ⟨?_, ?_, ?_⟩
      · intro h; simp [hnot] at h
      · intro tx2 sims h1 h2
        injection h1 with h1
        subst h1
        rw [hs] at h2
        cases h2
      · intro r h; cases h
    | ok sims =>
      simp only
      by_cases hok : sims.head?.map (fun s => s.success) = some true
      · simp only [hok, not_true_eq_false, if_false]
        refine ⟨fun _ => ⟨tx, sims, rfl, hs, hok⟩, ?_, ?_⟩
        · intro tx2 sims2 h1 h2 h3
          injection h1 with h1
          subst h1
          rw [hs] at h2
          injection h2 with h2
          subst h2
          exact absurd hok h3
        · cases hsub : L.signAndSubmitTransaction tx with
          | error m => intro r h; cases h
          | ok ph =>
            simp only
            cases hw : L.waitForTransaction ph with
            | error m => intro r h; cases h
            | ok c =>
              simp only
              by_cases hc : c.success = true
              · simp only [hc, not_true_eq_false, if_false]
                intro r h
                injection h with h
                subst h
                exact ⟨tx, sims, ph, c, rfl, hs, hok, hsub, hw, hc, rfl, rfl⟩
              · simp only [hc, not_false_eq_true, if_true]
                intro r h; cases h
      · simp only [hok, not_false_eq_true, if_true]
        refine ⟨?_, ?_, ?_⟩
        · intro h; simp [hnot] at h
        · intro tx2 sims2 h1 h2 _
          injection h1 with h1
          subst h1
          rw [hs] at h2
          injection h2 with h2
          subst h2
          exact ⟨rfl, trivial⟩
        · intro r h; cases h

theorem initCalls_not_submission (svc : AptosService.Service) :
    ∀ c ∈ AptosService.initCalls svc, c.isSubmission = false := by
  intro c hc
  unfold AptosService.initCalls at hc
  split at hc
  · simp at hc
  · simp at hc
    rw [hc]
    rfl

/-- The two ways `transferAPT` ends: with an error before anything is built, or
in its submission part. In both, the calls made before the submission part
build, simulate, sign and await nothing. -/
theorem transferAPT_cases (L : AptosService.Ledger) (svc : AptosService.Service)
    (toAddress : String) (amount : ℚ) :
    (∃ e calls, AptosService.transferAPT L svc toAddress amount = ⟨.error e, calls⟩ ∧
      ∀ c ∈ calls, c.isSubmission = false) ∨
    (∃ calls, AptosService.transferAPT L svc toAddress amount
        = AptosService.submitAPT L (AptosService.initialized svc) toAddress amount
            ⌊amount * 100000000⌋ calls ∧
      ∀ c ∈ calls, c.isSubmission = false) := by
  have hinit := initCalls_not_submission svc
  have hmem : ∀ (extra : List Call), (∀ c ∈ extra, c.isSubmission = false) →
      ∀ c ∈ AptosService.initCalls svc ++ extra, c.isSubmission = false := by
    intro extra hextra c hc
    rw [List.mem_append] at hc
    rcases hc with h | h
    · exact hinit c h
    · exact hextra c h
  unfold AptosService.transferAPT
  cases L.getLedgerInfo with
  | error m =>
    exact Or.inl ⟨_, _, rfl, hmem _ (by simp [Call.isSubmission])⟩
  | ok v =>
    simp only
    split
    · cases L.fundAccount (max 1000000000 (⌊amount * 100000000⌋ * 2)) with
      | error m =>
        refine Or.inl ⟨_, _, rfl, ?_⟩
        rw [List.append_assoc]
        exact hmem _ (by simp [Call.isSubmission])
      | ok u =>
        simp only
        split
        · refine Or.inl ⟨_, _, rfl, ?_⟩
          rw [List.append_assoc]
          exact hmem _ (by simp [Call.isSubmission])
        · refine Or.inr ⟨_, rfl, ?_⟩
          rw [List.append_assoc]
          exact hmem _ (by simp [Call.isSubmission])
    · exact Or.inr ⟨_, rfl, hmem _ (by simp [Call.isSubmission])⟩

theorem append_singleton_inj {α : Type} (l : List α) (a b : α) (h : l ++ [a] = l ++ [b]) :
    a = b := by
  have := List.append_cancel_left h
  injection this

theorem ne_append_singleton {α : Type} (l : List α) (a : α) : l ≠ l ++ [a] := by
  intro h
  have := congrArg List.length h
  simp at this

theorem replace_map_of_agree {α : Type} (f : Transaction → α) (db : Db) (t : Transaction)
    (h : ∀ r ∈ db, r._id = t._id → f r = f t) : (Db.replace db t).map f = db.map f := by
  unfold Db.replace
  rw [List.map_map]
  apply List.map_congr_left
  intro r hr
  simp only [Function.comp]
  by_cases hid : r._id = t._id
  · rw [if_pos hid]; exact (h r hr hid).symm
  · rw [if_neg hid]

theorem replace_agree (db : Db) (t : Transaction) :
    ∀ r ∈ Db.replace db t, r._id = t._id → r = t := by
  intro r hr hid
  unfold Db.replace at hr
  rw [List.mem_map] at hr
  obtain ⟨x, _, hx⟩ := hr
  by_cases hxid : x._id = t._id
  · rw [if_pos hxid] at hx; exact hx.symm
  · rw [if_neg hxid] at hx; rw [hx] at hxid; exact absurd hid hxid

/-- The frame of `save` under a projection `f` that does not read `updatedAt`:
when the in-memory document agrees under `f` with the loaded one, and every
stored document with that id does, the projection of the collection is as
before, and the saved document is the one stored under its id. -/
theorem save_frame {α : Type} (f : Transaction → α)
    (hf : ∀ t u, f { t with updatedAt := u } = f t)
    (db db1 : Db) (orig t d : Transaction) (now : Nat)
    (hs : save db orig t now = .ok (db1, d)) (hft : f t = f orig) (hid : t._id = orig._id)
    (hk : ∀ r ∈ db, r._id = orig._id → f r = f orig) :
    db1.map f = db.map f ∧ f d = f orig ∧ d._id = orig._id ∧
    (∀ r ∈ db1, r._id = d._id → f r = f d) := by
  obtain ⟨-, h | h⟩ := save_ok db db1 orig t d now hs
  · rw [h.2.1, h.2.2, h.1]
    exact ⟨rfl, rfl, rfl, hk⟩
  · rw [h.2.1, h.2.2]
    refine ⟨?_, ?_, hid, ?_⟩
    · apply replace_map_of_agree
      intro r hr hrid
      exact (hk r hr (hrid.trans hid)).trans ((hf t now).trans hft).symm
    · exact (hf t now).trans hft
    · intro r hr hrid
      rw [replace_agree db _ r hr hrid]

theorem assign_frame {β : Type} (g : Transaction → β)
    (hg : ∀ x y : Transaction, x._id = y._id → x.conversionRate = y.conversionRate →
      x.amount = y.amount → x.paymentId = y.paymentId → g x = g y)
    (t : Transaction) (key : String) (v : Json)
    (hkey : key ≠ "conversionRate" ∧ key ≠ "paymentId") :
    g (t.assign key v) = g t := by
  unfold Transaction.assign
  cases v with
  | str s =>
    dsimp only
    by_cases h : key = "orderId"
    · rw [if_pos h]; exact hg _ _ rfl rfl rfl rfl
    rw [if_neg h]
    clear h
    rw [if_neg hkey.2]
    by_cases h : key = "razorpaySignature"
    · rw [if_pos h]; exact hg _ _ rfl rfl rfl rfl
    rw [if_neg h]
    clear h
    by_cases h : key = "tokenType"
    · rw [if_pos h]; exact hg _ _ rfl rfl rfl rfl
    rw [if_neg h]
    clear h
    by_cases h : key = "walletAddress"
    · rw [if_pos h]; exact hg _ _ rfl rfl rfl rfl
    rw [if_neg h]
    clear h
    by_cases h : key = "status"
    · rw [if_pos h]; exact hg _ _ rfl rfl rfl rfl
    rw [if_neg h]
    clear h
    by_cases h : key = "paymentStatus"
    · rw [if_pos h]; exact hg _ _ rfl rfl rfl rfl
    rw [if_neg h]
    clear h
    by_cases h : key = "transferStatus"
    · rw [if_pos h]; exact hg _ _ rfl rfl rfl rfl
    rw [if_neg h]
    clear h
    by_cases h : key = "transactionHash"
    · rw [if_pos h]; exact hg _ _ rfl rfl rfl rfl
    rw [if_neg h]
    clear h
    by_cases h : key = "explorerUrl"
    · rw [if_pos h]; exact hg _ _ rfl rfl rfl rfl
    rw [if_neg h]
    clear h
    by_cases h : key = "notes"
    · rw [if_pos h]; exact hg _ _ rfl rfl rfl rfl
    rw [if_neg h]
  | num q =>
    dsimp only
    rw [if_neg hkey.1]
  | null => rfl
  | bool b => rfl
  | date d => rfl
  | obj o => rfl

theorem assignAll_frame {β : Type} (g : Transaction → β)
    (hg : ∀ x y : Transaction, x._id = y._id → x.conversionRate = y.conversionRate →
      x.amount = y.amount → x.paymentId = y.paymentId → g x = g y)
    (data : List (String × Json)) :
    ∀ t : Transaction, (∀ kv ∈ data, kv.1 ≠ "conversionRate" ∧ kv.1 ≠ "paymentId") →
    g (t.assignAll data) = g t := by
  induction data with
  | nil => intro t _; rfl
  | cons kv rest ih =>
    intro t h
    obtain ⟨key, v⟩ := kv
    simp only [Transaction.assignAll]
    rw [ih _ (fun x hx => h x (List.mem_cons_of_mem _ hx))]
    split
    · exact assign_frame g hg t key v (h (key, v) (List.mem_cons_self _ _))
    · rfl

/-- The frame of `updateStatus`: when `additionalData` has neither the key
`conversionRate` nor the key `paymentId`, whatever is computed from the id, the
rate, the amounts and the payment id of the document is as before. -/
theorem updateStatus_frame {β : Type} (g : Transaction → β)
    (hg : ∀ x y : Transaction, x._id = y._id → x.conversionRate = y.conversionRate →
      x.amount = y.amount → x.paymentId = y.paymentId → g x = g y)
    (t : Transaction) (newStatus : String)
    (data : List (String × Json)) (now : Nat)
    (h : ∀ kv ∈ data, kv.1 ≠ "conversionRate" ∧ kv.1 ≠ "paymentId") :
    g (t.updateStatus newStatus data now) = g t := by
  unfold Transaction.updateStatus
  dsimp only
  rw [assignAll_frame g hg data _ h]
  by_cases h4 : newStatus = "failed"
  · rw [if_pos h4]
    refine (hg _ _ rfl rfl rfl rfl).trans ?_
    by_cases h3 : newStatus = "completed"
    · rw [h4] at h3; exact absurd h3 (by decide)
    · rw [if_neg (fun hc => h3 hc.1)]
      by_cases h2 : newStatus = "payment_verified"
      · rw [h4] at h2; exact absurd h2 (by decide)
      · rw [if_neg (fun hc => h2 hc.1)]
        exact hg _ _ rfl rfl rfl rfl
  · rw [if_neg h4]
    split
    · refine (hg _ _ rfl rfl rfl rfl).trans ?_
      split <;> exact hg _ _ rfl rfl rfl rfl
    · split <;> exact hg _ _ rfl rfl rfl rfl
theorem cancelTransaction_frame {α : Type} (f : Transaction → α)
    (hf : ∀ x y : Transaction, x.conversionRate = y.conversionRate → x.amount = y.amount →
      x.paymentId = y.paymentId → f x = f y)
    (db : Db) (huniq : ∀ x ∈ db, ∀ y ∈ db, x._id = y._id → x = y)
    (req : Req) (id : Nat) (reason : Option String) :
    (Payments.cancelTransaction req id reason db).db.map f = db.map f := by
  unfold Payments.cancelTransaction
  cases hfind : db.find? (fun t => decide (t._id = id ∧ t.user = req.userId)) with
  | none => rfl
  | some t =>
    dsimp only
    split
    · rfl
    · cases hs : save db t
          (t.updateStatus "cancelled" (Payments.cancelData reason req.now) req.now) req.now with
      | error e => rfl
      | ok res =>
        obtain ⟨db1, d⟩ := res
        have hdata : ∀ kv ∈ Payments.cancelData reason req.now,
            kv.1 ≠ "conversionRate" ∧ kv.1 ≠ "paymentId" := by
          simp +decide [Payments.cancelData]
        exact (save_frame f (fun t u => hf _ _ rfl rfl rfl) db db1 t _ d req.now hs
          (updateStatus_frame f (fun x y _ h2 h3 h4 => hf x y h2 h3 h4) t _ _ _ hdata)
          (updateStatus_frame Transaction._id (fun x y h _ _ _ => h) t _ _ _ hdata)
          (fun r hr h => by rw [huniq r hr t (List.mem_of_find?_eq_some hfind) h])).1

theorem cancelWithdrawal_frame {α : Type} (f : Transaction → α)
    (hf : ∀ x y : Transaction, x.conversionRate = y.conversionRate → x.amount = y.amount →
      x.paymentId = y.paymentId → f x = f y)
    (db : Db) (huniq : ∀ x ∈ db, ∀ y ∈ db, x._id = y._id → x = y)
    (req : Req) (id : Nat) (reason : Option String) :
    (Offramp.cancelWithdrawal req id reason db).db.map f = db.map f := by
  unfold Offramp.cancelWithdrawal
  cases hfind : db.find? (fun t => decide (t._id = id ∧ t.user = req.userId)) with
  | none => rfl
  | some t =>
    dsimp only
    split
    · rfl
    · cases hs : save db t
          (t.updateStatus "cancelled" (Payments.cancelData reason req.now) req.now) req.now with
      | error e => rfl
      | ok res =>
        obtain ⟨db1, d⟩ := res
        have hdata : ∀ kv ∈ Payments.cancelData reason req.now,
            kv.1 ≠ "conversionRate" ∧ kv.1 ≠ "paymentId" := by
          simp +decide [Payments.cancelData]
        exact (save_frame f (fun t u => hf _ _ rfl rfl rfl) db db1 t _ d req.now hs
          (updateStatus_frame f (fun x y _ h2 h3 h4 => hf x y h2 h3 h4) t _ _ _ hdata)
          (updateStatus_frame Transaction._id (fun x y h _ _ _ => h) t _ _ _ hdata)
          (fun r hr h => by rw [huniq r hr t (List.mem_of_find?_eq_some hfind) h])).1

theorem confirmPayment_frame {α : Type} (f : Transaction → α)
    (hf : ∀ x y : Transaction, x.conversionRate = y.conversionRate → x.amount = y.amount →
      x.paymentId = y.paymentId → f x = f y)
    (db : Db) (huniq : ∀ x ∈ db, ∀ y ∈ db, x._id = y._id → x = y)
    (randomOrderId : String) (req : Req) (id : Nat) :
    (Offramp.confirmPayment randomOrderId req id db).db.map f = db.map f := by
  unfold Offramp.confirmPayment
  cases hfind : db.find? (fun t => decide (t._id = id ∧ t.user = req.userId)) with
  | none => rfl
  | some t =>
    dsimp only
    split
    · rfl
    · cases hs : save db t
          { t with
            status := "completed"
            paymentStatus := "completed"
            metadata := { t.metadata with razorpayOrderId := some randomOrderId } } req.now with
      | error e => rfl
      | ok res =>
        obtain ⟨db1, d⟩ := res
        exact (save_frame f (fun t u => hf _ _ rfl rfl rfl) db db1 t _ d req.now hs
          (hf _ _ rfl rfl rfl) rfl
          (fun r hr h => by rw [huniq r hr t (List.mem_of_find?_eq_some hfind) h])).1

theorem verifyTransferCatch_frame {α : Type} (f : Transaction → α)
    (hf : ∀ x y : Transaction, x.conversionRate = y.conversionRate → x.amount = y.amount →
      x.paymentId = y.paymentId → f x = f y)
    (db : Db) (orig doc : Transaction) (req : Req) (b : Offramp.VerifyTransferBody)
    (calls : List Call) (hdoc : f doc = f orig) (hid : doc._id = orig._id)
    (hk : ∀ r ∈ db, r._id = orig._id → f r = f orig) :
    (Offramp.verifyTransferCatch db orig doc req b calls).db.map f = db.map f := by
  unfold Offramp.verifyTransferCatch
  dsimp only
  have hdata : ∀ kv ∈ [("transactionHash", Json.str b.transactionHash),
      ("explorerUrl", Json.str (explorerLink b.transactionHash)),
      ("verificationMethod", Json.str "demo_accepted"),
      ("verificationNote", Json.str "Verified in demo mode")],
      kv.1 ≠ "conversionRate" ∧ kv.1 ≠ "paymentId" := by
    simp +decide
  cases hs : save db orig (doc.updateStatus "transfer_verified"
      [("transactionHash", .str b.transactionHash),
       ("explorerUrl", .str (explorerLink b.transactionHash)),
       ("verificationMethod", .str "demo_accepted"),
       ("verificationNote", .str "Verified in demo mode")] req.now) req.now with
  | error e => rfl
  | ok res =>
    obtain ⟨db1, d⟩ := res
    exact (save_frame f (fun t u => hf _ _ rfl rfl rfl) db db1 orig _ d req.now hs
      ((updateStatus_frame f (fun x y _ h2 h3 h4 => hf x y h2 h3 h4) doc _ _ _ hdata).trans hdoc)
      ((updateStatus_frame Transaction._id (fun x y h _ _ _ => h) doc _ _ _ hdata).trans hid)
      hk).1

theorem verifyTokenTransfer_frame {α : Type} (f : Transaction → α)
    (hf : ∀ x y : Transaction, x.conversionRate = y.conversionRate → x.amount = y.amount →
      x.paymentId = y.paymentId → f x = f y)
    (db : Db) (huniq : ∀ x ∈ db, ∀ y ∈ db, x._id = y._id → x = y)
    (getTransactionByHash : String → Except String Offramp.AptosTransaction)
    (req : Req) (b : Offramp.VerifyTransferBody) :
    (Offramp.verifyTokenTransfer getTransactionByHash req b db).db.map f = db.map f := by
  unfold Offramp.verifyTokenTransfer
  split
  · rfl
  cases hfind : db.find? (fun t => decide (t._id = b.withdrawalId ∧ t.user = req.userId ∧
      t.status = "withdrawal_requested")) with
  | none => rfl
  | some w =>
    have hk : ∀ r ∈ db, r._id = w._id → f r = f w :=
      fun r hr h => by rw [huniq r hr w (List.mem_of_find?_eq_some hfind) h]
    dsimp only
    cases getTransactionByHash b.transactionHash with
    | error m => exact verifyTransferCatch_frame f hf db w w req b _ rfl rfl hk
    | ok tx =>
      dsimp only
      split
      · exact verifyTransferCatch_frame f hf db w w req b _ rfl rfl hk
      · have hdata : ∀ kv ∈ [("transactionHash", Json.str b.transactionHash),
            ("explorerUrl", Json.str (explorerLink b.transactionHash)),
            ("verificationMethod", Json.str "blockchain_confirmed")],
            kv.1 ≠ "conversionRate" ∧ kv.1 ≠ "paymentId" := by
          simp +decide
        have h1 := updateStatus_frame f (fun x y _ h2 h3 h4 => hf x y h2 h3 h4) w
          "transfer_verified" _ req.now hdata
        have h2 := updateStatus_frame Transaction._id (fun x y h _ _ _ => h) w
          "transfer_verified" _ req.now hdata
        cases hs : save db w (w.updateStatus "transfer_verified"
            [("transactionHash", .str b.transactionHash),
             ("explorerUrl", .str (explorerLink b.transactionHash)),
             ("verificationMethod", .str "blockchain_confirmed")] req.now) req.now with
        | error e => exact verifyTransferCatch_frame f hf db w _ req b _ h1 h2 hk
        | ok res =>
          obtain ⟨db1, d⟩ := res
          exact (save_frame f (fun t u => hf _ _ rfl rfl rfl) db db1 w _ d req.now hs h1 h2
            hk).1

theorem retryCatch_frame {α : Type} (f : Transaction → α)
    (hf : ∀ x y : Transaction, x.conversionRate = y.conversionRate → x.amount = y.amount →
      x.paymentId = y.paymentId → f x = f y)
    (db : Db) (orig doc : Transaction) (message : String) (req : Req) (calls : List Call)
    (hdoc : f doc = f orig) (hid : doc._id = orig._id)
    (hk : ∀ r ∈ db, r._id = orig._id → f r = f orig) :
    (Payments.retryCatch db orig doc message req calls).db.map f = db.map f := by
  unfold Payments.retryCatch
  dsimp only
  have hdata : ∀ kv ∈ [("retryFailed", Json.bool true), ("retryError", Json.str message),
      ("retryAt", Json.date req.now)], kv.1 ≠ "conversionRate" ∧ kv.1 ≠ "paymentId" := by
    simp +decide
  cases hs : save db orig (doc.updateStatus "failed"
      [("retryFailed", .bool true), ("retryError", .str message), ("retryAt", .date req.now)]
      req.now) req.now with
  | error e => rfl
  | ok res =>
    obtain ⟨db1, d⟩ := res
    exact (save_frame f (fun t u => hf _ _ rfl rfl rfl) db db1 orig _ d req.now hs
      ((updateStatus_frame f (fun x y _ h2 h3 h4 => hf x y h2 h3 h4) doc _ _ _ hdata).trans hdoc)
      ((updateStatus_frame Transaction._id (fun x y h _ _ _ => h) doc _ _ _ hdata).trans hid)
      hk).1

theorem retryTransfer_frame {α : Type} (f : Transaction → α)
    (hf : ∀ x y : Transaction, x.conversionRate = y.conversionRate → x.amount = y.amount →
      x.paymentId = y.paymentId → f x = f y)
    (db : Db) (huniq : ∀ x ∈ db, ∀ y ∈ db, x._id = y._id → x = y)
    (transferTokens : String → String → ℚ → Except String TransferResult)
    (req : Req) (id : Nat) :
    (Payments.retryTransfer transferTokens req id db).db.map f = db.map f := by
  unfold Payments.retryTransfer
  cases hfind : db.find? (fun t => decide (t._id = id ∧ t.user = req.userId)) with
  | none => rfl
  | some t =>
    have hk : ∀ r ∈ db, r._id = t._id → f r = f t :=
      fun r hr h => by rw [huniq r hr t (List.mem_of_find?_eq_some hfind) h]
    dsimp only
    split
    · rfl
    · cases transferTokens t.walletAddress t.tokenType t.amount.inr with
      | error m => exact retryCatch_frame f hf db t t m req _ rfl rfl hk
      | ok r =>
        dsimp only
        have hdata : ∀ kv ∈ [("transactionHash", Json.str r.hash),
            ("explorerUrl", Json.str (explorerLink r.hash)),
            ("retryAttempt", Json.bool true), ("retryAt", Json.date req.now)],
            kv.1 ≠ "conversionRate" ∧ kv.1 ≠ "paymentId" := by
          simp +decide
        have h1 := updateStatus_frame f (fun x y _ h2 h3 h4 => hf x y h2 h3 h4) t "completed"
          _ req.now hdata
        have h2 := updateStatus_frame Transaction._id (fun x y h _ _ _ => h) t "completed"
          _ req.now hdata
        cases hs : save db t (t.updateStatus "completed"
            [("transactionHash", .str r.hash), ("explorerUrl", .str (explorerLink r.hash)),
             ("retryAttempt", .bool true), ("retryAt", .date req.now)] req.now) req.now with
        | error e => exact retryCatch_frame f hf db t _ e req _ h1 h2 hk
        | ok res =>
          obtain ⟨db1, d⟩ := res
          exact (save_frame f (fun t u => hf _ _ rfl rfl rfl) db db1 t _ d req.now hs h1 h2
            hk).1

theorem verifyPaymentCatch_frame {α : Type} (f : Transaction → α)
    (hf : ∀ x y : Transaction, x.conversionRate = y.conversionRate → x.amount = y.amount →
      x.paymentId = y.paymentId → f x = f y)
    (db : Db) (orig doc : Transaction) (message : String) (req : Req) (paymentId : String)
    (calls : List Call) (hdoc : f doc = f orig) (hid : doc._id = orig._id)
    (hk : ∀ r ∈ db, r._id = orig._id → f r = f orig) :
    (Payments.verifyPaymentCatch db orig doc message req paymentId calls).db.map f
      = db.map f := by
  unfold Payments.verifyPaymentCatch
  dsimp only
  have hdata : ∀ kv ∈ [("transferFailed", Json.bool true),
      ("notes", Json.str ("Transfer failed: " ++ message))],
      kv.1 ≠ "conversionRate" ∧ kv.1 ≠ "paymentId" := by
    simp +decide
  cases hs : save db orig (doc.updateStatus "failed"
      [("transferFailed", .bool true), ("notes", .str ("Transfer failed: " ++ message))]
      req.now) req.now with
  | error e => rfl
  | ok res =>
    obtain ⟨db1, d⟩ := res
    exact (save_frame f (fun t u => hf _ _ rfl rfl rfl) db db1 orig _ d req.now hs
      ((updateStatus_frame f (fun x y _ h2 h3 h4 => hf x y h2 h3 h4) doc _ _ _ hdata).trans hdoc)
      ((updateStatus_frame Transaction._id (fun x y h _ _ _ => h) doc _ _ _ hdata).trans hid)
      hk).1

theorem verifyPayment_frame {α : Type} (f : Transaction → α)
    (hf : ∀ x y : Transaction, x.conversionRate = y.conversionRate → x.amount = y.amount →
      f x = f y)
    (db : Db) (huniq : ∀ x ∈ db, ∀ y ∈ db, x._id = y._id → x = y)
    (hmacHex : String → String → String) (secret : String)
    (transferTokens : String → String → ℚ → Except String TransferResult)
    (req : Req) (b : Payments.VerifyPaymentBody) :
    (Payments.verifyPayment hmacHex secret transferTokens req b db).db.map f = db.map f := by
  have hf3 : ∀ x y : Transaction, x.conversionRate = y.conversionRate → x.amount = y.amount →
      x.paymentId = y.paymentId → f x = f y := fun x y h1 h2 _ => hf x y h1 h2
  have hg : ∀ x y : Transaction, x._id = y._id → x.conversionRate = y.conversionRate →
      x.amount = y.amount → x.paymentId = y.paymentId → f x = f y :=
    fun x y _ h1 h2 _ => hf x y h1 h2
  have hu : ∀ (t : Transaction) (u : Nat), f { t with updatedAt := u } = f t :=
    fun t u => hf _ _ rfl rfl
  unfold Payments.verifyPayment
  split
  · rfl
  cases hfind : db.find?
      (fun t => decide (t.orderId = b.razorpay_order_id ∧ t.user = req.userId)) with
  | none => rfl
  | some t =>
    have hk : ∀ r ∈ db, r._id = t._id → f r = f t :=
      fun r hr h => by rw [huniq r hr t (List.mem_of_find?_eq_some hfind) h]
    dsimp only
    split
    · have hdata : ∀ kv ∈ [("paymentFailed", Json.bool true)],
          kv.1 ≠ "conversionRate" ∧ kv.1 ≠ "paymentId" := by
        simp +decide
      cases hs : save db t (t.updateStatus "failed" [("paymentFailed", .bool true)] req.now)
          req.now with
      | error e => rfl
      | ok res =>
        obtain ⟨db1, d⟩ := res
        exact (save_frame f hu db db1 t _ d req.now hs
          (updateStatus_frame f hg t _ _ _ hdata)
          (updateStatus_frame Transaction._id (fun x y h _ _ _ => h) t _ _ _ hdata) hk).1
    · have hnil : ∀ kv ∈ ([] : List (String × Json)),
          kv.1 ≠ "conversionRate" ∧ kv.1 ≠ "paymentId" := by
        simp
      cases hs : save db t (Transaction.updateStatus
          { t with paymentId := some b.razorpay_payment_id,
                   razorpaySignature := some b.razorpay_signature }
          "payment_verified" [] req.now) req.now with
      | error e => rfl
      | ok res =>
        obtain ⟨db1, v⟩ := res
        obtain ⟨hm1, hv1, -, hk1⟩ := save_frame f hu db db1 t _ v req.now hs
          ((updateStatus_frame f hg _ _ _ _ hnil).trans (hf _ _ rfl rfl))
          (updateStatus_frame Transaction._id (fun x y h _ _ _ => h) _ _ _ _ hnil) hk
        dsimp only
        cases transferTokens v.walletAddress v.tokenType v.amount.inr with
        | error m =>
          exact (verifyPaymentCatch_frame f hf3 db1 v v m req _ _ rfl rfl hk1).trans hm1
        | ok r =>
          dsimp only
          have hdata : ∀ kv ∈ Payments.completedData r,
              kv.1 ≠ "conversionRate" ∧ kv.1 ≠ "paymentId" := by
            simp +decide [Payments.completedData]
          have h1 := updateStatus_frame f hg v "completed" _ req.now hdata
          have h2 := updateStatus_frame Transaction._id (fun x y h _ _ _ => h) v "completed"
            _ req.now hdata
          cases hs2 : save db1 v
              (v.updateStatus "completed" (Payments.completedData r) req.now) req.now with
          | error e =>
            exact (verifyPaymentCatch_frame f hf3 db1 v _ e req _ _ h1 h2 hk1).trans hm1
          | ok res2 =>
            obtain ⟨db2, c⟩ := res2
            exact (save_frame f hu db1 db2 v _ c req.now hs2 h1 h2 hk1).1.trans hm1

theorem net_lt_five_iff (a : ℚ) :
    a * 10 - max 5 (min 500 (a * 10 * (25 / 1000))) < 5 ↔ a < 1 := by
  rcases le_total 5 (min 500 (a * 10 * (25 / 1000))) with h | h
  · rw [max_eq_right h]
    rcases le_total 500 (a * 10 * (25 / 1000)) with h2 | h2
    · rw [min_eq_left h2]
      constructor <;> intro h3 <;> linarith
    · rw [min_eq_right h2] at h ⊢
      constructor <;> intro h3 <;> linarith
  · rw [max_eq_left h]
    constructor <;> intro h3 <;> linarith
theorem replace_mem (db : Db) (t r : Transaction) (hr : r ∈ Db.replace db t) :
    r ∈ db ∨ r = t := by
  unfold Db.replace at hr
  rw [List.mem_map] at hr
  obtain ⟨x, hx, hxr⟩ := hr
  by_cases hid : x._id = t._id
  · rw [if_pos hid] at hxr; exact Or.inr hxr.symm
  · rw [if_neg hid] at hxr; rw [← hxr]; exact Or.inl hx

theorem save_mem (db db1 : Db) (orig t d : Transaction) (now : Nat)
    (hs : save db orig t now = .ok (db1, d)) :
    ∀ r ∈ db1, r ∈ db ∨ r = { t with updatedAt := now } := by
  intro r hr
  obtain ⟨-, h | h⟩ := save_ok db db1 orig t d now hs
  · rw [h.2.1] at hr
    exact Or.inl hr
  · rw [h.2.1] at hr
    exact replace_mem db _ r hr

/-- Every record that `verify-token-transfer` leaves in the collection was
there before or has the status transfer_verified. -/
theorem verifyTokenTransfer_mem
    (getTransactionByHash : String → Except String Offramp.AptosTransaction)
    (req : Req) (b : Offramp.VerifyTransferBody) (db : Db) :
    ∀ r ∈ (Offramp.verifyTokenTransfer getTransactionByHash req b db).db,
      r ∈ db ∨ r.status = "transfer_verified" := by
  have hcatch : ∀ (orig doc : Transaction) (calls : List Call),
      ∀ r ∈ (Offramp.verifyTransferCatch db orig doc req b calls).db,
        r ∈ db ∨ r.status = "transfer_verified" := by
    intro orig doc calls r hr
    unfold Offramp.verifyTransferCatch at hr
    dsimp only at hr
    cases hs : save db orig (doc.updateStatus "transfer_verified"
        [("transactionHash", .str b.transactionHash),
         ("explorerUrl", .str (explorerLink b.transactionHash)),
         ("verificationMethod", .str "demo_accepted"),
         ("verificationNote", .str "Verified in demo mode")] req.now) req.now with
    | error e => rw [hs] at hr; exact Or.inl hr
    | ok res =>
      obtain ⟨db1, d⟩ := res
      rw [hs] at hr
      rcases save_mem db db1 orig _ d req.now hs r hr with h | h
      · exact Or.inl h
      · right; rw [h, updateStatus_demoAccepted]
  intro r hr
  unfold Offramp.verifyTokenTransfer at hr
  split at hr
  · exact Or.inl hr
  cases hfind : db.find? (fun t => decide (t._id = b.withdrawalId ∧ t.user = req.userId ∧
      t.status = "withdrawal_requested")) with
  | none => rw [hfind] at hr; exact Or.inl hr
  | some w =>
    rw [hfind] at hr
    dsimp only at hr
    cases hx : getTransactionByHash b.transactionHash with
    | error m => rw [hx] at hr; exact hcatch _ _ _ r hr
    | ok tx =>
      rw [hx] at hr
      dsimp only at hr
      split at hr
      · exact hcatch _ _ _ r hr
      · cases hs : save db w (w.updateStatus "transfer_verified"
            [("transactionHash", .str b.transactionHash),
             ("explorerUrl", .str (explorerLink b.transactionHash)),
             ("verificationMethod", .str "blockchain_confirmed")] req.now) req.now with
        | error e => rw [hs] at hr; exact hcatch _ _ _ r hr
        | ok res =>
          obtain ⟨db1, d⟩ := res
          rw [hs] at hr
          rcases save_mem db db1 w _ d req.now hs r hr with h | h
          · exact Or.inl h
          · right; rw [h, updateStatus_blockchainConfirmed]

theorem invalid_verified (t : Transaction) (pid sig : String) (now : Nat)
    (hlow : t.amount.inr < 10)
    (hpid : pid ≠ "direct_wallet_transfer" ∧ pid ≠ "direct_wallet_transfer_failed") :
    Transaction.validate (Transaction.updateStatus
      { t with paymentId := some pid, razorpaySignature := some sig }
      "payment_verified" [] now) = false := by
  have hamt : ∀ u : Transaction, u.amount = t.amount → u.paymentId = some pid →
      amountInrValidator u = false := by
    intro u hu hp
    unfold amountInrValidator
    rw [hu, hp]
    rw [if_neg]
    · exact decide_eq_false (not_le.mpr hlow)
    · intro h
      rcases h with h | h
      · injection h with h; exact hpid.1 h
      · injection h with h; exact hpid.2 h
  have hbad : ∀ u : Transaction, amountInrValidator u = false → u.validate = false := by
    intro u hu
    cases hv : u.validate with
    | false => rfl
    | true =>
      have := ((validate_iff u).mp hv).2.2.2.2.2.2.1
      rw [hu] at this
      cases this
  rw [updateStatus_verified]
  split <;> exact hbad _ (hamt _ rfl rfl)

/-- What `verify-payment` does with a valid signature when the record with the
proof's payment id does not pass validation: the `save` inside
`updateStatus('payment_verified')` rejects, the outer `catch` answers 500,
nothing is written and the transfer executor is not called. -/
theorem verifyPayment_unsaved (hmacHex : String → String → String) (secret : String)
    (transferTokens : String → String → ℚ → Except String TransferResult)
    (req : Req) (b : Payments.VerifyPaymentBody) (db : Db) (t : Transaction)
    (hv : Payments.verifyPaymentValidation b = true)
    (hfind : db.find? (fun t => decide (t.orderId = b.razorpay_order_id ∧ t.user = req.userId))
      = some t)
    (heq : b.razorpay_signature = Payments.expectedSignature hmacHex secret b)
    (hbad : Transaction.validate (Transaction.updateStatus
      { t with paymentId := some b.razorpay_payment_id,
               razorpaySignature := some b.razorpay_signature }
      "payment_verified" [] req.now) = false) :
    Payments.verifyPayment hmacHex secret transferTokens req b db
      = ⟨db, failure 500 "Payment verification failed", []⟩ := by
  unfold Payments.verifyPayment
  simp only [hv, not_true_eq_false, if_false, hfind]
  rw [if_neg (fun h => h heq.symm)]
  simp only [save_of_invalid _ _ _ _ hbad]

theorem sampleCreated_valid : (sampleRecord "created").validate = true := by
  rw [validate_iff]
  refine ⟨by decide, by decide, by decide, by decide, by decide, by decide, ?_, ?_⟩
  · norm_num [amountInrValidator, sampleRecord]
  · intro n hn; cases hn

theorem sampleCompleted_valid : sampleCompleted.validate = true := by
  rw [validate_iff]
  refine ⟨by decide, by decide, by decide, by decide, by decide, by decide, ?_, ?_⟩
  · norm_num [amountInrValidator, sampleCompleted, sampleRecord]
  · intro n hn; cases hn

theorem sampleFailed_valid : sampleFailed.validate = true := by
  rw [validate_iff]
  refine ⟨by decide, by decide, by decide, by decide, by decide, by decide, ?_, ?_⟩
  · norm_num [amountInrValidator, sampleFailed, sampleRecord]
  · intro n hn
    injection hn with hn
    rw [← hn]
    decide

theorem sampleRequested_valid : (sampleWithdrawal "withdrawal_requested").validate = true := by
  rw [validate_iff]
  refine ⟨by decide, by decide, by decide, by decide, by decide, by decide, ?_, ?_⟩
  · norm_num [amountInrValidator, sampleWithdrawal]
  · intro n hn; cases hn

theorem sampleCreated_amount : (10 : ℚ) ≤ (sampleRecord "created").amount.inr := by
  norm_num [sampleRecord]

theorem sampleCompleted_amount : (10 : ℚ) ≤ sampleCompleted.amount.inr := by
  norm_num [sampleCompleted, sampleRecord]

theorem sampleCreatedWithdrawal_valid :
    (Offramp.newWithdrawal 9 sampleReq sampleWithdrawalBody 10 100 5).validate = true := by
  rw [validate_iff]
  refine ⟨by decide, by decide, by decide, by decide, by decide, by decide, ?_, ?_⟩
  · norm_num [amountInrValidator, Offramp.newWithdrawal]
  · intro n hn; cases hn

theorem sampleOrder_valid :
    (Payments.newOrderTransaction 8 sampleReq ⟨100, "APT", "0xabc"⟩ (1 / 10) 10 "order_9"
      "onramp_00000123").validate = true := by
  rw [validate_iff]
  refine ⟨by decide, by decide, by decide, by decide, by decide, by decide, ?_, ?_⟩
  · norm_num [amountInrValidator, Payments.newOrderTransaction]
  · intro n hn; cases hn

theorem sampleOrder_amount :
    (10 : ℚ) ≤ (Payments.newOrderTransaction 8 sampleReq ⟨100, "APT", "0xabc"⟩ (1 / 10) 10
      "order_9" "onramp_00000123").amount.inr := by
  norm_num [Payments.newOrderTransaction]

/-! ### The claims -/

/-- C1. On-ramp quote: whenever `POST /create-order` accepts a request (answers
200), the token type is APT or USDC with rate 0.1 or 0.012, exactly one record
is added whose `amount.inr` is the fiat amount, whose `conversionRate` is the
rate of the token type and whose `amount.token` is fiat × rate, and the response
carries that same `tokenAmount`; for the fiat amount 100 and APT the quoted
amount is 10. -/
theorem createOrder_quote (razorpayCreate : ℤ → String → Except String String) (newId : Nat)
    (req : Req) (b : Payments.CreateOrderBody) (db : Db)
    (hok : (Payments.createOrder razorpayCreate newId req b db).resp.code = 200) :
    ∃ rate t,
      Payments.CONVERSION_RATES b.tokenType = some rate ∧
      ((b.tokenType = "APT" ∧ rate = 1 / 10) ∨ (b.tokenType = "USDC" ∧ rate = 12 / 1000)) ∧
      (Payments.createOrder razorpayCreate newId req b db).db = db ++ [t] ∧
      t.amount.inr = b.amount ∧ t.conversionRate = rate ∧ t.amount.token = b.amount * rate ∧
      (Payments.createOrder razorpayCreate newId req b db).resp.body.get? "tokenAmount"
        = some (.num (b.amount * rate)) ∧
      (b.amount = 100 → b.tokenType = "APT" → t.amount.token = 10) := by
  unfold Payments.createOrder at hok ⊢
  by_cases hv : Payments.createOrderValidation b = true
  · simp only [hv, not_true_eq_false, if_false] at hok ⊢
    have htt : b.tokenType = "APT" ∨ b.tokenType = "USDC" := by
      simp [Payments.createOrderValidation] at hv
      exact hv.1.2
    cases hrate : Payments.CONVERSION_RATES b.tokenType with
    | none => simp [hrate, failure] at hok
    | some rate =>
      simp only [hrate] at hok ⊢
      have hrate2 : (b.tokenType = "APT" ∧ rate = 1 / 10) ∨
          (b.tokenType = "USDC" ∧ rate = 12 / 1000) := by
        rcases htt with h | h
        · left
          refine ⟨h, ?_⟩
          simp [Payments.CONVERSION_RATES, h] at hrate
          rw [← hrate]; norm_num
        · right
          refine ⟨h, ?_⟩
          simp [Payments.CONVERSION_RATES, h] at hrate
          rw [← hrate]
      cases hrc : razorpayCreate (mathRound (b.amount * 100)) ("onramp_" ++ last8 req.now) with
      | error e => simp [hrc, failure] at hok
      | ok oid =>
        simp only [hrc] at hok ⊢
        cases hins : saveNew db
            (Payments.newOrderTransaction newId req b rate (b.amount * rate) oid
              ("onramp_" ++ last8 req.now)) with
        | error e => simp [hins, failure] at hok
        | ok db1 =>
          simp only [hins]
          have hdb : db1 = db ++ [Payments.newOrderTransaction newId req b rate (b.amount * rate)
              oid ("onramp_" ++ last8 req.now)] := by
            unfold saveNew at hins
            split at hins
            · cases hins
            · split at hins
              · cases hins
              · injection hins with h; exact h.symm
          refine ⟨rate, _, rfl, hrate2, hdb, rfl, rfl, rfl, ?_, ?_⟩
          · simp [Json.get?, List.lookup]
          · intro ha ht
            rcases hrate2 with ⟨_, hr⟩ | ⟨hu, _⟩
            · simp [Payments.newOrderTransaction, ha, hr]
              norm_num
            · rw [ht] at hu; exact absurd hu (by decide)
  · simp [hv, validationError, failure] at hok

/-- Witness for `createOrder_quote`: the request for 100 INR of APT is accepted. -/
theorem createOrder_quote_witness :
    (Payments.createOrder sampleGateway 8 sampleReq ⟨100, "APT", "0xabc"⟩ []).resp.code = 200 ∧
    ∃ rate t,
      Payments.CONVERSION_RATES "APT" = some rate ∧
      (("APT" = "APT" ∧ rate = 1 / 10) ∨ ("APT" = "USDC" ∧ rate = 12 / 1000)) ∧
      (Payments.createOrder sampleGateway 8 sampleReq ⟨100, "APT", "0xabc"⟩ []).db = [] ++ [t] ∧
      t.amount.inr = 100 ∧ t.conversionRate = rate ∧ t.amount.token = 100 * rate ∧
      (Payments.createOrder sampleGateway 8 sampleReq ⟨100, "APT", "0xabc"⟩ []).resp.body.get?
        "tokenAmount" = some (.num (100 * rate)) ∧
      ((100 : ℚ) = 100 → "APT" = "APT" → t.amount.token = 10) :=
  have h : (Payments.createOrder sampleGateway 8 sampleReq ⟨100, "APT", "0xabc"⟩ []).resp.code
      = 200 := by
    have ht : jsTrim "0xabc" = "0xabc" := by decide
    norm_num [Payments.createOrder, Payments.createOrderValidation, Payments.CONVERSION_RATES,
      saveNew, Transaction.validate, Payments.newOrderTransaction, statusEnum, subStatusEnum,
      tokenTypeEnum, amountInrValidator, sampleGateway, ht]
    simp +decide
  ⟨h, createOrder_quote sampleGateway 8 sampleReq ⟨100, "APT", "0xabc"⟩ [] h⟩

/-- C2. Off-ramp quote: for every token amount `a` that passes the validators of
`/estimate` and `/create-withdrawal`, with gross = a × 10,
fee = max 5 (min 500 (gross × 0.025)) and net = gross − fee: the fee lies in
[5, 500]; `/estimate` answers 200 with these three values (printed with two
decimals); whenever `/create-withdrawal` accepts, its response carries the same
three values and the stored record has `amount.inr` = gross and
`fees.platform` = fee; and for a = 10 the values are 100, 5 and 95. -/
theorem offramp_quote (bank : Option Offramp.BankDetails) (newId : Nat) (req : Req)
    (b : Offramp.WithdrawalBody) (db : Db) (hv : Offramp.withdrawalValidation b = true) :
    5 ≤ max 5 (min 500 (b.amount * 10 * (25 / 1000))) ∧
    max 5 (min 500 (b.amount * 10 * (25 / 1000))) ≤ 500 ∧
    (Offramp.estimate b db).resp.code = 200 ∧
    (Offramp.estimate b db).resp.body.path? ["estimation", "grossINR"]
      = some (.str (toFixed2 (b.amount * 10))) ∧
    (Offramp.estimate b db).resp.body.path? ["estimation", "platformFee"]
      = some (.str (toFixed2 (max 5 (min 500 (b.amount * 10 * (25 / 1000)))))) ∧
    (Offramp.estimate b db).resp.body.path? ["estimation", "netINR"]
      = some (.str (toFixed2 (b.amount * 10 - max 5 (min 500 (b.amount * 10 * (25 / 1000)))))) ∧
    ((Offramp.createWithdrawal bank newId req b db).resp.code = 200 →
      ∃ t, (Offramp.createWithdrawal bank newId req b db).db = db ++ [t] ∧
        t.amount.token = b.amount ∧ t.amount.inr = b.amount * 10 ∧
        t.fees.platform = max 5 (min 500 (b.amount * 10 * (25 / 1000))) ∧
        (Offramp.createWithdrawal bank newId req b db).resp.body.path? ["details", "grossINR"]
          = (Offramp.estimate b db).resp.body.path? ["estimation", "grossINR"] ∧
        (Offramp.createWithdrawal bank newId req b db).resp.body.path? ["details", "platformFee"]
          = (Offramp.estimate b db).resp.body.path? ["estimation", "platformFee"] ∧
        (Offramp.createWithdrawal bank newId req b db).resp.body.path? ["details", "netINR"]
          = (Offramp.estimate b db).resp.body.path? ["estimation", "netINR"]) ∧
    (b.amount = 10 →
      b.amount * 10 = 100 ∧ max 5 (min 500 (b.amount * 10 * (25 / 1000))) = 5 ∧
      b.amount * 10 - max 5 (min 500 (b.amount * 10 * (25 / 1000))) = 95) := by
  have htt : b.tokenType = "APT" := by
    simp [Offramp.withdrawalValidation] at hv
    exact hv.2
  have hrate : Offramp.CONVERSION_RATES b.tokenType = some 10 := by
    simp [Offramp.CONVERSION_RATES, htt]
  have hest : (Offramp.estimate b db).resp.body = .obj [("success", .bool true),
      ("estimation",
        .obj [("tokenAmount", .num b.amount), ("tokenType", .str b.tokenType),
              ("grossINR", .str (toFixed2 (b.amount * 10))),
              ("platformFee", .str (toFixed2 (max 5 (min 500 (b.amount * 10 * (25 / 1000)))))),
              ("netINR", .str (toFixed2
                (b.amount * 10 - max 5 (min 500 (b.amount * 10 * (25 / 1000)))))),
              ("conversionRate", .num 10), ("feePercentage", .num (5 / 2)),
              ("processingTime", .str "2-3 business days")])] := by
    simp only [Offramp.estimate, hv, hrate, not_true_eq_false, if_false]
  refine ⟨le_max_left _ _, max_le (by norm_num) (min_le_left _ _), ?_, ?_, ?_, ?_, ?_, ?_⟩
  · simp only [Offramp.estimate, hv, hrate, not_true_eq_false, if_false]
  · rw [hest]; simp [Json.path?, Json.get?, List.lookup]
  · rw [hest]; simp [Json.path?, Json.get?, List.lookup]
  · rw [hest]; simp [Json.path?, Json.get?, List.lookup]
  · intro hok
    rw [hest]
    unfold Offramp.createWithdrawal at hok ⊢
    simp only [hv, hrate, not_true_eq_false, if_false] at hok ⊢
    cases bank with
    | none => simp [failure] at hok
    | some bk =>
      simp only at hok ⊢
      by_cases hp : Offramp.noPhone req.user = true
      · simp [hp, failure] at hok
      · simp only [hp, if_false] at hok ⊢
        by_cases hnet : b.amount * 10 - max 5 (min 500 (b.amount * 10 * (25 / 1000))) < 5
        · simp [hnet, failure] at hok
        · simp only [hnet, if_false] at hok ⊢
          cases hins : saveNew db (Offramp.newWithdrawal newId req b 10 (b.amount * 10)
              (max 5 (min 500 (b.amount * 10 * (25 / 1000))))) with
          | error e => simp [hins, failure] at hok
          | ok db1 =>
            simp only [hins]
            have hdb : db1 = db ++ [Offramp.newWithdrawal newId req b 10 (b.amount * 10)
                (max 5 (min 500 (b.amount * 10 * (25 / 1000))))] := by
              unfold saveNew at hins
              split at hins
              · cases hins
              · split at hins
                · cases hins
                · injection hins with h; exact h.symm
            refine ⟨_, hdb, rfl, rfl, rfl, ?_, ?_, ?_⟩ <;>
              simp [Json.path?, Json.get?, List.lookup]
  · intro ha
    rw [ha]
    norm_num

/-- Witness for `offramp_quote`: ten APT pass the validators, `/create-withdrawal`
accepts them, and the quote is gross 100, fee 5, net 95. -/
theorem offramp_quote_witness :
    Offramp.withdrawalValidation sampleWithdrawalBody = true ∧
    (Offramp.createWithdrawal (some sampleBank) 9 sampleReq sampleWithdrawalBody []).resp.code
      = 200 ∧
    (∃ t, (Offramp.createWithdrawal (some sampleBank) 9 sampleReq sampleWithdrawalBody []).db
        = [] ++ [t] ∧
      t.amount.token = sampleWithdrawalBody.amount ∧
      t.amount.inr = sampleWithdrawalBody.amount * 10 ∧
      t.fees.platform = max 5 (min 500 (sampleWithdrawalBody.amount * 10 * (25 / 1000)))) ∧
    sampleWithdrawalBody.amount * 10 = 100 ∧
    max 5 (min 500 (sampleWithdrawalBody.amount * 10 * (25 / 1000))) = 5 ∧
    sampleWithdrawalBody.amount * 10
      - max 5 (min 500 (sampleWithdrawalBody.amount * 10 * (25 / 1000))) = 95 :=
  have hv : Offramp.withdrawalValidation sampleWithdrawalBody = true := by
    norm_num [Offramp.withdrawalValidation, sampleWithdrawalBody]
  have hok : (Offramp.createWithdrawal (some sampleBank) 9 sampleReq sampleWithdrawalBody
      []).resp.code = 200 := by
    have ht : jsTrim "0xabc" = "0xabc" := by decide
    have hl : "offramp_" ++ last8 1700000000123 ≠ "" := by decide
    norm_num [Offramp.createWithdrawal, Offramp.withdrawalValidation, sampleWithdrawalBody,
      Offramp.CONVERSION_RATES, Offramp.noPhone, sampleReq, sampleUser, saveNew,
      Transaction.validate, Offramp.newWithdrawal, statusEnum, subStatusEnum, tokenTypeEnum,
      amountInrValidator, ht, hl]
    simp +decide
  have h := offramp_quote (some sampleBank) 9 sampleReq sampleWithdrawalBody [] hv
  ⟨hv, hok,
    (h.2.2.2.2.2.2.1 hok).imp (fun _ ht => ⟨ht.1, ht.2.1, ht.2.2.1, ht.2.2.2.1⟩),
    h.2.2.2.2.2.2.2 rfl⟩

/-- C3. Payment-proof signature check: the expected signature is a function of
the secret, the order id and the payment id only. For a well-formed request
whose record is found and passes the schema's validation (as every stored
record does), `verify-payment` answers 400 'Invalid payment signature' without
calling the transfer executor when the supplied signature differs from the
expected one, and otherwise passes the signature check and does not answer
400: it goes on to the transfer, calling the executor, when the record's fiat
amount is at least 10, and when the fiat amount is below 10 (a record of
`send-payment`) the `save` with the proof's payment id is rejected, the answer
is 500 and nothing is written or called. So when a signature is accepted,
every string that differs from it in a single character is rejected with
'Invalid payment signature'. -/
theorem verifyPayment_signature_check (hmacHex : String → String → String) (secret : String)
    (transferTokens : String → String → ℚ → Except String TransferResult)
    (req : Req) (b : Payments.VerifyPaymentBody) (db : Db) (t : Transaction)
    (hv : Payments.verifyPaymentValidation b = true)
    (hfind : db.find? (fun t => decide (t.orderId = b.razorpay_order_id ∧ t.user = req.userId))
      = some t)
    (hvt : t.validate = true) :
    (∀ b2 : Payments.VerifyPaymentBody,
      b2.razorpay_order_id = b.razorpay_order_id →
      b2.razorpay_payment_id = b.razorpay_payment_id →
      Payments.expectedSignature hmacHex secret b2
        = hmacHex secret (b.razorpay_order_id ++ "|" ++ b.razorpay_payment_id)) ∧
    (b.razorpay_signature ≠ Payments.expectedSignature hmacHex secret b →
      (Payments.verifyPayment hmacHex secret transferTokens req b db).resp
        = failure 400 "Invalid payment signature" ∧
      (Payments.verifyPayment hmacHex secret transferTokens req b db).calls = []) ∧
    (b.razorpay_signature = Payments.expectedSignature hmacHex secret b →
      (Payments.verifyPayment hmacHex secret transferTokens req b db).resp.code ≠ 400 ∧
      (10 ≤ t.amount.inr →
        (Payments.verifyPayment hmacHex secret transferTokens req b db).calls
          = [Call.transferTokens t.walletAddress t.tokenType t.amount.inr]) ∧
      (t.amount.inr < 10 →
        b.razorpay_payment_id ≠ "direct_wallet_transfer" ∧
          b.razorpay_payment_id ≠ "direct_wallet_transfer_failed" →
        Payments.verifyPayment hmacHex secret transferTokens req b db
          = ⟨db, failure 500 "Payment verification failed", []⟩) ∧
      ∀ (i : Nat) (c : Char), i < b.razorpay_signature.length →
        b.razorpay_signature.toList[i]? ≠ some c →
        (Payments.verifyPayment hmacHex secret transferTokens req
          { b with razorpay_signature := mutateAt b.razorpay_signature i c } db).resp
          = failure 400 "Invalid payment signature") := by
  have hrej : ∀ b3 : Payments.VerifyPaymentBody,
      b3.razorpay_order_id = b.razorpay_order_id →
      Payments.verifyPaymentValidation b3 = true →
      b3.razorpay_signature ≠ Payments.expectedSignature hmacHex secret b3 →
      (Payments.verifyPayment hmacHex secret transferTokens req b3 db).resp
        = failure 400 "Invalid payment signature" ∧
      (Payments.verifyPayment hmacHex secret transferTokens req b3 db).calls = [] := by
    intro b3 ho hv3 hne
    unfold Payments.verifyPayment
    simp only [hv3, not_true_eq_false, if_false, ho, hfind]
    rw [if_pos (Ne.symm hne)]
    obtain ⟨db1, d, hs, -⟩ := save_paymentFailed db t req.now hvt
    simp only [hs]
    exact ⟨trivial, trivial⟩
  refine ⟨?_, hrej b rfl hv, ?_⟩
  · intro b2 ho hp
    simp [Payments.expectedSignature, ho, hp]
  · intro heq
    refine ⟨?_, ?_, ?_, ?_⟩
    · unfold Payments.verifyPayment
      simp only [hv, not_true_eq_false, if_false, hfind]
      rw [if_neg (fun h => h heq.symm)]
      cases save db t (Transaction.updateStatus
          { t with paymentId := some b.razorpay_payment_id,
                   razorpaySignature := some b.razorpay_signature }
          "payment_verified" [] req.now) req.now with
      | error e => simp [failure]
      | ok res =>
        obtain ⟨db1, d⟩ := res
        simp only
        cases transferTokens d.walletAddress d.tokenType d.amount.inr with
        | error m =>
          simp only [Payments.verifyPaymentCatch]
          split <;> simp [failure]
        | ok r =>
          simp only
          split
          · simp only [Payments.verifyPaymentCatch]
            split <;> simp [failure]
          · simp
    · intro hinr
      exact (verifyPayment_valid hmacHex secret transferTokens req b db t hv hfind heq hvt
        hinr).1
    · intro hlow hpid
      exact verifyPayment_unsaved hmacHex secret transferTokens req b db t hv hfind heq
        (invalid_verified t _ _ _ hlow hpid)
    · intro i c hi hc
      have hmut := mutateAt_ne b.razorpay_signature i c hi hc
      have hlen : (mutateAt b.razorpay_signature i c) ≠ "" := by
        intro h0
        have h1 : (b.razorpay_signature.toList.set i c).length = 0 := by
          have h4 : b.razorpay_signature.toList.set i c = [] := congrArg String.toList h0
          rw [h4]; rfl
        rw [List.length_set] at h1
        have h2 : i < b.razorpay_signature.toList.length := hi
        rw [h1] at h2
        exact Nat.not_lt_zero _ h2
      refine (hrej { b with razorpay_signature := mutateAt b.razorpay_signature i c } rfl ?_ ?_).1
      · simp [Payments.verifyPaymentValidation] at hv ⊢
        exact ⟨⟨hv.1.1, hv.1.2⟩, hlen⟩
      · simp only [Payments.expectedSignature]
        intro h3
        apply hmut
        rw [h3, heq]
        rfl

/-- Witness for `verifyPayment_signature_check`: the sample proof is accepted
for the sample record, and the proof with its first character changed is
rejected. -/
theorem verifyPayment_signature_check_witness :
    Payments.verifyPaymentValidation sampleProof = true ∧
    [sampleRecord "created"].find?
      (fun t => decide (t.orderId = sampleProof.razorpay_order_id ∧ t.user = sampleReq.userId))
      = some (sampleRecord "created") ∧
    (Payments.verifyPayment sampleHmac "k" sampleTransfer sampleReq sampleProof
      [sampleRecord "created"]).calls = [Call.transferTokens "0xabc" "APT" 100] ∧
    (Payments.verifyPayment sampleHmac "k" sampleTransfer sampleReq
      { sampleProof with razorpay_signature := mutateAt sampleProof.razorpay_signature 0 'x' }
      [sampleRecord "created"]).resp = failure 400 "Invalid payment signature" :=
  have hv : Payments.verifyPaymentValidation sampleProof = true := by decide
  have hfind : [sampleRecord "created"].find?
      (fun t => decide (t.orderId = sampleProof.razorpay_order_id ∧ t.user = sampleReq.userId))
      = some (sampleRecord "created") := by
    simp +decide [sampleRecord, sampleProof, sampleReq, Req.userId, sampleUser]
  have h := verifyPayment_signature_check sampleHmac "k" sampleTransfer sampleReq sampleProof
    [sampleRecord "created"] (sampleRecord "created") hv hfind sampleCreated_valid
  ⟨hv, hfind, (h.2.2 (by decide)).2.1 sampleCreated_amount,
    (h.2.2 (by decide)).2.2.2 0 'x' (by decide) (by decide)⟩

/-- C4 (as stated, refuted). The sample proof is valid for the sample record;
after the first `verify-payment` the record has its payment proof id set, and
the second `verify-payment` with the same proof calls the transfer executor
again: two calls in all, not at most one. -/
theorem verifyPayment_twice_counterexample :
    ((Payments.verifyPayment sampleHmac "k" sampleTransfer sampleReq sampleProof
        [sampleRecord "created"]).calls ++
     (Payments.verifyPayment sampleHmac "k" sampleTransfer sampleReq sampleProof
        (Payments.verifyPayment sampleHmac "k" sampleTransfer sampleReq sampleProof
          [sampleRecord "created"]).db).calls)
      = [Call.transferTokens "0xabc" "APT" 100, Call.transferTokens "0xabc" "APT" 100] ∧
    ¬ ((Payments.verifyPayment sampleHmac "k" sampleTransfer sampleReq sampleProof
        [sampleRecord "created"]).calls ++
     (Payments.verifyPayment sampleHmac "k" sampleTransfer sampleReq sampleProof
        (Payments.verifyPayment sampleHmac "k" sampleTransfer sampleReq sampleProof
          [sampleRecord "created"]).db).calls).length ≤ 1 := by
  have hv : Payments.verifyPaymentValidation sampleProof = true := by decide
  have hfind : [sampleRecord "created"].find?
      (fun t => decide (t.orderId = sampleProof.razorpay_order_id ∧ t.user = sampleReq.userId))
      = some (sampleRecord "created") := by
    simp +decide [sampleRecord, sampleProof, sampleReq, Req.userId, sampleUser]
  have heq : sampleProof.razorpay_signature
      = Payments.expectedSignature sampleHmac "k" sampleProof := by decide
  obtain ⟨hc1, t1, hf1, hq1, -, -, -, hv1⟩ := verifyPayment_valid sampleHmac "k" sampleTransfer
    sampleReq sampleProof [sampleRecord "created"] (sampleRecord "created") hv hfind heq
    sampleCreated_valid sampleCreated_amount
  obtain ⟨hc2, -⟩ := verifyPayment_valid sampleHmac "k" sampleTransfer
    sampleReq sampleProof _ t1 hv hf1 heq hv1
    (by rw [hq1.2.2.2.2.2.1]; exact sampleCreated_amount)
  rw [hc1, hc2, hq1.2.2.2.1, hq1.2.2.2.2.1, hq1.2.2.2.2.2.1]
  simp [sampleRecord]

/-- C4 (amended). `verify-payment` has no idempotency guard: for every stored
record that passes the schema's validation and has a fiat amount of at least
10 (as every record of `create-order` has) and every valid proof for it, the
first call invokes the transfer executor exactly once and leaves the record
with the proof's payment id set, and a second call with the same proof, made
on the resulting collection, invokes the transfer executor exactly once again
with the same arguments; when that second transfer succeeds the second call
answers 200 and the record is completed with the hash of the second
transfer. -/
theorem verifyPayment_twice (hmacHex : String → String → String) (secret : String)
    (transfer1 transfer2 : String → String → ℚ → Except String TransferResult)
    (req1 req2 : Req) (b : Payments.VerifyPaymentBody) (db : Db) (t : Transaction)
    (hreq : req2.userId = req1.userId)
    (hv : Payments.verifyPaymentValidation b = true)
    (hfind : db.find? (fun t => decide (t.orderId = b.razorpay_order_id ∧ t.user = req1.userId))
      = some t)
    (heq : b.razorpay_signature = Payments.expectedSignature hmacHex secret b)
    (hvt : t.validate = true) (hinr : 10 ≤ t.amount.inr) :
    (Payments.verifyPayment hmacHex secret transfer1 req1 b db).calls
      = [Call.transferTokens t.walletAddress t.tokenType t.amount.inr] ∧
    (∃ t1, (Payments.verifyPayment hmacHex secret transfer1 req1 b db).db.find?
        (fun t => decide (t.orderId = b.razorpay_order_id ∧ t.user = req1.userId)) = some t1 ∧
      t1.paymentId = some b.razorpay_payment_id) ∧
    (Payments.verifyPayment hmacHex secret transfer2 req2 b
        (Payments.verifyPayment hmacHex secret transfer1 req1 b db).db).calls
      = [Call.transferTokens t.walletAddress t.tokenType t.amount.inr] ∧
    (∀ r2, transfer2 t.walletAddress t.tokenType t.amount.inr = .ok r2 →
      (Payments.verifyPayment hmacHex secret transfer2 req2 b
        (Payments.verifyPayment hmacHex secret transfer1 req1 b db).db).resp.code = 200 ∧
      ∃ t2, (Payments.verifyPayment hmacHex secret transfer2 req2 b
          (Payments.verifyPayment hmacHex secret transfer1 req1 b db).db).db.find?
          (fun t => decide (t.orderId = b.razorpay_order_id ∧ t.user = req1.userId)) = some t2 ∧
        t2.status = "completed" ∧ t2.transactionHash = some r2.hash) := by
  obtain ⟨hc1, t1, hf1, hq1, hp1, -, -, hv1⟩ :=
    verifyPayment_valid hmacHex secret transfer1 req1 b db t hv hfind heq hvt hinr
  have hf1b := hf1
  rw [← hreq] at hf1b
  obtain ⟨hc2, t2, hf2, hq2, hp2, hok2, -⟩ :=
    verifyPayment_valid hmacHex secret transfer2 req2 b _ t1 hv hf1b heq hv1
      (by rw [hq1.2.2.2.2.2.1]; exact hinr)
  rw [hq1.2.2.2.1, hq1.2.2.2.2.1, hq1.2.2.2.2.2.1] at hc2 hok2
  refine ⟨hc1, ⟨t1, hf1, hp1⟩, hc2, ?_⟩
  intro r2 hr2
  obtain ⟨h200, hst, hh⟩ := hok2 r2 hr2
  rw [hreq] at hf2
  exact ⟨h200, t2, hf2, hst, hh⟩

/-- Witness for `verifyPayment_twice` on the sample record and proof. -/
theorem verifyPayment_twice_witness :
    (Payments.verifyPayment sampleHmac "k" sampleTransfer otherReqSameUser sampleProof
        (Payments.verifyPayment sampleHmac "k" sampleTransfer sampleReq sampleProof
          [sampleRecord "created"]).db).calls
      = [Call.transferTokens "0xabc" "APT" 100] :=
  (verifyPayment_twice sampleHmac "k" sampleTransfer sampleTransfer sampleReq otherReqSameUser
    sampleProof [sampleRecord "created"] (sampleRecord "created") rfl (by decide)
    (by simp +decide [sampleRecord, sampleProof, sampleReq, Req.userId, sampleUser])
    (by decide) sampleCreated_valid sampleCreated_amount).2.2.1

/-- C5. Cross-owner isolation: let `r` be a stored record, the only one with
its id and the only one with its order reference, and let the caller be a user
other than its owner. Then each record-keyed operation addressed to `r`
(verify-payment, get transaction, cancel, retry-transfer, order status,
verify-token-transfer, get withdrawal, cancel withdrawal, confirm-payment)
leaves the collection unchanged and calls no collaborator, in particular not
the transfer executor, and it answers 404; the two operations that validate a
request body answer 404 for every body that passes their validators and reject
any other body as a validation error. -/
theorem cross_owner_isolation (db : Db) (r : Transaction) (req : Req)
    (hmacHex : String → String → String) (secret : String)
    (transferTokens : String → String → ℚ → Except String TransferResult)
    (razorpayFetch : String → Except String Payments.RazorpayOrder)
    (getTransactionByHash : String → Except String Offramp.AptosTransaction)
    (paymentId signature hash randomOrderId : String) (reason : Option String)
    (hid : ∀ x ∈ db, x._id = r._id → x = r)
    (horder : ∀ x ∈ db, x.orderId = r.orderId → x = r)
    (hne : req.userId ≠ r.user) :
    (Payments.verifyPayment hmacHex secret transferTokens req ⟨r.orderId, paymentId, signature⟩ db
        = (if Payments.verifyPaymentValidation ⟨r.orderId, paymentId, signature⟩ = true then
            ⟨db, failure 404 "Transaction not found", []⟩
          else ⟨db, validationError, []⟩)) ∧
    Payments.getTransaction req r._id db = ⟨db, failure 404 "Transaction not found", []⟩ ∧
    Payments.cancelTransaction req r._id reason db
      = ⟨db, failure 404 "Transaction not found", []⟩ ∧
    Payments.retryTransfer transferTokens req r._id db
      = ⟨db, failure 404 "Transaction not found", []⟩ ∧
    Payments.orderStatus razorpayFetch req r.orderId db
      = ⟨db, failure 404 "Order not found", []⟩ ∧
    (Offramp.verifyTokenTransfer getTransactionByHash req ⟨r._id, hash⟩ db
        = (if Offramp.verifyTransferValidation ⟨r._id, hash⟩ = true then
            ⟨db, failure 404 "Withdrawal request not found or already processed", []⟩
          else ⟨db, validationError, []⟩)) ∧
    Offramp.getWithdrawal req r._id db = ⟨db, failure 404 "Withdrawal not found", []⟩ ∧
    Offramp.cancelWithdrawal req r._id reason db
      = ⟨db, failure 404 "Withdrawal not found", []⟩ ∧
    Offramp.confirmPayment randomOrderId req r._id db
      = ⟨db, failure 404 "Withdrawal not found", []⟩ := by
  have h1 := find?_other_owner_id2 db r req.userId hid hne
  have h2 := find?_other_owner_order db r req.userId horder hne
  have h3 := find?_other_owner_id db r req.userId
    (fun t => t.status = "withdrawal_requested") hid hne
  refine ⟨?_, ?_, ?_, ?_, ?_, ?_, ?_, ?_, ?_⟩
  · unfold Payments.verifyPayment
    by_cases hv : Payments.verifyPaymentValidation ⟨r.orderId, paymentId, signature⟩ = true
    · simp only [hv, not_true_eq_false, if_false, if_true, h2]
    · simp [hv]
  · simp only [Payments.getTransaction, h1]
  · simp only [Payments.cancelTransaction, h1]
  · simp only [Payments.retryTransfer, h1]
  · simp only [Payments.orderStatus, h2]
  · unfold Offramp.verifyTokenTransfer
    by_cases hv : Offramp.verifyTransferValidation ⟨r._id, hash⟩ = true
    · simp only [hv, not_true_eq_false, if_false, if_true, h3]
    · simp [hv]
  · simp only [Offramp.getWithdrawal, h1]
  · simp only [Offramp.cancelWithdrawal, h1]
  · simp only [Offramp.confirmPayment, h1]

/-- Witness for `cross_owner_isolation`: the second sample user addresses the
record of the first. -/
theorem cross_owner_isolation_witness :
    otherReq.userId ≠ (sampleRecord "failed").user ∧
    Payments.retryTransfer sampleTransfer otherReq (sampleRecord "failed")._id
        [sampleRecord "failed"]
      = ⟨[sampleRecord "failed"], failure 404 "Transaction not found", []⟩ ∧
    Offramp.cancelWithdrawal otherReq (sampleRecord "failed")._id none [sampleRecord "failed"]
      = ⟨[sampleRecord "failed"], failure 404 "Withdrawal not found", []⟩ :=
  have h := cross_owner_isolation [sampleRecord "failed"] (sampleRecord "failed") otherReq
    sampleHmac "k" sampleTransfer (fun _ => .error "unavailable") (fun _ => .error "not found")
    "pay_1" "k#order_1|pay_1" "0x00" "order_x" none
    (by intro x hx _; simpa using hx) (by intro x hx _; simpa using hx) (by decide)
  ⟨by decide, h.2.2.2.1, h.2.2.2.2.2.2.2.1⟩

/-- C6. Signature mismatch handling: for every record found for the caller
(a stored record, which passes the schema's validation) and every well-formed
proof whose signature differs from the expected keyed hash, `verify-payment`
answers 400 'Invalid payment signature', calls no
collaborator (so not the transfer executor), and leaves the record with
status failed and paymentStatus failed and every other field, in particular
`paymentId` and `transactionHash`, as it was (`updatedAt` apart); no other
write is made to the collection. -/
theorem verifyPayment_mismatch (hmacHex : String → String → String) (secret : String)
    (transferTokens : String → String → ℚ → Except String TransferResult)
    (req : Req) (b : Payments.VerifyPaymentBody) (db : Db) (t : Transaction)
    (hv : Payments.verifyPaymentValidation b = true)
    (hfind : db.find? (fun t => decide (t.orderId = b.razorpay_order_id ∧ t.user = req.userId))
      = some t)
    (hne : b.razorpay_signature ≠ Payments.expectedSignature hmacHex secret b)
    (hvt : t.validate = true) :
    (Payments.verifyPayment hmacHex secret transferTokens req b db).resp
      = failure 400 "Invalid payment signature" ∧
    (Payments.verifyPayment hmacHex secret transferTokens req b db).resp.code = 400 ∧
    (Payments.verifyPayment hmacHex secret transferTokens req b db).calls = [] ∧
    ∃ t', (Payments.verifyPayment hmacHex secret transferTokens req b db).db.find?
        (fun t => decide (t.orderId = b.razorpay_order_id ∧ t.user = req.userId)) = some t' ∧
      t'.status = "failed" ∧ t'.paymentStatus = "failed" ∧
      t'.paymentId = t.paymentId ∧ t'.transactionHash = t.transactionHash ∧
      { t' with updatedAt := t.updatedAt }
        = { t with status := "failed", paymentStatus := "failed" } ∧
      ((Payments.verifyPayment hmacHex secret transferTokens req b db).db = db ∨
       (Payments.verifyPayment hmacHex secret transferTokens req b db).db = Db.replace db t') := by
  obtain ⟨db1, d, hout, hf, hd, hdb⟩ :=
    verifyPayment_invalid hmacHex secret transferTokens req b db t hv hfind hne hvt
  rw [hout]
  refine ⟨rfl, rfl, rfl, d, hf, ?_, ?_, ?_, ?_, ?_, hdb⟩ <;>
    rcases hd with h | h <;> rw [h]

/-- Witness for `verifyPayment_mismatch`: a forged signature for the sample
record. -/
theorem verifyPayment_mismatch_witness :
    (Payments.verifyPayment sampleHmac "k" sampleTransfer sampleReq
        { sampleProof with razorpay_signature := "forged" } [sampleRecord "created"]).resp.code
      = 400 ∧
    (Payments.verifyPayment sampleHmac "k" sampleTransfer sampleReq
        { sampleProof with razorpay_signature := "forged" } [sampleRecord "created"]).calls
      = [] :=
  have h := verifyPayment_mismatch sampleHmac "k" sampleTransfer sampleReq
    { sampleProof with razorpay_signature := "forged" } [sampleRecord "created"]
    (sampleRecord "created") (by decide)
    (by simp +decide [sampleRecord, sampleProof, sampleReq, Req.userId, sampleUser])
    (by decide) sampleCreated_valid
  ⟨h.2.1, h.2.2.1⟩

/-- C7 (as stated, refuted). The settled sample record has status completed;
`verify-payment` with a forged signature for it leaves it with status failed,
and `verify-payment` with the valid proof calls the transfer executor again. -/
theorem terminal_immutability_counterexample :
    sampleCompleted.status = "completed" ∧
    (∃ t', (Payments.verifyPayment sampleHmac "k" sampleTransfer sampleReq
        { sampleProof with razorpay_signature := "forged" } [sampleCompleted]).db.find?
        (fun t => decide (t.orderId = "order_1" ∧ t.user = 1)) = some t' ∧
      t'.status = "failed") ∧
    (Payments.verifyPayment sampleHmac "k" sampleTransfer sampleReq sampleProof
        [sampleCompleted]).calls = [Call.transferTokens "0xabc" "APT" 100] := by
  have hfind : [sampleCompleted].find?
      (fun t => decide (t.orderId = "order_1" ∧ t.user = sampleReq.userId))
      = some sampleCompleted := by
    simp +decide [sampleCompleted, sampleRecord, sampleReq, Req.userId, sampleUser]
  refine ⟨rfl, ?_, ?_⟩
  · obtain ⟨db1, d, hout, hf, hd, -⟩ := verifyPayment_invalid sampleHmac "k" sampleTransfer
      sampleReq { sampleProof with razorpay_signature := "forged" } [sampleCompleted]
      sampleCompleted (by decide) hfind (by decide) sampleCompleted_valid
    rw [hout]
    refine ⟨d, hf, ?_⟩
    rcases hd with h | h <;> rw [h]
  · exact (verifyPayment_valid sampleHmac "k" sampleTransfer sampleReq sampleProof
      [sampleCompleted] sampleCompleted (by decide) hfind (by decide) sampleCompleted_valid
      sampleCompleted_amount).1

/-- C7 (amended). When every stored record with the addressed id has status
completed, cancelled or failed, the handlers get-transaction, payments cancel,
order-status, verify-token-transfer, get-withdrawal, withdrawal cancel and
confirm-payment leave the collection unchanged and do not call the transfer
executor (all but order-status make no call at all); estimate leaves the
collection unchanged, and create-order and create-withdrawal only append to
it. `verify-payment` is the exception beside retry-transfer: on a stored
record in such a status (one that passes the schema's validation) it sets the
status to failed when the signature is wrong; when the signature is right it
calls the transfer executor if the record's fiat amount is at least 10, and
for a fiat amount below 10 (a record of `send-payment`) the `save` with the
proof's payment id is rejected, the answer is 500 and nothing is written or
called. -/
theorem terminal_status_frame (db : Db) (req : Req) (id : Nat) (orderId hash : String)
    (reason : Option String) (randomOrderId : String)
    (razorpayFetch : String → Except String Payments.RazorpayOrder)
    (getTransactionByHash : String → Except String Offramp.AptosTransaction)
    (razorpayCreate : ℤ → String → Except String String) (newId : Nat)
    (ob : Payments.CreateOrderBody) (wb : Offramp.WithdrawalBody)
    (bank : Option Offramp.BankDetails)
    (hmacHex : String → String → String) (secret : String)
    (transferTokens : String → String → ℚ → Except String TransferResult)
    (hterm : ∀ x ∈ db, x._id = id → x.status ∈ terminalStatuses) :
    ((Payments.getTransaction req id db).db = db ∧
      (Payments.getTransaction req id db).calls = []) ∧
    ((Payments.cancelTransaction req id reason db).db = db ∧
      (Payments.cancelTransaction req id reason db).calls = []) ∧
    ((Payments.orderStatus razorpayFetch req orderId db).db = db ∧
      ∀ c ∈ (Payments.orderStatus razorpayFetch req orderId db).calls, c.isTransfer = false) ∧
    ((Offramp.verifyTokenTransfer getTransactionByHash req ⟨id, hash⟩ db).db = db ∧
      (Offramp.verifyTokenTransfer getTransactionByHash req ⟨id, hash⟩ db).calls = []) ∧
    ((Offramp.getWithdrawal req id db).db = db ∧
      (Offramp.getWithdrawal req id db).calls = []) ∧
    ((Offramp.cancelWithdrawal req id reason db).db = db ∧
      (Offramp.cancelWithdrawal req id reason db).calls = []) ∧
    ((Offramp.confirmPayment randomOrderId req id db).db = db ∧
      (Offramp.confirmPayment randomOrderId req id db).calls = []) ∧
    (Offramp.estimate wb db).db = db ∧
    db <+: (Payments.createOrder razorpayCreate newId req ob db).db ∧
    db <+: (Offramp.createWithdrawal bank newId req wb db).db ∧
    (∀ (b : Payments.VerifyPaymentBody) (t : Transaction),
      Payments.verifyPaymentValidation b = true →
      db.find? (fun t => decide (t.orderId = b.razorpay_order_id ∧ t.user = req.userId))
        = some t →
      t.status ∈ terminalStatuses →
      t.validate = true →
      (b.razorpay_signature ≠ Payments.expectedSignature hmacHex secret b →
        ∃ t', (Payments.verifyPayment hmacHex secret transferTokens req b db).db.find?
            (fun t => decide (t.orderId = b.razorpay_order_id ∧ t.user = req.userId))
            = some t' ∧ t'.status = "failed") ∧
      (b.razorpay_signature = Payments.expectedSignature hmacHex secret b →
        (10 ≤ t.amount.inr →
          (Payments.verifyPayment hmacHex secret transferTokens req b db).calls
            = [Call.transferTokens t.walletAddress t.tokenType t.amount.inr]) ∧
        (t.amount.inr < 10 →
          b.razorpay_payment_id ≠ "direct_wallet_transfer" ∧
            b.razorpay_payment_id ≠ "direct_wallet_transfer_failed" →
          Payments.verifyPayment hmacHex secret transferTokens req b db
            = ⟨db, failure 500 "Payment verification failed", []⟩))) := by
  have hfound : ∀ t, db.find? (fun t => decide (t._id = id ∧ t.user = req.userId)) = some t →
      t.status ∈ terminalStatuses := by
    intro t ht
    have hp := List.find?_some ht
    simp only [decide_eq_true_eq] at hp
    exact hterm t (List.mem_of_find?_eq_some ht) hp.1
  have hnotPending : ∀ s, s ∈ terminalStatuses → ¬ s ∈ ["pending", "payment_failed"] := by
    intro s hs
    simp only [terminalStatuses, List.mem_cons, List.mem_singleton, List.not_mem_nil,
      or_false] at hs
    rcases hs with h | h | h <;> rw [h] <;> decide
  have hnotReq : ∀ s, s ∈ terminalStatuses → s ≠ "withdrawal_requested" := by
    intro s hs
    simp only [terminalStatuses, List.mem_cons, List.mem_singleton, List.not_mem_nil,
      or_false] at hs
    rcases hs with h | h | h <;> rw [h] <;> decide
  have hnotCrypto : ∀ s, s ∈ terminalStatuses → s ≠ "crypto_verified" := by
    intro s hs
    simp only [terminalStatuses, List.mem_cons, List.mem_singleton, List.not_mem_nil,
      or_false] at hs
    rcases hs with h | h | h <;> rw [h] <;> decide
  refine ⟨?_, ?_, ?_, ?_, ?_, ?_, ?_, ?_, ?_, ?_, ?_⟩
  · unfold Payments.getTransaction
    split <;> exact ⟨rfl, rfl⟩
  · unfold Payments.cancelTransaction
    split
    · exact ⟨rfl, rfl⟩
    · next t ht =>
      rw [if_pos (hnotPending _ (hfound t ht))]
      exact ⟨rfl, rfl⟩
  · unfold Payments.orderStatus
    split
    · exact ⟨rfl, by simp⟩
    · split <;> exact ⟨rfl, by simp [Call.isTransfer]⟩
  · unfold Offramp.verifyTokenTransfer
    split
    · exact ⟨rfl, rfl⟩
    · have hnone : db.find? (fun t => decide (t._id = id ∧ t.user = req.userId ∧
          t.status = "withdrawal_requested")) = none := by
        rw [List.find?_eq_none]
        intro x hx
        simp only [decide_eq_true_eq, not_and]
        intro hid _
        exact hnotReq _ (hterm x hx hid)
      simp only [hnone]
      exact ⟨trivial, trivial⟩
  · unfold Offramp.getWithdrawal
    split <;> exact ⟨rfl, rfl⟩
  · unfold Offramp.cancelWithdrawal
    split
    · exact ⟨rfl, rfl⟩
    · next t ht =>
      rw [if_pos (hnotReq _ (hfound t ht))]
      exact ⟨rfl, rfl⟩
  · unfold Offramp.confirmPayment
    split
    · exact ⟨rfl, rfl⟩
    · next t ht =>
      rw [if_pos (hnotCrypto _ (hfound t ht))]
      exact ⟨rfl, rfl⟩
  · unfold Offramp.estimate
    split
    · rfl
    · split <;> rfl
  · exact createOrder_prefix razorpayCreate newId req ob db
  · exact createWithdrawal_prefix bank newId req wb db
  · intro b t hv hfind _ hvt
    refine ⟨?_, ?_⟩
    · intro hne
      obtain ⟨db1, d, hout, hf, hd, -⟩ :=
        verifyPayment_invalid hmacHex secret transferTokens req b db t hv hfind hne hvt
      rw [hout]
      refine ⟨d, hf, ?_⟩
      rcases hd with h | h <;> rw [h]
    · intro heq
      refine ⟨?_, ?_⟩
      · intro hinr
        exact (verifyPayment_valid hmacHex secret transferTokens req b db t hv hfind heq hvt
          hinr).1
      · intro hlow hpid
        exact verifyPayment_unsaved hmacHex secret transferTokens req b db t hv hfind heq
          (invalid_verified t _ _ _ hlow hpid)

/-- Witness for `terminal_status_frame`: cancelling the settled sample record
changes nothing. -/
theorem terminal_status_frame_witness :
    (Payments.cancelTransaction sampleReq 7 none [sampleCompleted]).db = [sampleCompleted] ∧
    (Payments.cancelTransaction sampleReq 7 none [sampleCompleted]).calls = [] :=
  (terminal_status_frame [sampleCompleted] sampleReq 7 "order_1" "0x00" none "order_x"
    (fun _ => .error "unavailable") (fun _ => .error "not found") sampleGateway 8
    ⟨100, "APT", "0xabc"⟩ sampleWithdrawalBody (some sampleBank) sampleHmac "k" sampleTransfer
    (by
      intro x hx _
      rw [List.mem_singleton.mp hx]
      decide)).2.1

/-- C8 (code at the failing input, and in general). `PUT /transaction/:id/cancel`
tests the status against 'pending' and 'payment_failed', neither of which is a
value of the schema's `status` enum: for every record found whose status is a
value of the enum, in particular the initial status created, the request is
answered 400 and nothing is written. -/
theorem cancelTransaction_rejects_created (db : Db) (req : Req) (id : Nat)
    (reason : Option String) (t : Transaction)
    (hfind : db.find? (fun t => decide (t._id = id ∧ t.user = req.userId)) = some t)
    (hstatus : t.status ∈ statusEnum) :
    Payments.cancelTransaction req id reason db
      = ⟨db, failure 400 "Only pending transactions can be cancelled", []⟩ := by
  have hnot : ¬ t.status ∈ ["pending", "payment_failed"] := by
    simp only [statusEnum, List.mem_cons, List.mem_singleton, List.not_mem_nil,
      or_false] at hstatus
    rcases hstatus with h | h | h | h | h | h | h | h | h | h <;> rw [h] <;> decide
  unfold Payments.cancelTransaction
  simp only [hfind]
  rw [if_pos hnot]

/-- Witness for `cancelTransaction_rejects_created`: the owner cancels the
sample record in its initial status created and is answered 400. -/
theorem cancelTransaction_rejects_created_witness :
    (sampleRecord "created").status = "created" ∧
    Payments.cancelTransaction sampleReq 7 none [sampleRecord "created"]
      = ⟨[sampleRecord "created"], failure 400 "Only pending transactions can be cancelled",
         []⟩ :=
  ⟨rfl, cancelTransaction_rejects_created [sampleRecord "created"] sampleReq 7 none
    (sampleRecord "created")
    (by simp +decide [sampleRecord, sampleReq, Req.userId, sampleUser])
    (by decide)⟩

/-- C9. Off-ramp cancellation: for every record found for the caller (a stored
record, which passes the schema's validation),
`PUT /withdrawal/:id/cancel` answers 200 exactly when the status is
withdrawal_requested; then the record is written back with status cancelled
and every other field as it was (`updatedAt` apart); in every other status,
among them transfer_verified, bank_transfer_initiated, completed and cancelled,
the answer is 400 and nothing is written. -/
theorem cancelWithdrawal_spec (db : Db) (req : Req) (id : Nat) (reason : Option String)
    (t : Transaction)
    (hfind : db.find? (fun t => decide (t._id = id ∧ t.user = req.userId)) = some t)
    (hvt : t.validate = true) :
    ((Offramp.cancelWithdrawal req id reason db).resp.code = 200
      ↔ t.status = "withdrawal_requested") ∧
    (t.status = "withdrawal_requested" →
      (Offramp.cancelWithdrawal req id reason db).db
        = Db.replace db { t with status := "cancelled", updatedAt := req.now } ∧
      (Offramp.cancelWithdrawal req id reason db).db.find?
        (fun t => decide (t._id = id ∧ t.user = req.userId))
        = some { t with status := "cancelled", updatedAt := req.now }) ∧
    (t.status ≠ "withdrawal_requested" →
      Offramp.cancelWithdrawal req id reason db
        = ⟨db, failure 400 "Only pending withdrawal requests can be cancelled", []⟩) := by
  have hpt : t._id = id ∧ t.user = req.userId := by
    have := List.find?_some hfind
    simpa using this
  have hrej : t.status ≠ "withdrawal_requested" →
      Offramp.cancelWithdrawal req id reason db
        = ⟨db, failure 400 "Only pending withdrawal requests can be cancelled", []⟩ := by
    intro hne
    unfold Offramp.cancelWithdrawal
    simp only [hfind]
    rw [if_pos hne]
  have hacc : t.status = "withdrawal_requested" →
      Offramp.cancelWithdrawal req id reason db
        = ⟨Db.replace db { t with status := "cancelled", updatedAt := req.now },
           ⟨200, .obj [("success", .bool true),
                       ("message", .str "Withdrawal request cancelled successfully"),
                       ("withdrawal", .obj [("id", .num t._id),
                                            ("status", .str "cancelled")])]⟩,
           []⟩ := by
    intro hst
    have hvalid : Transaction.validate { t with status := "cancelled" } = true :=
      validate_of_same t _ hvt rfl rfl rfl (by decide : "cancelled" ∈ statusEnum)
        ((validate_iff t).mp hvt).2.2.2.2.1 ((validate_iff t).mp hvt).2.2.2.2.2.1 rfl rfl
        ((validate_iff t).mp hvt).2.2.2.2.2.2.2
    have hchg : ({ t with status := "cancelled" } : Transaction) ≠ t := by
      intro h
      have h2 : "cancelled" = t.status := congrArg Transaction.status h
      rw [hst] at h2
      revert h2
      decide
    unfold Offramp.cancelWithdrawal
    simp only [hfind]
    rw [if_neg (fun h => h hst), updateStatus_cancelled, save_of_valid _ _ _ _ hvalid,
      if_neg hchg]
  refine ⟨⟨?_, ?_⟩, ?_, hrej⟩
  · intro h200
    by_contra hne
    rw [hrej hne] at h200
    simp [failure] at h200
  · intro hst
    rw [hacc hst]
  · intro hst
    rw [hacc hst]
    refine ⟨rfl, ?_⟩
    exact find?_replace _ db t _ hfind rfl (by simpa using hpt)

/-- Witness for `cancelWithdrawal_spec`: the sample withdrawal, still in status
withdrawal_requested, is cancelled by its owner. -/
theorem cancelWithdrawal_spec_witness :
    (Offramp.cancelWithdrawal sampleReq 9 none [sampleWithdrawal "withdrawal_requested"]).db
      = Db.replace [sampleWithdrawal "withdrawal_requested"]
          { sampleWithdrawal "withdrawal_requested" with
            status := "cancelled", updatedAt := sampleReq.now } :=
  ((cancelWithdrawal_spec [sampleWithdrawal "withdrawal_requested"] sampleReq 9 none
    (sampleWithdrawal "withdrawal_requested")
    (by simp +decide [sampleWithdrawal, sampleReq, Req.userId, sampleUser])
    sampleRequested_valid).2.1 rfl).1

/-- C10. Retry precondition: for every record found for the caller whose status
is not failed, `retry-transfer` answers 400, makes no call (so the transfer
executor is not invoked) and writes nothing. -/
theorem retryTransfer_requires_failed
    (transferTokens : String → String → ℚ → Except String TransferResult)
    (db : Db) (req : Req) (id : Nat) (t : Transaction)
    (hfind : db.find? (fun t => decide (t._id = id ∧ t.user = req.userId)) = some t)
    (hstatus : t.status ≠ "failed") :
    Payments.retryTransfer transferTokens req id db
        = ⟨db, failure 400 "Only failed transactions with verified payments can be retried",
           []⟩ ∧
    (Payments.retryTransfer transferTokens req id db).resp.code = 400 ∧
    (Payments.retryTransfer transferTokens req id db).calls = [] ∧
    (Payments.retryTransfer transferTokens req id db).db = db := by
  have h : Payments.retryTransfer transferTokens req id db
      = ⟨db, failure 400 "Only failed transactions with verified payments can be retried",
         []⟩ := by
    unfold Payments.retryTransfer
    simp only [hfind]
    rw [if_pos (Or.inl hstatus)]
  rw [h]
  exact ⟨rfl, rfl, rfl, rfl⟩

/-- Witness for `retryTransfer_requires_failed`: a retry of the settled sample
record. -/
theorem retryTransfer_requires_failed_witness :
    (Payments.retryTransfer sampleTransfer sampleReq 7 [sampleCompleted]).resp.code = 400 ∧
    (Payments.retryTransfer sampleTransfer sampleReq 7 [sampleCompleted]).calls = [] :=
  have h := retryTransfer_requires_failed sampleTransfer [sampleCompleted] sampleReq 7
    sampleCompleted
    (by simp +decide [sampleCompleted, sampleRecord, sampleReq, Req.userId, sampleUser])
    (by decide)
  ⟨h.2.1, h.2.2.1⟩

/-- C11 (code on the failing input, and in general). The guard of
`retry-transfer` reads `status` and `paymentId` only: for every record found
whose status is failed and whose `paymentId` is a non-empty string, whatever
its `paymentStatus` and its payment-verified timestamp, the transfer executor
is called. The failure path of `send-payment` stores such a record, with
`paymentId` 'direct_wallet_transfer_failed', `paymentStatus` pending and no
payment-verified timestamp. -/
theorem retryTransfer_accepts_unverified
    (transferTokens : String → String → ℚ → Except String TransferResult)
    (transferAPTDirect : String → String → ℚ → Except String TransferResult)
    (db : Db) (req : Req) (id : Nat) (t : Transaction) (p : String)
    (hfind : db.find? (fun t => decide (t._id = id ∧ t.user = req.userId)) = some t)
    (hstatus : t.status = "failed") (hpid : t.paymentId = some p) (hp : p ≠ "") :
    (Payments.retryTransfer transferTokens req id db).calls
      = [Call.transferTokens t.walletAddress t.tokenType t.amount.inr] ∧
    (∀ (newId newId2 : Nat) (sreq : Req) (sb : Payments.SendPaymentBody) (db0 db1 : Db)
        (m : String),
      Payments.sendPaymentValidation sb = true →
      Payments.toLowerCase sb.senderAddress ≠ Payments.toLowerCase sb.recipientAddress →
      sb.paymentMethod = some "wallet" →
      transferAPTDirect sb.senderAddress sb.recipientAddress sb.amount = .error m →
      saveNew db0 (Payments.directFailedTransaction newId2 sreq sb) = .ok db1 →
      (Payments.sendPayment transferAPTDirect newId newId2 sreq sb db0).db
        = db0 ++ [Payments.directFailedTransaction newId2 sreq sb] ∧
      (Payments.directFailedTransaction newId2 sreq sb).status = "failed" ∧
      (Payments.directFailedTransaction newId2 sreq sb).paymentId
        = some "direct_wallet_transfer_failed" ∧
      (Payments.directFailedTransaction newId2 sreq sb).paymentStatus = "pending" ∧
      (Payments.directFailedTransaction newId2 sreq sb).timestamps.paymentVerified = none) := by
  refine ⟨?_, ?_⟩
  · have hno : Payments.noPaymentId t = false := by
      simp [Payments.noPaymentId, hpid, hp]
    unfold Payments.retryTransfer
    simp only [hfind]
    rw [if_neg (by simp [hstatus, hno])]
    cases transferTokens t.walletAddress t.tokenType t.amount.inr with
    | error m =>
      simp only [Payments.retryCatch]
      split <;> rfl
    | ok r =>
      simp only
      split
      · simp only [Payments.retryCatch]
        split <;> rfl
      · rfl
  · intro newId newId2 sreq sb db0 db1 m hv hne hw hx hs
    refine ⟨?_, rfl, rfl, rfl, rfl⟩
    unfold Payments.sendPayment
    simp only [hv, not_true_eq_false, if_false, hne, hw, ne_eq, hx, Payments.sendPaymentCatch, hs]
    exact saveNew_ok _ _ _ hs

/-- Witness for `retryTransfer_accepts_unverified`: a direct payment fails and
leaves a failed record; a retry of that record calls the transfer executor. -/
theorem retryTransfer_accepts_unverified_witness :
    (Payments.sendPayment failingDirect 20 21 sampleReq sampleDirectBody []).db
      = [Payments.directFailedTransaction 21 sampleReq sampleDirectBody] ∧
    (Payments.retryTransfer sampleTransfer otherReqSameUser 21
        [Payments.directFailedTransaction 21 sampleReq sampleDirectBody]).calls
      = [Call.transferTokens "0xdef" "APT" 0] :=
  have hsave : saveNew [] (Payments.directFailedTransaction 21 sampleReq sampleDirectBody)
      = .ok [Payments.directFailedTransaction 21 sampleReq sampleDirectBody] := by
    have ht : jsTrim "0xdef" = "0xdef" := by decide
    have ho : "direct_failed_" ++ toString 1700000000123 ≠ "" := by decide
    norm_num [saveNew, Transaction.validate, Payments.directFailedTransaction,
      sampleDirectBody, sampleReq, statusEnum, subStatusEnum, tokenTypeEnum,
      amountInrValidator, ht, ho]
    intro h0
    exact absurd h0 (by decide)
  have h := retryTransfer_accepts_unverified sampleTransfer failingDirect
    [Payments.directFailedTransaction 21 sampleReq sampleDirectBody] otherReqSameUser 21
    (Payments.directFailedTransaction 21 sampleReq sampleDirectBody)
    "direct_wallet_transfer_failed"
    (by simp +decide [Payments.directFailedTransaction, otherReqSameUser, sampleReq,
      Req.userId, sampleUser])
    rfl rfl (by decide)
  ⟨(h.2 20 21 sampleReq sampleDirectBody [] _ "Direct APT transfer failed: network down"
      (by norm_num [Payments.sendPaymentValidation, sampleDirectBody]; decide) (by decide) rfl rfl hsave).1,
   by
    have h1 := h.1
    have ht : jsTrim "0xdef" = "0xdef" := by decide
    simpa [Payments.directFailedTransaction, sampleDirectBody, ht] using h1⟩

/-- C12 (code on the failing input, and in general). `confirm-payment` tests the
status against 'crypto_verified', which is no value of the schema's `status`
enum: for every record found whose status is a value of the enum, among them
transfer_verified and bank_transfer_initiated, the request is answered 400 and
nothing is written; and the handler answers 200 for no request at all. -/
theorem confirmPayment_rejects_verified (randomOrderId : String) (req : Req) (id : Nat)
    (db : Db) (t : Transaction)
    (hfind : db.find? (fun t => decide (t._id = id ∧ t.user = req.userId)) = some t)
    (hstatus : t.status ∈ statusEnum) :
    Offramp.confirmPayment randomOrderId req id db
      = ⟨db, failure 400 "Withdrawal must be verified before payment confirmation", []⟩ ∧
    (∀ (req2 : Req) (id2 : Nat) (db2 : Db),
      (Offramp.confirmPayment randomOrderId req2 id2 db2).resp.code ≠ 200) := by
  refine ⟨?_, ?_⟩
  · have hnot : t.status ≠ "crypto_verified" := by
      simp only [statusEnum, List.mem_cons, List.mem_singleton, List.not_mem_nil,
        or_false] at hstatus
      rcases hstatus with h | h | h | h | h | h | h | h | h | h <;> rw [h] <;> decide
    unfold Offramp.confirmPayment
    simp only [hfind]
    rw [if_pos hnot]
  · intro req2 id2 db2
    unfold Offramp.confirmPayment
    split
    · simp [failure]
    · split
      · simp [failure]
      · dsimp only
        split <;> simp [failure]

/-- Witness for `confirmPayment_rejects_verified`: the owner confirms the
payout of the sample withdrawal whose deposit has been verified. -/
theorem confirmPayment_rejects_verified_witness :
    (sampleWithdrawal "transfer_verified").status = "transfer_verified" ∧
    Offramp.confirmPayment "order_x" sampleReq 9 [sampleWithdrawal "transfer_verified"]
      = ⟨[sampleWithdrawal "transfer_verified"],
         failure 400 "Withdrawal must be verified before payment confirmation", []⟩ :=
  ⟨rfl, (confirmPayment_rejects_verified "order_x" sampleReq 9
    [sampleWithdrawal "transfer_verified"] (sampleWithdrawal "transfer_verified")
    (by simp +decide [sampleWithdrawal, sampleReq, Req.userId, sampleUser])
    (by decide)).1⟩

/-- C13 (code on the failing input, and in general). For a well-formed request
whose record is found in status withdrawal_requested (a stored record, which
passes the schema's validation), the outcome of
`verify-token-transfer` when the ledger lookup finds a successful transaction
and its outcome when the lookup throws are the same: the same collection, in
which the record is found with status transfer_verified, the claimed hash and
its explorer link and every other field as before (`updatedAt` apart), and the
same response. No stored field records the verification method. -/
theorem verifyTokenTransfer_method_not_stored
    (lookupFound lookupFailed : String → Except String Offramp.AptosTransaction)
    (req : Req) (b : Offramp.VerifyTransferBody) (db : Db) (w : Transaction) (m : String)
    (hv : Offramp.verifyTransferValidation b = true)
    (hfind : db.find? (fun t => decide (t._id = b.withdrawalId ∧ t.user = req.userId ∧
        t.status = "withdrawal_requested")) = some w)
    (_hfound : lookupFound b.transactionHash = .ok ⟨true⟩)
    (_hfailed : lookupFailed b.transactionHash = .error m)
    (hvw : w.validate = true) :
    Offramp.verifyTokenTransfer lookupFound req b db
      = Offramp.verifyTokenTransfer lookupFailed req b db ∧
    (Offramp.verifyTokenTransfer lookupFound req b db).resp.code = 200 ∧
    (Offramp.verifyTokenTransfer lookupFound req b db).db
      = Db.replace db { w with status := "transfer_verified",
                               transactionHash := some b.transactionHash,
                               explorerUrl := some (explorerLink b.transactionHash),
                               updatedAt := req.now } ∧
    (Offramp.verifyTokenTransfer lookupFailed req b db).db.find?
        (fun t => decide (t._id = b.withdrawalId ∧ t.user = req.userId))
      = some { w with status := "transfer_verified",
                      transactionHash := some b.transactionHash,
                      explorerUrl := some (explorerLink b.transactionHash),
                      updatedAt := req.now } := by
  have hpw : w._id = b.withdrawalId ∧ w.user = req.userId := by
    have := List.find?_some hfind
    simp only [decide_eq_true_eq] at this
    exact ⟨this.1, this.2.1⟩
  have hfind2 : db.find? (fun t => decide (t._id = b.withdrawalId ∧ t.user = req.userId))
      ≠ none := by
    intro hnone
    rw [List.find?_eq_none] at hnone
    have := hnone w (List.mem_of_find?_eq_some hfind)
    simp [hpw] at this
  have h1 := verifyTokenTransfer_found lookupFound req b db w hv hfind hvw
  have h2 := verifyTokenTransfer_found lookupFailed req b db w hv hfind hvw
  refine ⟨h1.trans h2.symm, ?_, ?_, ?_⟩
  · rw [h1]; rfl
  · rw [h1]; rfl
  · rw [h2]
    simp only [Offramp.transferVerified]
    cases hf : db.find? (fun t => decide (t._id = b.withdrawalId ∧ t.user = req.userId)) with
    | none => exact absurd hf hfind2
    | some x =>
      have hx := List.find?_some hf
      simp only [decide_eq_true_eq] at hx
      exact find?_replace _ db x _ hf (by rw [hx.1]; exact hpw.1) (by simpa using hpw)

/-- Witness for `verifyTokenTransfer_method_not_stored` on the sample
withdrawal. -/
theorem verifyTokenTransfer_method_not_stored_witness :
    Offramp.verifyTokenTransfer (fun _ => .ok ⟨true⟩) sampleReq sampleVerifyBody
        [sampleWithdrawal "withdrawal_requested"]
      = Offramp.verifyTokenTransfer (fun _ => .error "not found") sampleReq sampleVerifyBody
        [sampleWithdrawal "withdrawal_requested"] :=
  (verifyTokenTransfer_method_not_stored (fun _ => .ok ⟨true⟩) (fun _ => .error "not found")
    sampleReq sampleVerifyBody [sampleWithdrawal "withdrawal_requested"]
    (sampleWithdrawal "withdrawal_requested") "not found" (by decide)
    (by simp +decide [sampleWithdrawal, sampleReq, Req.userId, sampleUser, sampleVerifyBody])
    rfl rfl sampleRequested_valid).1

/-- C16 (code on the failing input, and in general). When `retry-transfer` is
applied to an eligible stored record (found, status failed, payment id set,
passing the schema's validation) and the transfer executor throws an error
`e`, the handler answers 500 with `e` in the
response only: `retryFailed`, `retryError` and `retryAt` are no paths of the
schema, so `updateStatus` changes nothing, nothing is written, and the stored
failure reason (`notes`) is the one from the earlier attempt. -/
theorem retryTransfer_failure_not_recorded
    (transferTokens : String → String → ℚ → Except String TransferResult)
    (db : Db) (req : Req) (id : Nat) (t : Transaction) (p e : String)
    (hfind : db.find? (fun t => decide (t._id = id ∧ t.user = req.userId)) = some t)
    (hstatus : t.status = "failed") (hpid : t.paymentId = some p) (hp : p ≠ "")
    (hx : transferTokens t.walletAddress t.tokenType t.amount.inr = .error e)
    (hvt : t.validate = true) :
    Payments.retryTransfer transferTokens req id db
      = ⟨db,
         ⟨500, .obj [("success", .bool false), ("error", .str "Token transfer retry failed"),
                     ("details", .str e)]⟩,
         [Call.transferTokens t.walletAddress t.tokenType t.amount.inr]⟩ ∧
    (Payments.retryTransfer transferTokens req id db).db = db ∧
    (Payments.retryTransfer transferTokens req id db).db.find?
        (fun t => decide (t._id = id ∧ t.user = req.userId)) = some t := by
  have hno : Payments.noPaymentId t = false := by
    simp [Payments.noPaymentId, hpid, hp]
  have hsame : t.updateStatus "failed"
      [("retryFailed", .bool true), ("retryError", .str e), ("retryAt", .date req.now)] req.now
        = t := by
    rw [updateStatus_retryFailed, ← hstatus]
  have hout : Payments.retryTransfer transferTokens req id db
      = ⟨db,
         ⟨500, .obj [("success", .bool false), ("error", .str "Token transfer retry failed"),
                     ("details", .str e)]⟩,
         [Call.transferTokens t.walletAddress t.tokenType t.amount.inr]⟩ := by
    unfold Payments.retryTransfer
    simp only [hfind]
    rw [if_neg (by simp [hstatus, hno])]
    simp only [hx, Payments.retryCatch, hsame, save_of_valid _ _ _ _ hvt, if_true]
  rw [hout]
  exact ⟨rfl, rfl, hfind⟩

/-- Witness for `retryTransfer_failure_not_recorded`: the retry of the sample
failed record fails with `second`, and the record still carries the reason
`first`. -/
theorem retryTransfer_failure_not_recorded_witness :
    (Payments.retryTransfer failingTransfer sampleReq 7 [sampleFailed]).db = [sampleFailed] ∧
    sampleFailed.notes = some "Transfer failed: first" :=
  ⟨(retryTransfer_failure_not_recorded failingTransfer [sampleFailed] sampleReq 7 sampleFailed
      "pay_1" "second"
      (by simp +decide [sampleFailed, sampleRecord, sampleReq, Req.userId, sampleUser])
      rfl rfl (by decide) rfl sampleFailed_valid).2.1,
   rfl⟩

/-- C14 (code on the failing input, and in general). After `verify-payment`
with a valid proof for a stored record that passes the schema's validation and
has a fiat amount of at least 10 (as every record of `create-order` has), and
a successful transfer result `r`, the saved record has
status completed, `transactionHash` = `r.hash`, `explorerUrl` the explorer
link of `r.hash` and the settle timestamp set, and `transferStatus` success
when it had not been settled before. The `simulated` flag of `r` is not
stored: `simulated` is no path of the schema, and two transfer results with the
same hash, one simulated and one not, leave the same collection. -/
theorem verifyPayment_success_persistence (hmacHex : String → String → String)
    (secret : String)
    (transfer1 transfer2 : String → String → ℚ → Except String TransferResult)
    (req : Req) (b : Payments.VerifyPaymentBody) (db : Db) (t : Transaction)
    (r1 r2 : TransferResult)
    (hv : Payments.verifyPaymentValidation b = true)
    (hfind : db.find? (fun t => decide (t.orderId = b.razorpay_order_id ∧ t.user = req.userId))
      = some t)
    (heq : b.razorpay_signature = Payments.expectedSignature hmacHex secret b)
    (hx1 : transfer1 t.walletAddress t.tokenType t.amount.inr = .ok r1)
    (hx2 : transfer2 t.walletAddress t.tokenType t.amount.inr = .ok r2)
    (hhash : r1.hash = r2.hash)
    (hvt : t.validate = true) (hinr : 10 ≤ t.amount.inr) :
    (∃ t', (Payments.verifyPayment hmacHex secret transfer1 req b db).db.find?
        (fun t => decide (t.orderId = b.razorpay_order_id ∧ t.user = req.userId)) = some t' ∧
      t'.status = "completed" ∧ t'.transactionHash = some r1.hash ∧
      t'.explorerUrl = some (explorerLink r1.hash) ∧
      t'.timestamps.transferCompleted ≠ none ∧
      (t.timestamps.transferCompleted = none → t'.transferStatus = "success")) ∧
    (Payments.verifyPayment hmacHex secret transfer1 req b db).db
      = (Payments.verifyPayment hmacHex secret transfer2 req b db).db := by
  obtain ⟨db1, d, hs1, hf1, hq1, hst1, htc1, hts1, hdb1⟩ :=
    verifyPayment_success hmacHex secret transfer1 req b db t r1 hv hfind heq hvt hinr hx1
  obtain ⟨db2, d2, hs2, -, -, -, -, -, hdb2⟩ :=
    verifyPayment_success hmacHex secret transfer2 req b db t r2 hv hfind heq hvt hinr hx2
  rw [hs1] at hs2
  injection hs2 with hs2
  injection hs2 with hdb hd
  subst hdb hd
  have hpd : d.orderId = b.razorpay_order_id ∧ d.user = req.userId := by
    have := List.find?_some hf1
    simpa using this
  refine ⟨?_, ?_⟩
  · rw [hdb1]
    refine ⟨_, find?_replace _ db1 d _ hf1 ?_ ?_, ?_⟩
    · rw [updateStatus_completed]; split <;> rfl
    · rw [updateStatus_completed]; split <;> simpa using hpd
    · rw [updateStatus_completed]
      split
      · next hnone =>
        refine ⟨rfl, rfl, rfl, by simp, fun _ => rfl⟩
      · next hsome =>
        refine ⟨rfl, rfl, rfl, hsome, ?_⟩
        intro ht
        rw [htc1] at hsome
        exact absurd ht hsome
  · rw [hdb1, hdb2, updateStatus_completed, updateStatus_completed, hhash]

/-- Witness for `verifyPayment_success_persistence`: the sample record settled
by a real transfer and by a simulated one carrying the same hash. -/
theorem verifyPayment_success_persistence_witness :
    (sampleTransfer "0xabc" "APT" 100).map (fun r => r.simulated) = .ok false ∧
    (simulatedTransfer "0xabc" "APT" 100).map (fun r => r.simulated) = .ok true ∧
    (Payments.verifyPayment sampleHmac "k" sampleTransfer sampleReq sampleProof
        [sampleRecord "created"]).db
      = (Payments.verifyPayment sampleHmac "k" simulatedTransfer sampleReq sampleProof
        [sampleRecord "created"]).db :=
  ⟨rfl, rfl,
   (verifyPayment_success_persistence sampleHmac "k" sampleTransfer simulatedTransfer sampleReq
      sampleProof [sampleRecord "created"] (sampleRecord "created")
      { hash := "0x1", amount := 100 / 10, tokenType := "APT", recipient := "0xabc",
        simulated := false }
      { hash := "0x1", amount := 100 / 10, tokenType := "APT", recipient := "0xabc",
        simulated := true }
      (by decide)
      (by simp +decide [sampleRecord, sampleProof, sampleReq, Req.userId, sampleUser])
      (by decide) rfl rfl rfl sampleCreated_valid sampleCreated_amount).2⟩

/-- C15 (code on the failing input, and in general). Let a valid proof be
submitted for a stored record that is the only one with its id, passes the
schema's validation and has a fiat amount of at least 10 (as every record of
`create-order` has), and let the transfer executor throw an error with message
`m`; the failure reason is the note
'Transfer failed: ' followed by `m`. When the note has at most 500 characters,
`verify-payment` saves the record with status failed, `transferStatus` failed
and the note, and a later `retry-transfer` calls the transfer executor. When
the note is longer than the 500 characters the schema allows for `notes`, the
save is rejected: the handler answers 500
'Payment verification failed', the stored record stays in status
payment_verified with its old notes, and `retry-transfer` rejects it with 400. -/
theorem verifyPayment_failure_persistence (hmacHex : String → String → String)
    (secret : String)
    (transferTokens retryTokens : String → String → ℚ → Except String TransferResult)
    (req : Req) (b : Payments.VerifyPaymentBody) (db : Db) (t : Transaction) (m : String)
    (hv : Payments.verifyPaymentValidation b = true)
    (hfind : db.find? (fun t => decide (t.orderId = b.razorpay_order_id ∧ t.user = req.userId))
      = some t)
    (heq : b.razorpay_signature = Payments.expectedSignature hmacHex secret b)
    (hx : transferTokens t.walletAddress t.tokenType t.amount.inr = .error m)
    (huniq : ∀ x ∈ db, x._id = t._id → x = t)
    (hvt : t.validate = true) (hinr : 10 ≤ t.amount.inr) :
    (("Transfer failed: " ++ m).length ≤ 500 →
      (Payments.verifyPayment hmacHex secret transferTokens req b db).resp.code = 500 ∧
      (∃ t', (Payments.verifyPayment hmacHex secret transferTokens req b db).db.find?
          (fun t => decide (t.orderId = b.razorpay_order_id ∧ t.user = req.userId)) = some t' ∧
        t'.status = "failed" ∧ t'.transferStatus = "failed" ∧
        t'.notes = some ("Transfer failed: " ++ m)) ∧
      (Payments.retryTransfer retryTokens req t._id
          (Payments.verifyPayment hmacHex secret transferTokens req b db).db).calls
        = [Call.transferTokens t.walletAddress t.tokenType t.amount.inr]) ∧
    (500 < ("Transfer failed: " ++ m).length →
      (Payments.verifyPayment hmacHex secret transferTokens req b db).resp
        = failure 500 "Payment verification failed" ∧
      (∃ t', (Payments.verifyPayment hmacHex secret transferTokens req b db).db.find?
          (fun t => decide (t.orderId = b.razorpay_order_id ∧ t.user = req.userId)) = some t' ∧
        t'.status = "payment_verified" ∧ t'.notes = t.notes) ∧
      Payments.retryTransfer retryTokens req t._id
          (Payments.verifyPayment hmacHex secret transferTokens req b db).db
        = ⟨(Payments.verifyPayment hmacHex secret transferTokens req b db).db,
           failure 400 "Only failed transactions with verified payments can be retried",
           []⟩) := by
  have hpt : t.orderId = b.razorpay_order_id ∧ t.user = req.userId := by
    have := List.find?_some hfind
    simpa using this
  have hpid : b.razorpay_payment_id ≠ "" := by
    simp [Payments.verifyPaymentValidation] at hv
    exact hv.1.2
  have hfid := find?_id_of_unique db t req.userId (List.mem_of_find?_eq_some hfind) hpt.2 huniq
  obtain ⟨db1, d, hsave1, hq, hst, hn, hp, hout⟩ :=
    verifyPayment_failure hmacHex secret transferTokens req b db t m hv hfind heq hvt hinr hx
  have hdv : d.validate = true := save_valid _ _ _ _ _ _ hsave1
  have hd1 := (save_find _ db db1 t _ d req.now hsave1 hfind
    (by rw [updateStatus_verified]; split <;> rfl)
    (by intro u; rw [updateStatus_verified]; split <;> simpa using hpt)).1
  have hd2 := (save_find _ db db1 t _ d req.now hsave1 hfid
    (by rw [updateStatus_verified]; split <;> rfl)
    (by intro u; rw [updateStatus_verified]; split <;> simpa using hpt.2)).1
  have hpd : d.orderId = b.razorpay_order_id ∧ d.user = req.userId := by
    rw [hq.2.2.1, hq.2.1]; exact hpt
  have hchg : ({ d with status := "failed", transferStatus := "failed",
                        notes := some ("Transfer failed: " ++ m) } : Transaction) ≠ d := by
    intro h
    have h2 : "failed" = d.status := congrArg Transaction.status h
    rw [hst] at h2
    revert h2
    decide
  rw [hout]
  unfold Payments.verifyPaymentCatch
  simp only [updateStatus_transferFailed]
  refine ⟨?_, ?_⟩
  · intro hlen
    have hvalid : Transaction.validate
        { d with status := "failed", transferStatus := "failed",
                 notes := some ("Transfer failed: " ++ m) } = true := by
      refine validate_of_same d _ hdv rfl rfl rfl (by decide : "failed" ∈ statusEnum)
        ((validate_iff d).mp hdv).2.2.2.2.1 (by decide : "failed" ∈ subStatusEnum) rfl rfl ?_
      intro n hn
      injection hn with hn
      rw [← hn]
      exact hlen
    simp only [save_of_valid db1 d _ req.now hvalid, if_neg hchg]
    refine ⟨trivial, ⟨_, find?_replace _ db1 d _ hd1 rfl (by simpa using hpd), rfl, rfl, rfl⟩, ?_⟩
    have hr := retryTransfer_calls retryTokens
      (Db.replace db1 { d with status := "failed", transferStatus := "failed",
                               notes := some ("Transfer failed: " ++ m),
                               updatedAt := req.now })
      req t._id
      { d with status := "failed", transferStatus := "failed",
               notes := some ("Transfer failed: " ++ m), updatedAt := req.now }
      b.razorpay_payment_id
      (find?_replace _ db1 d _ hd2 rfl (by simpa using ⟨hq.1, hpd.2⟩)) rfl hp hpid
    rw [hr]
    simp only [hq.2.2.2.1, hq.2.2.2.2.1, hq.2.2.2.2.2.1]
  · intro hlen
    have hinvalid : Transaction.validate
        { d with status := "failed", transferStatus := "failed",
                 notes := some ("Transfer failed: " ++ m) } = false := by
      cases hc : Transaction.validate
          { d with status := "failed", transferStatus := "failed",
                   notes := some ("Transfer failed: " ++ m) } with
      | false => rfl
      | true =>
        have h5 := ((validate_iff _).mp hc).2.2.2.2.2.2.2 ("Transfer failed: " ++ m) rfl
        exact absurd h5 (not_le.mpr hlen)
    have hsave : save db1 d { d with status := "failed", transferStatus := "failed",
                                     notes := some ("Transfer failed: " ++ m) } req.now
          = .error "Transaction validation failed" :=
      save_of_invalid _ _ _ _ hinvalid
    simp only [hsave]
    refine ⟨trivial, ⟨d, hd1, hst, hn⟩, ?_⟩
    unfold Payments.retryTransfer
    simp only [hd2]
    rw [if_pos (Or.inl (by rw [hst]; decide))]

/-- Witness for `verifyPayment_failure_persistence`: the transfer for the sample
record fails with a message of 500 characters; the failure is not saved and
the record cannot be retried. -/
theorem verifyPayment_failure_persistence_witness :
    (Payments.verifyPayment sampleHmac "k" longFailingTransfer sampleReq sampleProof
        [sampleRecord "created"]).resp = failure 500 "Payment verification failed" ∧
    (∃ t', (Payments.verifyPayment sampleHmac "k" longFailingTransfer sampleReq sampleProof
        [sampleRecord "created"]).db.find?
          (fun t => decide (t.orderId = sampleProof.razorpay_order_id ∧
            t.user = sampleReq.userId)) = some t' ∧
      t'.status = "payment_verified" ∧ t'.notes = (sampleRecord "created").notes) ∧
    (Payments.retryTransfer sampleTransfer sampleReq (sampleRecord "created")._id
        (Payments.verifyPayment sampleHmac "k" longFailingTransfer sampleReq sampleProof
          [sampleRecord "created"]).db).resp.code = 400 :=
  have hlong : longMessage.length = 500 := List.length_replicate 500 'x'
  have h := (verifyPayment_failure_persistence sampleHmac "k" longFailingTransfer sampleTransfer
    sampleReq sampleProof [sampleRecord "created"] (sampleRecord "created") longMessage
    (by decide)
    (by simp +decide [sampleRecord, sampleProof, sampleReq, Req.userId, sampleUser])
    (by decide) rfl (by intro x hx _; simpa using hx) sampleCreated_valid
    sampleCreated_amount).2
    (by rw [String.length_append, hlong]; decide)
  ⟨h.1, h.2.1, congrArg (fun o : Outcome => o.resp.code) h.2.2⟩

/-- C17. Simulated transfer result: for every recipient, amount and token type
and all random draws in [0, 1), `simulateTransfer` returns a result with
`success` true and `simulated` true that echoes the amount, the token type and
the recipient, and whose hash has length 66: the prefix "0x" followed by
exactly 64 lowercase hexadecimal digits. -/
theorem simulateTransfer_result (random : Nat → ℚ) (svc : AptosService.Service)
    (toAddress : String) (amount : ℚ) (tokenType : String)
    (hdraw : ∀ i, 0 ≤ random i ∧ random i < 1) :
    ∃ r, (AptosService.simulateTransfer random svc toAddress amount tokenType).result = .ok r ∧
      r.success = true ∧ r.simulated = true ∧
      r.amount = amount ∧ r.tokenType = tokenType ∧ r.recipient = toAddress ∧
      r.hash.length = 66 ∧
      ∃ digits : List Char, r.hash = "0x" ++ String.mk digits ∧ digits.length = 64 ∧
        ∀ c ∈ digits, isLowerHex c = true := by
  choose g hg using fun i => toString16_of_draw (random i) (hdraw i).1 (hdraw i).2
  have hjoin : String.join ((List.range 64).map
      (fun i => AptosService.toString16 ⌊random i * 16⌋)) = String.mk ((List.range 64).map g) := by
    rw [String.join_eq]
    congr 1
    have : (List.range 64).map (fun i => AptosService.toString16 ⌊random i * 16⌋)
        = (List.range 64).map (fun i => String.mk [g i]) :=
      List.map_congr_left (fun i _ => (hg i).1)
    rw [this, List.map_map]
    exact flatten_map_singleton g _
  have hhash : AptosService.mockHash random = "0x" ++ String.mk ((List.range 64).map g) := by
    unfold AptosService.mockHash
    rw [hjoin]
  refine ⟨_, rfl, rfl, rfl, rfl, rfl, rfl, ?_, (List.range 64).map g, ?_, ?_, ?_⟩
  · show (AptosService.mockHash random).length = 66
    rw [hhash, String.length_append]
    show "0x".length + ((List.range 64).map g).length = 66
    rw [List.length_map, List.length_range]
    rfl
  · exact hhash
  · rw [List.length_map, List.length_range]
  · intro c hc
    rw [List.mem_map] at hc
    obtain ⟨i, -, hi⟩ := hc
    rw [← hi]
    exact (hg i).2

/-- Witness for `simulateTransfer_result`: every draw is one half. -/
theorem simulateTransfer_result_witness :
    ∃ r, (AptosService.simulateTransfer sampleRandom sampleService "0xabc" 12 "USDC").result
        = .ok r ∧
      r.success = true ∧ r.simulated = true ∧
      r.amount = 12 ∧ r.tokenType = "USDC" ∧ r.recipient = "0xabc" ∧
      r.hash.length = 66 ∧
      ∃ digits : List Char, r.hash = "0x" ++ String.mk digits ∧ digits.length = 64 ∧
        ∀ c ∈ digits, isLowerHex c = true :=
  simulateTransfer_result sampleRandom sampleService "0xabc" 12 "USDC"
    (fun _ => by norm_num [sampleRandom])

/-- C18. Balance shortfall: in `transferAPT`, with required = floor(amount × 10^8)
octas, once the ledger answers and the signer balance is below required, a
faucet top-up of max(10^9, 2 × required) is requested. If the top-up throws,
the transfer throws an insufficient-balance error and the calls are the ledger
check, the balance query and the top-up. If the top-up succeeds, the balance is
queried again exactly once (after the 3000 ms wait): if it is still below
required the transfer throws an insufficient-balance error and no further call
is made; otherwise every later call is one of building, simulating, signing or
awaiting. In the failing cases nothing is built, simulated, signed or
submitted. -/
theorem transferAPT_shortfall (L : AptosService.Ledger) (svc : AptosService.Service)
    (toAddress : String) (amount : ℚ) (v : String)
    (hledger : L.getLedgerInfo = .ok v)
    (hshort : AptosService.checkAccountBalance L (AptosService.initialized svc).queries
      < ⌊amount * 100000000⌋) :
    (∀ m, L.fundAccount (max 1000000000 (⌊amount * 100000000⌋ * 2)) = .error m →
      (AptosService.transferAPT L svc toAddress amount).result
        = .error (AptosService.realFailed
            ("Insufficient balance and faucet funding failed: " ++ m)) ∧
      (AptosService.transferAPT L svc toAddress amount).calls
        = AptosService.initCalls svc ++ [Call.getLedgerInfo, Call.getAccountAPTAmount,
            Call.fundAccount (max 1000000000 (⌊amount * 100000000⌋ * 2))] ∧
      ∀ c ∈ (AptosService.transferAPT L svc toAddress amount).calls, c.isSubmission = false) ∧
    (∀ u, L.fundAccount (max 1000000000 (⌊amount * 100000000⌋ * 2)) = .ok u →
      AptosService.checkAccountBalance L ((AptosService.initialized svc).queries + 1)
        < ⌊amount * 100000000⌋ →
      (AptosService.transferAPT L svc toAddress amount).result
        = .error (AptosService.realFailed
            ("Insufficient balance and faucet funding failed: " ++
              ("Still insufficient balance after faucet funding. Required: " ++
                toString ⌊amount * 100000000⌋ ++ ", Available: " ++
                toString (AptosService.checkAccountBalance L
                  ((AptosService.initialized svc).queries + 1))))) ∧
      (AptosService.transferAPT L svc toAddress amount).calls
        = AptosService.initCalls svc ++ [Call.getLedgerInfo, Call.getAccountAPTAmount,
            Call.fundAccount (max 1000000000 (⌊amount * 100000000⌋ * 2)), Call.sleep 3000,
            Call.getAccountAPTAmount] ∧
      ∀ c ∈ (AptosService.transferAPT L svc toAddress amount).calls, c.isSubmission = false) ∧
    (∀ u, L.fundAccount (max 1000000000 (⌊amount * 100000000⌋ * 2)) = .ok u →
      ¬ AptosService.checkAccountBalance L ((AptosService.initialized svc).queries + 1)
        < ⌊amount * 100000000⌋ →
      ∃ extra, (AptosService.transferAPT L svc toAddress amount).calls
          = AptosService.initCalls svc ++ [Call.getLedgerInfo, Call.getAccountAPTAmount,
              Call.fundAccount (max 1000000000 (⌊amount * 100000000⌋ * 2)), Call.sleep 3000,
              Call.getAccountAPTAmount] ++ extra ∧
        ∀ c ∈ extra, c.isSubmission = true) := by
  have hinit := initCalls_not_submission svc
  have hmem : ∀ (extra : List Call), (∀ c ∈ extra, c.isSubmission = false) →
      ∀ c ∈ AptosService.initCalls svc ++ extra, c.isSubmission = false := by
    intro extra hextra c hc
    rw [List.mem_append] at hc
    rcases hc with h | h
    · exact hinit c h
    · exact hextra c h
  refine ⟨?_, ?_, ?_⟩
  · intro m hf
    unfold AptosService.transferAPT
    simp only [hledger, hshort, if_true, hf, List.append_assoc, List.cons_append,
      List.nil_append]
    exact ⟨trivial, trivial, hmem _ (by simp [Call.isSubmission])⟩
  · intro u hf hnew
    unfold AptosService.transferAPT
    simp only [hledger, hshort, if_true, hf, hnew, List.append_assoc, List.cons_append,
      List.nil_append]
    exact ⟨trivial, trivial, hmem _ (by simp [Call.isSubmission])⟩
  · intro u hf hnew
    unfold AptosService.transferAPT
    simp only [hledger, hshort, if_true, hf, hnew, if_false]
    obtain ⟨extra, he, hx⟩ := submitAPT_calls L (AptosService.initialized svc) toAddress amount
      ⌊amount * 100000000⌋
      (AptosService.initCalls svc ++ [Call.getLedgerInfo, Call.getAccountAPTAmount] ++
        [Call.fundAccount (max 1000000000 (⌊amount * 100000000⌋ * 2)), Call.sleep 3000,
          Call.getAccountAPTAmount])
    refine ⟨extra, ?_, hx⟩
    rw [he]
    simp only [List.append_assoc, List.cons_append, List.nil_append]

/-- C19. Simulation gate: in `transferAPT`, a `signAndSubmitTransaction` call is
made only if the built transaction was simulated and the first simulation
result reported success; whenever the simulation of the built transaction
returns no result or a result without success, the transfer throws, nothing is
signed, submitted or awaited, and, when the simulation was reached, the error
carries the simulation status (`vm_status`, or 'Unknown error'); and a result
is returned only if the confirmed transaction reports success, with the hash
of that transaction. -/
theorem transferAPT_simulation_gate (L : AptosService.Ledger) (svc : AptosService.Service)
    (toAddress : String) (amount : ℚ) :
    (Call.signAndSubmitTransaction ∈ (AptosService.transferAPT L svc toAddress amount).calls →
      ∃ tx sims, L.buildSimple toAddress ⌊amount * 100000000⌋ = .ok tx ∧
        L.simulateSimple tx = .ok sims ∧
        sims.head?.map (fun s => s.success) = some true) ∧
    (∀ tx sims, L.buildSimple toAddress ⌊amount * 100000000⌋ = .ok tx →
      L.simulateSimple tx = .ok sims →
      sims.head?.map (fun s => s.success) ≠ some true →
      (∃ e, (AptosService.transferAPT L svc toAddress amount).result = .error e) ∧
      Call.signAndSubmitTransaction ∉ (AptosService.transferAPT L svc toAddress amount).calls ∧
      (∀ h, Call.waitForTransaction h
        ∉ (AptosService.transferAPT L svc toAddress amount).calls) ∧
      (Call.simulateSimple ∈ (AptosService.transferAPT L svc toAddress amount).calls →
        (AptosService.transferAPT L svc toAddress amount).result
          = .error (AptosService.realFailed ("Transaction simulation failed: " ++
              orDefault (sims.head?.bind (fun s => s.vm_status)) "Unknown error")))) ∧
    (∀ r, (AptosService.transferAPT L svc toAddress amount).result = .ok r →
      ∃ tx sims pendingHash confirmed,
        L.buildSimple toAddress ⌊amount * 100000000⌋ = .ok tx ∧
        L.simulateSimple tx = .ok sims ∧
        sims.head?.map (fun s => s.success) = some true ∧
        L.signAndSubmitTransaction tx = .ok pendingHash ∧
        L.waitForTransaction pendingHash = .ok confirmed ∧
        confirmed.success = true ∧ r.hash = confirmed.hash ∧ r.simulated = false) := by
  rcases transferAPT_cases L svc toAddress amount with ⟨e, calls, hout, hpre⟩ | ⟨calls, hout, hpre⟩
  · have hno : ∀ c, c.isSubmission = true → c ∉ calls := by
      intro c hc hmem
      rw [hpre c hmem] at hc
      cases hc
    rw [hout]
    refine ⟨?_, ?_, ?_⟩
    · intro h
      exact absurd h (hno _ rfl)
    · intro tx sims _ _ _
      exact ⟨⟨e, rfl⟩, hno _ rfl, fun h => hno _ rfl, fun h => absurd h (hno _ rfl)⟩
    · intro r h
      cases h
  · have hno : ∀ c, c.isSubmission = true → c ∉ calls := by
      intro c hc hmem
      rw [hpre c hmem] at hc
      cases hc
    obtain ⟨h1, h2, h3⟩ := submitAPT_gate L (AptosService.initialized svc) toAddress amount
      ⌊amount * 100000000⌋ calls hpre
    rw [hout]
    refine ⟨h1, ?_, h3⟩
    intro tx sims hb hs hbad
    obtain ⟨hres, hcalls⟩ := h2 tx sims hb hs hbad
    refine ⟨⟨_, hres⟩, ?_, ?_, fun _ => hres⟩
    · rw [hcalls]
      simp only [List.mem_append, List.mem_cons, List.mem_singleton, List.not_mem_nil,
        or_false, not_or]
      exact ⟨hno _ rfl, by simp, by simp⟩
    · intro h
      rw [hcalls]
      simp only [List.mem_append, List.mem_cons, List.mem_singleton, List.not_mem_nil,
        or_false, not_or]
      exact ⟨hno _ rfl, by simp, by simp⟩

/-- Witness for `transferAPT_shortfall`: one APT is to be sent from an account
that stays empty. -/
theorem transferAPT_shortfall_witness :
    (AptosService.transferAPT poorLedger sampleService "0xabc" 1).calls
      = AptosService.initCalls sampleService ++ [Call.getLedgerInfo, Call.getAccountAPTAmount,
          Call.fundAccount (max 1000000000 (⌊(1 : ℚ) * 100000000⌋ * 2)), Call.sleep 3000,
          Call.getAccountAPTAmount] ∧
    ∀ c ∈ (AptosService.transferAPT poorLedger sampleService "0xabc" 1).calls,
      c.isSubmission = false :=
  have hfloor : ⌊(1 : ℚ) * 100000000⌋ = 100000000 := by
    rw [one_mul]
    exact Int.floor_natCast 100000000
  have h := (transferAPT_shortfall poorLedger sampleService "0xabc" 1 "1" rfl
    (by rw [hfloor]; decide)).2.1 () rfl (by rw [hfloor]; decide)
  ⟨h.2.1, h.2.2⟩

/-- Witness for `transferAPT_simulation_gate`: the simulation rejects the
transfer, and nothing is signed. -/
theorem transferAPT_simulation_gate_witness :
    (∃ e, (AptosService.transferAPT rejectingLedger sampleService "0xabc" 1).result
      = .error e) ∧
    Call.signAndSubmitTransaction
      ∉ (AptosService.transferAPT rejectingLedger sampleService "0xabc" 1).calls :=
  have h := (transferAPT_simulation_gate rejectingLedger sampleService "0xabc" 1).2.1
    "tx" [{ success := false, vm_status := some "MOVE_ABORT" }] rfl rfl (by decide)
  ⟨h.1, h.2.1⟩

/-- C20. Quote input rejection: `create-order` rejects every request whose
amount is below 10 or whose token type is neither APT nor USDC, and
`create-withdrawal` rejects every request whose amount is below 0.01 or whose
token type is not APT; the rejection is the validation error (status 400), no
record is created (the collection is unchanged) and no call is made. -/
theorem quote_input_rejection (razorpayCreate : ℤ → String → Except String String)
    (bank : Option Offramp.BankDetails) (newId : Nat) (req : Req)
    (ob : Payments.CreateOrderBody) (wb : Offramp.WithdrawalBody) (db : Db) :
    ((ob.amount < 10 ∨ (ob.tokenType ≠ "APT" ∧ ob.tokenType ≠ "USDC")) →
      Payments.createOrder razorpayCreate newId req ob db = ⟨db, validationError, []⟩) ∧
    ((wb.amount < 1 / 100 ∨ wb.tokenType ≠ "APT") →
      Offramp.createWithdrawal bank newId req wb db = ⟨db, validationError, []⟩) ∧
    validationError.code = 400 := by
  refine ⟨?_, ?_, rfl⟩
  · intro h
    have hv : ¬ Payments.createOrderValidation ob = true := by
      intro hv
      simp [Payments.createOrderValidation] at hv
      rcases h with h | h
      · exact absurd hv.1.1 (not_le.mpr h)
      · rcases hv.1.2 with h2 | h2
        · exact h.1 h2
        · exact h.2 h2
    unfold Payments.createOrder
    rw [if_pos hv]
  · intro h
    have hv : ¬ Offramp.withdrawalValidation wb = true := by
      intro hv
      simp [Offramp.withdrawalValidation] at hv
      rcases h with h | h
      · have h3 : (1 : ℚ) / 100 ≤ wb.amount := by
          have := hv.1
          norm_num at this ⊢
          linarith
        exact absurd h3 (not_le.mpr h)
      · exact h hv.2
    unfold Offramp.createWithdrawal
    rw [if_pos hv]

/-- Witness for `quote_input_rejection`: an order for 5 INR and a withdrawal of
USDC. -/
theorem quote_input_rejection_witness :
    Payments.createOrder sampleGateway 8 sampleReq ⟨5, "APT", "0xabc"⟩ []
      = ⟨[], validationError, []⟩ ∧
    Offramp.createWithdrawal (some sampleBank) 9 sampleReq ⟨10, "USDC", "0xabc"⟩ []
      = ⟨[], validationError, []⟩ :=
  have h := quote_input_rejection sampleGateway (some sampleBank) 8 sampleReq
    ⟨5, "APT", "0xabc"⟩ ⟨10, "USDC", "0xabc"⟩ []
  ⟨h.1 (Or.inl (by norm_num)), by
    have h2 := quote_input_rejection sampleGateway (some sampleBank) 9 sampleReq
      ⟨5, "APT", "0xabc"⟩ ⟨10, "USDC", "0xabc"⟩ []
    exact h2.2.1 (Or.inr (by decide))⟩

/-- C21 (as stated, refuted). The record that `create-withdrawal` stores for ten
APT has amount.inr 100, amount.token 10 and conversionRate 10, so amount.token
is not amount.inr × conversionRate; the record that `send-payment` stores for
two APT has amount.inr 0, amount.token 2 and conversionRate 1. -/
theorem creation_invariant_counterexample :
    (∃ t, (Offramp.createWithdrawal (some sampleBank) 9 sampleReq sampleWithdrawalBody []).db
        = [t] ∧ t.amount.inr = 100 ∧ t.amount.token = 10 ∧ t.conversionRate = 10 ∧
      t.amount.token ≠ t.amount.inr * t.conversionRate) ∧
    (∃ t, (Payments.sendPayment sampleDirect 11 12
        sampleReq sampleDirectBody []).db = [t] ∧ t.amount.inr = 0 ∧ t.amount.token = 2 ∧
      t.conversionRate = 1 ∧ t.amount.token ≠ t.amount.inr * t.conversionRate) := by
  refine ⟨⟨Offramp.newWithdrawal 9 sampleReq sampleWithdrawalBody 10 100 5, ?_, ?_⟩,
    ⟨Payments.directTransaction 11 sampleReq sampleDirectBody "0x1", ?_, ?_⟩⟩
  · norm_num [Offramp.createWithdrawal, Offramp.withdrawalValidation, sampleWithdrawalBody,
      Offramp.noPhone, sampleReq, sampleUser, Offramp.CONVERSION_RATES, saveNew,
      Transaction.validate, Offramp.newWithdrawal, amountInrValidator, tokenTypeEnum,
      statusEnum, subStatusEnum, jsTrim]
    simp +decide
  · norm_num [Offramp.newWithdrawal, sampleWithdrawalBody]
  · norm_num [Payments.sendPayment, Payments.sendPaymentValidation, sampleDirectBody,
      Payments.toLowerCase, sampleDirect, saveNew, Transaction.validate,
      Payments.directTransaction, amountInrValidator, tokenTypeEnum, statusEnum, subStatusEnum,
      jsTrim]
    simp +decide
  · norm_num [Payments.directTransaction, sampleDirectBody]

/-- C21 (amended). The relation between the stored amounts depends on the
creating operation. A record created by `create-order` or by the manual
`transfer-tokens` has amount.token = amount.inr × conversionRate, with the rate
in token per INR. A record created by `create-withdrawal` has
amount.inr = amount.token × conversionRate, with the rate in INR per token. A
record created by `send-payment` has amount.inr = 0, conversionRate = 1 and
amount.token equal to the amount sent. -/
theorem creation_quote_relation (db : Db) (req : Req) (newId newId2 : Nat) :
    (∀ razorpayCreate (b : Payments.CreateOrderBody) (t : Transaction),
      (Payments.createOrder razorpayCreate newId req b db).db = db ++ [t] →
      t.amount.token = t.amount.inr * t.conversionRate) ∧
    (∀ transferTokens (b : Payments.CreateOrderBody) (t : Transaction),
      (Payments.manualTransfer transferTokens newId req b db).db = db ++ [t] →
      t.amount.token = t.amount.inr * t.conversionRate) ∧
    (∀ bank (b : Offramp.WithdrawalBody) (t : Transaction),
      (Offramp.createWithdrawal bank newId req b db).db = db ++ [t] →
      t.amount.inr = t.amount.token * t.conversionRate) ∧
    (∀ transferAPTDirect (b : Payments.SendPaymentBody) (t : Transaction),
      (Payments.sendPayment transferAPTDirect newId newId2 req b db).db = db ++ [t] →
      t.amount.inr = 0 ∧ t.conversionRate = 1 ∧ t.amount.token = b.amount) := by
  refine ⟨?_, ?_, ?_, ?_⟩
  · intro razorpayCreate b t h
    unfold Payments.createOrder at h
    by_cases hv : Payments.createOrderValidation b = true
    · simp only [hv, not_true_eq_false, if_false] at h
      cases hr : Payments.CONVERSION_RATES b.tokenType with
      | none => rw [hr] at h; exact absurd h (ne_append_singleton db t)
      | some rate =>
        rw [hr] at h
        simp only at h
        cases hg : razorpayCreate (mathRound (b.amount * 100)) ("onramp_" ++ last8 req.now) with
        | error e => rw [hg] at h; exact absurd h (ne_append_singleton db t)
        | ok oid =>
          rw [hg] at h
          simp only at h
          cases hins : saveNew db (Payments.newOrderTransaction newId req b rate (b.amount * rate)
              oid ("onramp_" ++ last8 req.now)) with
          | error e => rw [hins] at h; exact absurd h (ne_append_singleton db t)
          | ok db1 =>
            rw [hins] at h
            simp only at h
            rw [saveNew_ok _ _ _ hins] at h
            rw [← append_singleton_inj db _ _ h]
            rfl
    · simp only [hv, not_false_eq_true, if_true] at h
      exact absurd h (ne_append_singleton db t)
  · intro transferTokens b t h
    unfold Payments.manualTransfer at h
    by_cases hv : Payments.createOrderValidation b = true
    · simp only [hv, not_true_eq_false, if_false] at h
      cases hx : transferTokens b.walletAddress b.tokenType b.amount with
      | error e => rw [hx] at h; exact absurd h (ne_append_singleton db t)
      | ok r =>
        rw [hx] at h
        simp only at h
        cases hr : Payments.CONVERSION_RATES b.tokenType with
        | none => rw [hr] at h; exact absurd h (ne_append_singleton db t)
        | some rate =>
          rw [hr] at h
          simp only at h
          cases hins : saveNew db (Payments.manualTransaction newId req b rate r.hash) with
          | error e => rw [hins] at h; exact absurd h (ne_append_singleton db t)
          | ok db1 =>
            rw [hins] at h
            simp only at h
            rw [saveNew_ok _ _ _ hins] at h
            rw [← append_singleton_inj db _ _ h]
            rfl
    · simp only [hv, not_false_eq_true, if_true] at h
      exact absurd h (ne_append_singleton db t)
  · intro bank b t h
    unfold Offramp.createWithdrawal at h
    by_cases hv : Offramp.withdrawalValidation b = true
    · simp only [hv, not_true_eq_false, if_false] at h
      cases bank with
      | none => exact absurd h (ne_append_singleton db t)
      | some bk =>
        simp only at h
        by_cases hp : Offramp.noPhone req.user = true
        · simp only [hp, if_true] at h
          exact absurd h (ne_append_singleton db t)
        · simp only [hp, if_false] at h
          cases hr : Offramp.CONVERSION_RATES b.tokenType with
          | none => rw [hr] at h; exact absurd h (ne_append_singleton db t)
          | some rate =>
            rw [hr] at h
            simp only at h
            by_cases hnet : b.amount * rate - max 5 (min 500 (b.amount * rate * (25 / 1000))) < 5
            · simp only [hnet, if_true] at h
              exact absurd h (ne_append_singleton db t)
            · simp only [hnet, if_false] at h
              cases hins : saveNew db (Offramp.newWithdrawal newId req b rate (b.amount * rate)
                  (max 5 (min 500 (b.amount * rate * (25 / 1000))))) with
              | error e => rw [hins] at h; exact absurd h (ne_append_singleton db t)
              | ok db1 =>
                rw [hins] at h
                simp only at h
                rw [saveNew_ok _ _ _ hins] at h
                rw [← append_singleton_inj db _ _ h]
                rfl
    · simp only [hv, not_false_eq_true, if_true] at h
      exact absurd h (ne_append_singleton db t)
  · intro transferAPTDirect b t h
    have hcatch : ∀ m calls, (Payments.sendPaymentCatch db newId2 req b m calls).db = db ++ [t] →
        t.amount.inr = 0 ∧ t.conversionRate = 1 ∧ t.amount.token = b.amount := by
      intro m calls hc
      unfold Payments.sendPaymentCatch at hc
      cases hins : saveNew db (Payments.directFailedTransaction newId2 req b) with
      | error e => rw [hins] at hc; exact absurd hc (ne_append_singleton db t)
      | ok db1 =>
        rw [hins] at hc
        simp only at hc
        rw [saveNew_ok _ _ _ hins] at hc
        rw [← append_singleton_inj db _ _ hc]
        exact ⟨rfl, rfl, rfl⟩
    unfold Payments.sendPayment at h
    by_cases hv : Payments.sendPaymentValidation b = true
    · simp only [hv, not_true_eq_false, if_false] at h
      by_cases hsame : Payments.toLowerCase b.senderAddress
          = Payments.toLowerCase b.recipientAddress
      · simp only [hsame, if_true] at h
        exact absurd h (ne_append_singleton db t)
      · simp only [hsame, if_false] at h
        by_cases hm : b.paymentMethod ≠ some "wallet"
        · rw [if_pos hm] at h
          exact absurd h (ne_append_singleton db t)
        · rw [if_neg hm] at h
          cases hx : transferAPTDirect b.senderAddress b.recipientAddress b.amount with
          | error m => rw [hx] at h; exact hcatch _ _ h
          | ok r =>
            rw [hx] at h
            simp only at h
            cases hins : saveNew db (Payments.directTransaction newId req b r.hash) with
            | error e => rw [hins] at h; exact hcatch _ _ h
            | ok db1 =>
              rw [hins] at h
              simp only at h
              rw [saveNew_ok _ _ _ hins] at h
              rw [← append_singleton_inj db _ _ h]
              exact ⟨rfl, rfl, rfl⟩
    · simp only [hv, not_false_eq_true, if_true] at h
      exact absurd h (ne_append_singleton db t)

/-- Witness for `creation_quote_relation`: `create-withdrawal` for ten APT stores
amount.inr 100 = 10 × 10, and `create-order` for 100 INR in APT stores
amount.token 10 = 100 × 1/10. -/
theorem creation_quote_relation_witness :
    (Offramp.newWithdrawal 9 sampleReq sampleWithdrawalBody 10 100 5).amount.inr
      = (Offramp.newWithdrawal 9 sampleReq sampleWithdrawalBody 10 100 5).amount.token
        * (Offramp.newWithdrawal 9 sampleReq sampleWithdrawalBody 10 100 5).conversionRate ∧
    (Payments.directTransaction 11 sampleReq sampleDirectBody "0x1").amount.inr = 0 ∧
    (Payments.directTransaction 11 sampleReq sampleDirectBody "0x1").conversionRate = 1 :=
  have h := creation_quote_relation [] sampleReq 9 12
  have h11 := creation_quote_relation [] sampleReq 11 12
  ⟨h.2.2.1 (some sampleBank) sampleWithdrawalBody
      (Offramp.newWithdrawal 9 sampleReq sampleWithdrawalBody 10 100 5)
      (by
        norm_num [Offramp.createWithdrawal, Offramp.withdrawalValidation, sampleWithdrawalBody,
          Offramp.noPhone, sampleReq, sampleUser, Offramp.CONVERSION_RATES, saveNew,
          Transaction.validate, Offramp.newWithdrawal, amountInrValidator, tokenTypeEnum,
          statusEnum, subStatusEnum, jsTrim]
        simp +decide),
   (h11.2.2.2 sampleDirect sampleDirectBody
      (Payments.directTransaction 11 sampleReq sampleDirectBody "0x1")
      (by
        norm_num [Payments.sendPayment, Payments.sendPaymentValidation, sampleDirectBody,
          Payments.toLowerCase, sampleDirect, saveNew, Transaction.validate,
          Payments.directTransaction, amountInrValidator, tokenTypeEnum, statusEnum,
          subStatusEnum, jsTrim]
        simp +decide)).1,
   (h11.2.2.2 sampleDirect sampleDirectBody
      (Payments.directTransaction 11 sampleReq sampleDirectBody "0x1")
      (by
        norm_num [Payments.sendPayment, Payments.sendPaymentValidation, sampleDirectBody,
          Payments.toLowerCase, sampleDirect, saveNew, Transaction.validate,
          Payments.directTransaction, amountInrValidator, tokenTypeEnum, statusEnum,
          subStatusEnum, jsTrim]
        simp +decide)).2.1⟩

/-- C22. In a collection whose ids are unique, the handlers that work on an
existing record (verify-payment, payments cancel, retry-transfer,
verify-token-transfer, confirm-payment, withdrawal cancel) and the delayed
bank-transfer step leave the conversion rate and the two amounts of every
stored record as they were; and `updateStatus` leaves them as they were for
every additional data that has neither the key conversionRate nor the key
paymentId, as is the case for the data of every caller. -/
theorem quote_immutability (db : Db) (huniq : ∀ x ∈ db, ∀ y ∈ db, x._id = y._id → x = y)
    (req : Req) (id : Nat) (reason : Option String) (randomOrderId : String)
    (hmacHex : String → String → String) (secret : String)
    (transferTokens : String → String → ℚ → Except String TransferResult)
    (getTransactionByHash : String → Except String Offramp.AptosTransaction)
    (pb : Payments.VerifyPaymentBody) (vb : Offramp.VerifyTransferBody)
    (w : Transaction) (later : Nat) :
    (Payments.verifyPayment hmacHex secret transferTokens req pb db).db.map quoteOf
      = db.map quoteOf ∧
    (Payments.cancelTransaction req id reason db).db.map quoteOf = db.map quoteOf ∧
    (Payments.retryTransfer transferTokens req id db).db.map quoteOf = db.map quoteOf ∧
    (Offramp.verifyTokenTransfer getTransactionByHash req vb db).db.map quoteOf
      = db.map quoteOf ∧
    (Offramp.confirmPayment randomOrderId req id db).db.map quoteOf = db.map quoteOf ∧
    (Offramp.cancelWithdrawal req id reason db).db.map quoteOf = db.map quoteOf ∧
    (Offramp.bankTransferStep db w later).map quoteOf = db.map quoteOf ∧
    (∀ (t : Transaction) (newStatus : String) (data : List (String × Json)) (now : Nat),
      (∀ kv ∈ data, kv.1 ≠ "conversionRate" ∧ kv.1 ≠ "paymentId") →
      quoteOf (t.updateStatus newStatus data now) = quoteOf t) := by
  have hf2 : ∀ x y : Transaction, x.conversionRate = y.conversionRate → x.amount = y.amount →
      quoteOf x = quoteOf y := by
    intro x y h1 h2
    unfold quoteOf
    rw [h1, h2]
  have hf : ∀ x y : Transaction, x.conversionRate = y.conversionRate → x.amount = y.amount →
      x.paymentId = y.paymentId → quoteOf x = quoteOf y := fun x y h1 h2 _ => hf2 x y h1 h2
  refine ⟨verifyPayment_frame quoteOf hf2 db huniq hmacHex secret transferTokens req pb,
    cancelTransaction_frame quoteOf hf db huniq req id reason,
    retryTransfer_frame quoteOf hf db huniq transferTokens req id,
    verifyTokenTransfer_frame quoteOf hf db huniq getTransactionByHash req vb,
    confirmPayment_frame quoteOf hf db huniq randomOrderId req id,
    cancelWithdrawal_frame quoteOf hf db huniq req id reason, ?_, ?_⟩
  · unfold Offramp.bankTransferStep
    dsimp only
    split
    · rw [List.map_map]
      apply List.map_congr_left
      intro r _
      simp only [Function.comp]
      split <;> rfl
    · rfl
  · intro t newStatus data now hdata
    exact updateStatus_frame quoteOf (fun x y _ h1 h2 _ => hf2 x y h1 h2) t newStatus data now
      hdata

/-- Witness for `quote_immutability`: settling the sample order leaves its quote
(rate 1/10, 100 INR, 10 APT) in place. -/
theorem quote_immutability_witness :
    (Payments.verifyPayment sampleHmac "k" sampleTransfer sampleReq sampleProof
      [sampleRecord "created"]).db.map quoteOf = [sampleRecord "created"].map quoteOf :=
  (quote_immutability [sampleRecord "created"]
    (by
      intro x hx y hy _
      rw [List.mem_singleton.mp hx, List.mem_singleton.mp hy])
    sampleReq 7 none "order_x" sampleHmac "k" sampleTransfer (fun _ => .error "not found")
    sampleProof sampleVerifyBody (sampleWithdrawal "transfer_verified") 1700000002123).1

/-- C23 (as stated, refuted). The settled sample record carries the payment id
pay_1; a later `verify-payment` for the same order with the payment id pay_2 and
a signature valid for it leaves the record with the payment id pay_2. -/
theorem proof_id_counterexample :
    sampleCompleted.paymentId = some "pay_1" ∧
    ∃ t', (Payments.verifyPayment sampleHmac "k" sampleTransfer otherReqSameUser secondProof
        [sampleCompleted]).db.find? (fun t => decide (t.orderId = "order_1" ∧ t.user = 1))
        = some t' ∧ t'.paymentId = some "pay_2" := by
  have hfind : [sampleCompleted].find?
      (fun t => decide (t.orderId = secondProof.razorpay_order_id ∧
        t.user = otherReqSameUser.userId)) = some sampleCompleted := by
    simp +decide [sampleCompleted, sampleRecord, secondProof, otherReqSameUser, Req.userId,
      sampleUser]
  obtain ⟨-, t', hf, -, hp, -⟩ := verifyPayment_valid sampleHmac "k" sampleTransfer
    otherReqSameUser secondProof [sampleCompleted] sampleCompleted (by decide) hfind (by decide)
    sampleCompleted_valid sampleCompleted_amount
  exact ⟨rfl, t', hf, hp⟩

/-- C23 (amended). On a stored record, which passes the schema's validation,
`verify-payment` with a valid signature stores the payment id it carries,
whatever payment id the record had, when the record's fiat amount is at least
10; when the fiat amount is below 10 and the payment id carried is not one of
the two direct-transfer sentinels, the save is rejected, the answer is 500
'Payment verification failed' and nothing is written. Every other operation on
an existing record leaves the payment id of every stored record as it was, in a
collection whose ids are unique: `verify-payment` with a wrong signature,
payments cancel, retry-transfer, verify-token-transfer, confirm-payment,
withdrawal cancel and the delayed bank-transfer step. -/
theorem proof_id_frame (db : Db) (huniq : ∀ x ∈ db, ∀ y ∈ db, x._id = y._id → x = y)
    (req : Req) (id : Nat) (reason : Option String) (randomOrderId : String)
    (hmacHex : String → String → String) (secret : String)
    (transferTokens : String → String → ℚ → Except String TransferResult)
    (getTransactionByHash : String → Except String Offramp.AptosTransaction)
    (vb : Offramp.VerifyTransferBody) (w : Transaction) (later : Nat) :
    (∀ (b : Payments.VerifyPaymentBody) (t : Transaction),
      Payments.verifyPaymentValidation b = true →
      db.find? (fun t => decide (t.orderId = b.razorpay_order_id ∧ t.user = req.userId))
        = some t →
      t.validate = true →
      (b.razorpay_signature = Payments.expectedSignature hmacHex secret b →
        (10 ≤ t.amount.inr →
          ∃ t', (Payments.verifyPayment hmacHex secret transferTokens req b db).db.find?
              (fun t => decide (t.orderId = b.razorpay_order_id ∧ t.user = req.userId))
              = some t' ∧ t'.paymentId = some b.razorpay_payment_id) ∧
        (t.amount.inr < 10 →
          b.razorpay_payment_id ≠ "direct_wallet_transfer" ∧
            b.razorpay_payment_id ≠ "direct_wallet_transfer_failed" →
          Payments.verifyPayment hmacHex secret transferTokens req b db
            = ⟨db, failure 500 "Payment verification failed", []⟩)) ∧
      (b.razorpay_signature ≠ Payments.expectedSignature hmacHex secret b →
        (Payments.verifyPayment hmacHex secret transferTokens req b db).db.map
          Transaction.paymentId = db.map Transaction.paymentId)) ∧
    (Payments.cancelTransaction req id reason db).db.map Transaction.paymentId
      = db.map Transaction.paymentId ∧
    (Payments.retryTransfer transferTokens req id db).db.map Transaction.paymentId
      = db.map Transaction.paymentId ∧
    (Offramp.verifyTokenTransfer getTransactionByHash req vb db).db.map Transaction.paymentId
      = db.map Transaction.paymentId ∧
    (Offramp.confirmPayment randomOrderId req id db).db.map Transaction.paymentId
      = db.map Transaction.paymentId ∧
    (Offramp.cancelWithdrawal req id reason db).db.map Transaction.paymentId
      = db.map Transaction.paymentId ∧
    (Offramp.bankTransferStep db w later).map Transaction.paymentId
      = db.map Transaction.paymentId := by
  have hf : ∀ x y : Transaction, x.conversionRate = y.conversionRate → x.amount = y.amount →
      x.paymentId = y.paymentId → x.paymentId = y.paymentId := fun _ _ _ _ h => h
  refine ⟨?_, cancelTransaction_frame Transaction.paymentId hf db huniq req id reason,
    retryTransfer_frame Transaction.paymentId hf db huniq transferTokens req id,
    verifyTokenTransfer_frame Transaction.paymentId hf db huniq getTransactionByHash req vb,
    confirmPayment_frame Transaction.paymentId hf db huniq randomOrderId req id,
    cancelWithdrawal_frame Transaction.paymentId hf db huniq req id reason, ?_⟩
  · intro b t hv hfind hvt
    refine ⟨?_, ?_⟩
    · intro heq
      refine ⟨?_, ?_⟩
      · intro hinr
        obtain ⟨-, t', hf', -, hp, -⟩ :=
          verifyPayment_valid hmacHex secret transferTokens req b db t hv hfind heq hvt hinr
        exact ⟨t', hf', hp⟩
      · intro hlow hpid
        exact verifyPayment_unsaved hmacHex secret transferTokens req b db t hv hfind heq
          (invalid_verified t b.razorpay_payment_id b.razorpay_signature _ hlow hpid)
    · intro hne
      obtain ⟨db1, d, hout, -, hd, hdb⟩ :=
        verifyPayment_invalid hmacHex secret transferTokens req b db t hv hfind hne hvt
      rw [hout]
      dsimp only
      rcases hdb with h | h
      · rw [h]
      · rw [h]
        apply replace_map_of_agree
        intro r hr hid
        have hdt : d._id = t._id ∧ d.paymentId = t.paymentId := by
          rcases hd with h2 | h2 <;> rw [h2] <;> exact ⟨rfl, rfl⟩
        rw [huniq r hr t (List.mem_of_find?_eq_some hfind) (hid.trans hdt.1), hdt.2]
  · unfold Offramp.bankTransferStep
    dsimp only
    split
    · rw [List.map_map]
      apply List.map_congr_left
      intro r _
      simp only [Function.comp]
      split <;> rfl
    · rfl

/-- Witness for `proof_id_frame`: the second proof replaces the payment id of the
settled sample record. -/
theorem proof_id_frame_witness :
    ∃ t', (Payments.verifyPayment sampleHmac "k" sampleTransfer otherReqSameUser secondProof
        [sampleCompleted]).db.find?
        (fun t => decide (t.orderId = secondProof.razorpay_order_id ∧
          t.user = otherReqSameUser.userId)) = some t' ∧
      t'.paymentId = some secondProof.razorpay_payment_id :=
  (((proof_id_frame [sampleCompleted]
    (by
      intro x hx y hy _
      rw [List.mem_singleton.mp hx, List.mem_singleton.mp hy])
    otherReqSameUser 7 none "order_x" sampleHmac "k" sampleTransfer
    (fun _ => .error "not found") sampleVerifyBody (sampleWithdrawal "transfer_verified")
    1700000002123).1 secondProof sampleCompleted (by decide)
    (by
      simp +decide [sampleCompleted, sampleRecord, secondProof, otherReqSameUser, Req.userId,
        sampleUser]) sampleCompleted_valid).1 (by decide)).1 sampleCompleted_amount

/-- C24 (code at the failing input, and in general). `routes/bankDetails.js`
binds `auth` to the whole exports object of `middleware/auth.js`, so its first
registration `router.get('/', auth, ...)` throws while the module loads:
`DELETE /:id` is never registered and no request to it is served, whatever the
request and the collection, so no account is ever promoted. The handler passed
to `router.delete` would not promote either: it assigns `isDefault = false` to
the account before it tests `if (bankDetails.isDefault)`, so its body, applied
to a request that deletes the caller's only active default (a stored account,
which passes the schema's validation) while other active accounts exist, writes
the soft delete and nothing else and leaves the caller without an active default
account. -/
theorem deleteBankDetails_never_promotes (req : Req) (id : Nat) (db : Bank.Collection) :
    Bank.router = .error "Route.get() requires a callback function but got a [object Object]" ∧
    Bank.serveDelete req id db
      = .error "Route.get() requires a callback function but got a [object Object]" ∧
    ∀ b : Bank.BankDetails,
      db.find? (fun r => decide (r._id = id ∧ r.userId = req.userId ∧ r.isActive = true))
        = some b →
      b.isDefault = true →
      b.validate = true →
      db.countP (fun r => decide (r.userId = req.userId ∧ r.isActive = true)) ≠ 1 →
      (∀ r ∈ db, r.userId = req.userId → r.isActive = true → r.isDefault = true →
        r._id = id) →
      (Bank.deleteBankDetails req id db).db
        = db.map (fun r =>
            if r._id = id then
              { b with isActive := false, isDefault := false, updatedAt := req.now }
            else r) ∧
      Bank.findDefault req.userId (Bank.deleteBankDetails req id db).db = none := by
  refine ⟨rfl, rfl, ?_⟩
  intro b hfind _hdef hvb hcount honly
  have hb := List.find?_some hfind
  simp only [decide_eq_true_eq] at hb
  have hvalid : Bank.BankDetails.validate { b with isActive := false, isDefault := false }
      = true := hvb
  have hne : ({ b with isActive := false, isDefault := false } : Bank.BankDetails) ≠ b := by
    intro h
    have h2 : false = b.isActive := congrArg Bank.BankDetails.isActive h
    rw [hb.2.2] at h2
    exact absurd h2 (by decide)
  have hsave : Bank.save db b { b with isActive := false, isDefault := false } req.now
      = .ok (db.map (fun r =>
          if r._id = id then
            { b with isActive := false, isDefault := false, updatedAt := req.now }
          else r),
        { b with isActive := false, isDefault := false, updatedAt := req.now }) := by
    unfold Bank.save
    rw [if_neg (fun h => h hvalid)]
    dsimp only
    rw [if_neg hne]
    unfold Bank.preSave
    rw [if_neg (fun h => absurd h.1 Bool.false_ne_true)]
    rw [hb.1]
  have hout : Bank.deleteBankDetails req id db
      = ⟨db.map (fun r =>
          if r._id = id then
            { b with isActive := false, isDefault := false, updatedAt := req.now }
          else r), Bank.deleted⟩ := by
    unfold Bank.deleteBankDetails
    rw [hfind]
    dsimp only
    rw [if_neg hcount, hsave]
    dsimp only
    rw [if_neg Bool.false_ne_true]
  rw [hout]
  refine ⟨rfl, ?_⟩
  unfold Bank.findDefault
  rw [List.find?_eq_none]
  intro x hx
  rw [List.mem_map] at hx
  obtain ⟨r, hr, hrx⟩ := hx
  simp only [decide_eq_true_eq, not_and]
  by_cases hid : r._id = id
  · rw [if_pos hid] at hrx
    rw [← hrx]
    intro _ h
    exact absurd h Bool.false_ne_true
  · rw [if_neg hid] at hrx
    rw [← hrx]
    intro h1 h2 h3
    exact hid (honly r hr h1 h2 h3)

/-- Witness for `deleteBankDetails_never_promotes`: the sample user asks to
delete the default one of their two accounts. The request is not served; and
the body of the handler, applied to it, does not promote the other account, so
that the lookup of `create-withdrawal` finds no default account and a withdrawal
is refused for want of bank details. -/
theorem deleteBankDetails_never_promotes_witness :
    Bank.serveDelete sampleReq 21 sampleAccounts
      = .error "Route.get() requires a callback function but got a [object Object]" ∧
    Bank.findDefault sampleReq.userId (Bank.deleteBankDetails sampleReq 21 sampleAccounts).db
      = none ∧
    (Offramp.createWithdrawal
      ((Bank.findDefault 1 (Bank.deleteBankDetails sampleReq 21 sampleAccounts).db).map
        Bank.BankDetails.forWithdrawal) 9 sampleReq sampleWithdrawalBody []).resp.code = 400 :=
  have h := deleteBankDetails_never_promotes sampleReq 21 sampleAccounts
  have h3 := h.2.2
    { _id := 21, userId := 1, bankName := "HDFC", accountNumber := "123456789012",
      accountHolderName := "Asha", ifscCode := "HDFC0123456", isDefault := true,
      createdAt := 3, updatedAt := 3 }
    (by simp +decide [sampleAccounts, sampleReq, Req.userId, sampleUser])
    rfl
    (by decide)
    (by simp +decide [sampleAccounts, sampleReq, Req.userId, sampleUser])
    (by simp +decide [sampleAccounts, sampleReq, Req.userId, sampleUser])
  ⟨h.2.1, h3.2, by
    have h2 : Bank.findDefault 1 (Bank.deleteBankDetails sampleReq 21 sampleAccounts).db
        = none := h3.2
    rw [h2]
    norm_num [Offramp.createWithdrawal, Offramp.withdrawalValidation, sampleWithdrawalBody,
      failure]⟩

/-- C25. For a well-formed claim (0x and 64 hex digits) on a stored withdrawal
of the caller in status withdrawal_requested (a stored record passes the
schema's validation), `verify-token-transfer` answers 200 with
success, looks the hash up once and schedules the bank-transfer step, and
leaves every stored record with the withdrawal's id in status
transfer_verified with the claimed hash and its explorer link, whatever the
ledger lookup returns; the outcomes for any two ledger lookups are equal. -/
theorem verifyTokenTransfer_ledger_independent
    (lookup lookup2 : String → Except String Offramp.AptosTransaction)
    (req : Req) (b : Offramp.VerifyTransferBody) (db : Db) (w : Transaction)
    (hv : Offramp.verifyTransferValidation b = true)
    (hfind : db.find? (fun t => decide (t._id = b.withdrawalId ∧ t.user = req.userId ∧
        t.status = "withdrawal_requested")) = some w)
    (hvw : w.validate = true) :
    (Offramp.verifyTokenTransfer lookup req b db).resp.code = 200 ∧
    (Offramp.verifyTokenTransfer lookup req b db).resp.body.get? "success" = some (.bool true) ∧
    (Offramp.verifyTokenTransfer lookup req b db).calls
      = [Call.getTransactionByHash b.transactionHash, Call.setTimeout 2000 b.withdrawalId] ∧
    (∃ r ∈ (Offramp.verifyTokenTransfer lookup req b db).db, r._id = b.withdrawalId) ∧
    (∀ r ∈ (Offramp.verifyTokenTransfer lookup req b db).db, r._id = b.withdrawalId →
      r.status = "transfer_verified" ∧ r.transactionHash = some b.transactionHash ∧
      r.explorerUrl = some (explorerLink b.transactionHash)) ∧
    Offramp.verifyTokenTransfer lookup req b db = Offramp.verifyTokenTransfer lookup2 req b db := by
  have hw := List.find?_some hfind
  simp only [decide_eq_true_eq] at hw
  have h1 := verifyTokenTransfer_found lookup req b db w hv hfind hvw
  have h2 := verifyTokenTransfer_found lookup2 req b db w hv hfind hvw
  refine ⟨?_, ?_, ?_, ?_, ?_, h1.trans h2.symm⟩
  · rw [h1]; rfl
  · rw [h1]; rfl
  · rw [h1]
    simp only [Offramp.transferVerified, List.singleton_append]
    rw [hw.1]
  · rw [h1]
    refine ⟨{ w with status := "transfer_verified", transactionHash := some b.transactionHash,
                     explorerUrl := some (explorerLink b.transactionHash),
                     updatedAt := req.now }, ?_, hw.1⟩
    simp only [Offramp.transferVerified, Db.replace, List.mem_map]
    exact ⟨w, List.mem_of_find?_eq_some hfind, by rw [if_pos rfl]⟩
  · rw [h1]
    intro r hr hid
    have hr2 : r ∈ Db.replace db
        { w with status := "transfer_verified", transactionHash := some b.transactionHash,
                 explorerUrl := some (explorerLink b.transactionHash),
                 updatedAt := req.now } := hr
    rw [replace_agree db _ r hr2 (hid.trans hw.1.symm)]
    exact ⟨rfl, rfl, rfl⟩

/-- Witness for `verifyTokenTransfer_ledger_independent`: the sample claim is
accepted when the ledger reports the transaction as failed on chain, with the
outcome it has when the lookup throws. -/
theorem verifyTokenTransfer_ledger_independent_witness :
    (Offramp.verifyTokenTransfer (fun _ => .ok ⟨false⟩) sampleReq sampleVerifyBody
      [sampleWithdrawal "withdrawal_requested"]).resp.code = 200 ∧
    Offramp.verifyTokenTransfer (fun _ => .ok ⟨false⟩) sampleReq sampleVerifyBody
        [sampleWithdrawal "withdrawal_requested"]
      = Offramp.verifyTokenTransfer (fun _ => .error "network error") sampleReq sampleVerifyBody
        [sampleWithdrawal "withdrawal_requested"] :=
  have h := verifyTokenTransfer_ledger_independent (fun _ => .ok ⟨false⟩)
    (fun _ => .error "network error") sampleReq sampleVerifyBody
    [sampleWithdrawal "withdrawal_requested"] (sampleWithdrawal "withdrawal_requested")
    (by decide)
    (by simp +decide [sampleWithdrawal, sampleReq, Req.userId, sampleUser, sampleVerifyBody])
    sampleRequested_valid
  ⟨h.1, h.2.2.2.2.2⟩

/-- C26. For a request that passes the validators (amount at least 0.01, token
APT) of a caller with a default bank account and a phone number,
`create-withdrawal` answers the minimum-withdrawal error exactly when the
amount is below 1 APT, and then writes nothing; and every record it creates
comes from an amount of at least 1 APT, has amount.inr (the gross) at least 10,
which satisfies the validator of `amount.inr`, and has a net payout, the gross
less the platform fee, of at least 5. -/
theorem offramp_effective_minimum (bank : Offramp.BankDetails) (newId : Nat) (req : Req)
    (b : Offramp.WithdrawalBody) (db : Db)
    (hv : Offramp.withdrawalValidation b = true) (hphone : Offramp.noPhone req.user = false) :
    ((Offramp.createWithdrawal (some bank) newId req b db).resp
        = failure 400 "Minimum withdrawal amount is ₹5 after fees" ↔ b.amount < 1) ∧
    (b.amount < 1 → (Offramp.createWithdrawal (some bank) newId req b db).db = db) ∧
    (∀ t, (Offramp.createWithdrawal (some bank) newId req b db).db = db ++ [t] →
      1 ≤ b.amount ∧ t.amount.token = b.amount ∧ 10 ≤ t.amount.inr ∧
      amountInrValidator t = true ∧ 5 ≤ t.amount.inr - t.fees.platform) := by
  have htoken : b.tokenType = "APT" := by
    simp only [Offramp.withdrawalValidation, Bool.and_eq_true, decide_eq_true_eq,
      List.mem_singleton] at hv
    exact hv.2
  have hrate : Offramp.CONVERSION_RATES b.tokenType = some 10 := by
    rw [htoken]; rfl
  have hnp : ¬ (Offramp.noPhone req.user = true) := by rw [hphone]; decide
  have hout : Offramp.createWithdrawal (some bank) newId req b db
      = if b.amount * 10 - max 5 (min 500 (b.amount * 10 * (25 / 1000))) < 5 then
          ⟨db, failure 400 "Minimum withdrawal amount is ₹5 after fees", []⟩
        else
          match saveNew db (Offramp.newWithdrawal newId req b 10 (b.amount * 10)
              (max 5 (min 500 (b.amount * 10 * (25 / 1000))))) with
          | .error _ => ⟨db, failure 500 "Failed to create withdrawal request", []⟩
          | .ok db1 =>
            ⟨db1,
             ⟨200, .obj [("success", .bool true),
                         ("message", .str "Withdrawal request created successfully"),
                         ("withdrawalId", .num newId),
                         ("details",
                           .obj [("tokenAmount", .num b.amount),
                                 ("tokenType", .str b.tokenType),
                                 ("grossINR", .str (toFixed2 (b.amount * 10))),
                                 ("platformFee",
                                   .str (toFixed2
                                     (max 5 (min 500 (b.amount * 10 * (25 / 1000)))))),
                                 ("netINR",
                                   .str (toFixed2 (b.amount * 10
                                     - max 5 (min 500 (b.amount * 10 * (25 / 1000)))))),
                                 ("processingTime", .str "2-3 business days"),
                                 ("status", .str "withdrawal_requested"),
                                 ("bankDetails",
                                   .obj [("accountHolderName", .str bank.accountHolderName),
                                         ("bankName", .str bank.bankName),
                                         ("accountNumber",
                                           .str ("****" ++ bank.accountNumber.takeRight 4))])])]⟩,
             []⟩ := by
    unfold Offramp.createWithdrawal
    simp only [hv, not_true_eq_false, if_false, hnp, hrate]
    rfl
  rw [hout]
  by_cases hnet : b.amount * 10 - max 5 (min 500 (b.amount * 10 * (25 / 1000))) < 5
  · have hlt : b.amount < 1 := (net_lt_five_iff b.amount).mp hnet
    rw [if_pos hnet]
    refine ⟨⟨fun _ => hlt, fun _ => rfl⟩, fun _ => rfl, ?_⟩
    intro t ht
    exact absurd ht (ne_append_singleton db t)
  · have hge : 1 ≤ b.amount := not_lt.mp (fun h => hnet ((net_lt_five_iff b.amount).mpr h))
    rw [if_neg hnet]
    refine ⟨⟨?_, fun h => absurd h (not_lt.mpr hge)⟩, fun h => absurd h (not_lt.mpr hge), ?_⟩
    · intro h
      have hc := congrArg Response.code h
      revert hc
      cases saveNew db (Offramp.newWithdrawal newId req b 10 (b.amount * 10)
          (max 5 (min 500 (b.amount * 10 * (25 / 1000))))) <;> simp [failure]
    · intro t ht
      cases hins : saveNew db (Offramp.newWithdrawal newId req b 10 (b.amount * 10)
          (max 5 (min 500 (b.amount * 10 * (25 / 1000))))) with
      | error e => rw [hins] at ht; exact absurd ht (ne_append_singleton db t)
      | ok db1 =>
        rw [hins] at ht
        dsimp only at ht
        rw [saveNew_ok _ _ _ hins] at ht
        rw [← append_singleton_inj db _ _ ht]
        have h10 : (10 : ℚ) ≤ b.amount * 10 := by linarith
        refine ⟨hge, rfl, h10, ?_, ?_⟩
        · simp [amountInrValidator, Offramp.newWithdrawal, h10]
        · exact not_lt.mp hnet

/-- Witness for `offramp_effective_minimum`: half an APT passes the validators
and is refused with the minimum-withdrawal error. -/
theorem offramp_effective_minimum_witness :
    Offramp.withdrawalValidation { amount := 1 / 2, tokenType := "APT" } = true ∧
    (Offramp.createWithdrawal (some sampleBank) 9 sampleReq
      { amount := 1 / 2, tokenType := "APT" } []).resp
      = failure 400 "Minimum withdrawal amount is ₹5 after fees" :=
  have hv : Offramp.withdrawalValidation { amount := 1 / 2, tokenType := "APT" } = true := by
    norm_num [Offramp.withdrawalValidation]
  ⟨hv, (offramp_effective_minimum sampleBank 9 sampleReq { amount := 1 / 2, tokenType := "APT" }
    [] hv (by decide)).1.mpr (by norm_num)⟩

/-- C27 (as stated, refuted). The record that `create-withdrawal` stores has
status withdrawal_requested and the order reference offramp_00000123;
`verify-payment` by its owner for that order reference with a wrong signature
leaves it with status failed, which is no off-ramp status. -/
theorem offramp_status_counterexample :
    ∃ w, (Offramp.createWithdrawal (some sampleBank) 9 sampleReq sampleWithdrawalBody []).db
        = [w] ∧ w.status = "withdrawal_requested" ∧ w.orderId = "offramp_00000123" ∧
      ∃ t', (Payments.verifyPayment sampleHmac "k" sampleTransfer otherReqSameUser
          ⟨"offramp_00000123", "pay_x", "forged"⟩ [w]).db.find?
          (fun t => decide (t.orderId = "offramp_00000123" ∧ t.user = 1)) = some t' ∧
        t'._id = w._id ∧ t'.status = "failed" ∧ t'.status ∉ offrampStatuses := by
  refine ⟨Offramp.newWithdrawal 9 sampleReq sampleWithdrawalBody 10 100 5, ?_, rfl, ?_, ?_⟩
  · norm_num [Offramp.createWithdrawal, Offramp.withdrawalValidation, sampleWithdrawalBody,
      Offramp.noPhone, sampleReq, sampleUser, Offramp.CONVERSION_RATES, saveNew,
      Transaction.validate, Offramp.newWithdrawal, amountInrValidator, tokenTypeEnum,
      statusEnum, subStatusEnum, jsTrim]
    simp +decide
  · simp +decide [Offramp.newWithdrawal, sampleReq]
  · have hfind : [Offramp.newWithdrawal 9 sampleReq sampleWithdrawalBody 10 100 5].find?
        (fun t => decide (t.orderId
            = (⟨"offramp_00000123", "pay_x", "forged"⟩ : Payments.VerifyPaymentBody).razorpay_order_id
          ∧ t.user = otherReqSameUser.userId))
        = some (Offramp.newWithdrawal 9 sampleReq sampleWithdrawalBody 10 100 5) := by
      simp +decide [Offramp.newWithdrawal, sampleReq, otherReqSameUser, Req.userId, sampleUser]
    obtain ⟨db1, d, hout, hf, hd, -⟩ := verifyPayment_invalid sampleHmac "k" sampleTransfer
      otherReqSameUser ⟨"offramp_00000123", "pay_x", "forged"⟩
      [Offramp.newWithdrawal 9 sampleReq sampleWithdrawalBody 10 100 5]
      (Offramp.newWithdrawal 9 sampleReq sampleWithdrawalBody 10 100 5) (by decide) hfind
      (by decide) sampleCreatedWithdrawal_valid
    rw [hout]
    refine ⟨d, hf, ?_⟩
    rcases hd with h | h <;> rw [h] <;> exact ⟨rfl, rfl, by decide⟩

/-- C27 (amended). `create-withdrawal` creates its record in status
withdrawal_requested. When every stored record with the addressed id has an
off-ramp status, payments cancel, retry-transfer and confirm-payment addressed
to that id write nothing, and after withdrawal cancel, after
verify-token-transfer and after the delayed bank-transfer step every stored
record with that id still has an off-ramp status. `verify-payment` is the
exception: addressed to the order reference of such a stored record (which
passes the schema's validation) with a wrong signature, it sets the status to
failed. -/
theorem offramp_status_closed (db : Db) (req : Req) (id : Nat) (reason : Option String)
    (randomOrderId hash : String)
    (hmacHex : String → String → String) (secret : String)
    (transferTokens : String → String → ℚ → Except String TransferResult)
    (getTransactionByHash : String → Except String Offramp.AptosTransaction)
    (bank : Option Offramp.BankDetails) (newId : Nat) (wb : Offramp.WithdrawalBody)
    (w : Transaction) (later : Nat)
    (hS : ∀ x ∈ db, x._id = id → x.status ∈ offrampStatuses) (hw : w._id = id) :
    (∀ t, (Offramp.createWithdrawal bank newId req wb db).db = db ++ [t] →
      t.status = "withdrawal_requested") ∧
    (Payments.cancelTransaction req id reason db).db = db ∧
    (Payments.retryTransfer transferTokens req id db).db = db ∧
    (Offramp.confirmPayment randomOrderId req id db).db = db ∧
    (∀ r ∈ (Offramp.cancelWithdrawal req id reason db).db, r._id = id →
      r.status ∈ offrampStatuses) ∧
    (∀ r ∈ (Offramp.verifyTokenTransfer getTransactionByHash req ⟨id, hash⟩ db).db, r._id = id →
      r.status ∈ offrampStatuses) ∧
    (∀ r ∈ Offramp.bankTransferStep db w later, r._id = id → r.status ∈ offrampStatuses) ∧
    (∀ (b : Payments.VerifyPaymentBody) (t : Transaction),
      Payments.verifyPaymentValidation b = true →
      db.find? (fun t => decide (t.orderId = b.razorpay_order_id ∧ t.user = req.userId))
        = some t →
      t._id = id →
      t.validate = true →
      b.razorpay_signature ≠ Payments.expectedSignature hmacHex secret b →
      ∃ t', (Payments.verifyPayment hmacHex secret transferTokens req b db).db.find?
          (fun t => decide (t.orderId = b.razorpay_order_id ∧ t.user = req.userId)) = some t' ∧
        t'._id = id ∧ t'.status = "failed" ∧ t'.status ∉ offrampStatuses) := by
  have hfound : ∀ t, db.find? (fun t => decide (t._id = id ∧ t.user = req.userId)) = some t →
      t.status ∈ offrampStatuses := by
    intro t ht
    have hp := List.find?_some ht
    simp only [decide_eq_true_eq] at hp
    exact hS t (List.mem_of_find?_eq_some ht) hp.1
  have hnotPending : ∀ s, s ∈ offrampStatuses → ¬ s ∈ ["pending", "payment_failed"] := by
    intro s hs
    simp only [offrampStatuses, List.mem_cons, List.mem_singleton, List.not_mem_nil,
      or_false] at hs
    rcases hs with h | h | h | h | h <;> rw [h] <;> decide
  have hnotFailed : ∀ s, s ∈ offrampStatuses → s ≠ "failed" := by
    intro s hs
    simp only [offrampStatuses, List.mem_cons, List.mem_singleton, List.not_mem_nil,
      or_false] at hs
    rcases hs with h | h | h | h | h <;> rw [h] <;> decide
  have hnotCrypto : ∀ s, s ∈ offrampStatuses → s ≠ "crypto_verified" := by
    intro s hs
    simp only [offrampStatuses, List.mem_cons, List.mem_singleton, List.not_mem_nil,
      or_false] at hs
    rcases hs with h | h | h | h | h <;> rw [h] <;> decide
  refine ⟨?_, ?_, ?_, ?_, ?_, ?_, ?_, ?_⟩
  · intro t h
    unfold Offramp.createWithdrawal at h
    by_cases hv : Offramp.withdrawalValidation wb = true
    · simp only [hv, not_true_eq_false, if_false] at h
      cases bank with
      | none => exact absurd h (ne_append_singleton db t)
      | some bk =>
        simp only at h
        by_cases hp : Offramp.noPhone req.user = true
        · simp only [hp, if_true] at h
          exact absurd h (ne_append_singleton db t)
        · simp only [hp, if_false] at h
          cases hr : Offramp.CONVERSION_RATES wb.tokenType with
          | none => rw [hr] at h; exact absurd h (ne_append_singleton db t)
          | some rate =>
            rw [hr] at h
            simp only at h
            by_cases hnet :
                wb.amount * rate - max 5 (min 500 (wb.amount * rate * (25 / 1000))) < 5
            · simp only [hnet, if_true] at h
              exact absurd h (ne_append_singleton db t)
            · simp only [hnet, if_false] at h
              cases hins : saveNew db (Offramp.newWithdrawal newId req wb rate (wb.amount * rate)
                  (max 5 (min 500 (wb.amount * rate * (25 / 1000))))) with
              | error e => rw [hins] at h; exact absurd h (ne_append_singleton db t)
              | ok db1 =>
                rw [hins] at h
                simp only at h
                rw [saveNew_ok _ _ _ hins] at h
                rw [← append_singleton_inj db _ _ h]
                rfl
    · simp only [hv, not_false_eq_true, if_true] at h
      exact absurd h (ne_append_singleton db t)
  · unfold Payments.cancelTransaction
    split
    · rfl
    · next t ht => rw [if_pos (hnotPending _ (hfound t ht))]
  · unfold Payments.retryTransfer
    split
    · rfl
    · next t ht => rw [if_pos (Or.inl (hnotFailed _ (hfound t ht)))]
  · unfold Offramp.confirmPayment
    split
    · rfl
    · next t ht => rw [if_pos (hnotCrypto _ (hfound t ht))]
  · intro r hr hid
    unfold Offramp.cancelWithdrawal at hr
    cases hfind : db.find? (fun t => decide (t._id = id ∧ t.user = req.userId)) with
    | none => rw [hfind] at hr; exact hS r hr hid
    | some t =>
      rw [hfind] at hr
      dsimp only at hr
      split at hr
      · exact hS r hr hid
      · cases hs : save db t
            (t.updateStatus "cancelled" (Payments.cancelData reason req.now) req.now)
            req.now with
        | error e => rw [hs] at hr; exact hS r hr hid
        | ok res =>
          obtain ⟨db1, d⟩ := res
          rw [hs] at hr
          rcases save_mem db db1 t _ d req.now hs r hr with h | h
          · exact hS r h hid
          · rw [h, updateStatus_cancelled]
            show "cancelled" ∈ offrampStatuses
            decide
  · intro r hr hid
    rcases verifyTokenTransfer_mem getTransactionByHash req ⟨id, hash⟩ db r hr with h | h
    · exact hS r h hid
    · rw [h]
      show "transfer_verified" ∈ offrampStatuses
      decide
  · intro r hr hid
    unfold Offramp.bankTransferStep at hr
    dsimp only at hr
    split at hr
    · rw [List.mem_map] at hr
      obtain ⟨x, hx, hxr⟩ := hr
      by_cases hxid : x._id = w._id
      · rw [if_pos hxid] at hxr
        rw [← hxr]
        simp +decide [Transaction.updateStatus, Transaction.assignAll, schemaPaths,
          offrampStatuses]
      · rw [if_neg hxid] at hxr
        rw [← hxr] at hid
        exact absurd (hid.trans hw.symm) hxid
    · exact hS r hr hid
  · intro b t hv hfind htid hvt hne
    obtain ⟨db1, d, hout, hf, hd, -⟩ :=
      verifyPayment_invalid hmacHex secret transferTokens req b db t hv hfind hne hvt
    rw [hout]
    refine ⟨d, hf, ?_⟩
    rcases hd with h | h <;> rw [h] <;>
      exact ⟨htid, rfl, (by decide : "failed" ∉ offrampStatuses)⟩

/-- Witness for `offramp_status_closed`: `retry-transfer` addressed to the sample
withdrawal writes nothing, and after `verify-token-transfer` the sample
withdrawal has an off-ramp status. -/
theorem offramp_status_closed_witness :
    (Payments.retryTransfer sampleTransfer sampleReq 9
      [sampleWithdrawal "withdrawal_requested"]).db = [sampleWithdrawal "withdrawal_requested"] ∧
    (Offramp.verifyTokenTransfer (fun _ => .error "not found") sampleReq
        ⟨9, sampleVerifyBody.transactionHash⟩ [sampleWithdrawal "withdrawal_requested"]).db.all
      (fun r => decide (r._id = 9 → r.status ∈ offrampStatuses)) = true :=
  have h := offramp_status_closed [sampleWithdrawal "withdrawal_requested"] sampleReq 9 none
    "order_x" sampleVerifyBody.transactionHash sampleHmac "k" sampleTransfer
    (fun _ => .error "not found") (some sampleBank) 10 sampleWithdrawalBody
    (sampleWithdrawal "withdrawal_requested") 1700000002123
    (by
      intro x hx _
      rw [List.mem_singleton.mp hx]
      decide)
    rfl
  ⟨h.2.2.1, List.all_eq_true.mpr (fun r hr => decide_eq_true (h.2.2.2.2.2.1 r hr))⟩

/-- C28 (code at the failing input, and in general). `create-withdrawal` builds
its order reference from the last eight decimal digits of the clock, so a
request made at a time whose last eight digits are those of the creation time
`t1` of a stored withdrawal gets the same reference: when it passes every check
of the handler (valid body, default bank account, phone number, amount of at
least 1 APT), its `save` is rejected by the unique index on `orderId`, nothing
is written and the answer is 500. -/
theorem createWithdrawal_reference_collision (bank : Offramp.BankDetails) (newId : Nat)
    (req : Req) (b : Offramp.WithdrawalBody) (db : Db) (t1 : Nat) (r : Transaction)
    (hv : Offramp.withdrawalValidation b = true) (hphone : Offramp.noPhone req.user = false)
    (hamount : 1 ≤ b.amount)
    (hr : r ∈ db) (hrid : r.orderId = "offramp_" ++ last8 t1)
    (_hne : req.now ≠ t1) (hcol : last8 req.now = last8 t1) :
    Offramp.createWithdrawal (some bank) newId req b db
      = ⟨db, failure 500 "Failed to create withdrawal request", []⟩ := by
  have htoken : b.tokenType = "APT" := by
    simp only [Offramp.withdrawalValidation, Bool.and_eq_true, decide_eq_true_eq,
      List.mem_singleton] at hv
    exact hv.2
  have hrate : Offramp.CONVERSION_RATES b.tokenType = some 10 := by
    rw [htoken]; rfl
  have hnet : ¬ (b.amount * 10 - max 5 (min 500 (b.amount * 10 * (25 / 1000))) < 5) :=
    fun h => absurd ((net_lt_five_iff b.amount).mp h) (not_lt.mpr hamount)
  have hsave : ∃ e, saveNew db (Offramp.newWithdrawal newId req b 10 (b.amount * 10)
      (max 5 (min 500 (b.amount * 10 * (25 / 1000))))) = .error e := by
    unfold saveNew
    split
    · exact ⟨_, rfl⟩
    · rw [if_pos]
      · exact ⟨_, rfl⟩
      · rw [List.any_eq_true]
        refine ⟨r, hr, ?_⟩
        rw [decide_eq_true_eq]
        right
        rw [hrid, ← hcol]
        rfl
  obtain ⟨e, he⟩ := hsave
  unfold Offramp.createWithdrawal
  simp only [hv, not_true_eq_false, if_false, hphone, Bool.false_eq_true, hrate, hnet, he]

/-- Witness for `createWithdrawal_reference_collision`: the sample user creates a
withdrawal, and 100000000 ms later a second one; the two times differ, the
references coincide, and the second request is answered 500. -/
theorem createWithdrawal_reference_collision_witness :
    sampleReq.now ≠ laterReq.now ∧ last8 laterReq.now = last8 sampleReq.now ∧
    (Offramp.createWithdrawal (some sampleBank) 9 sampleReq sampleWithdrawalBody []).db
      = [Offramp.newWithdrawal 9 sampleReq sampleWithdrawalBody 10 100 5] ∧
    Offramp.createWithdrawal (some sampleBank) 10 laterReq sampleWithdrawalBody
        [Offramp.newWithdrawal 9 sampleReq sampleWithdrawalBody 10 100 5]
      = ⟨[Offramp.newWithdrawal 9 sampleReq sampleWithdrawalBody 10 100 5],
         failure 500 "Failed to create withdrawal request", []⟩ :=
  ⟨by decide, by decide,
   by
    norm_num [Offramp.createWithdrawal, Offramp.withdrawalValidation, sampleWithdrawalBody,
      Offramp.noPhone, sampleReq, sampleUser, Offramp.CONVERSION_RATES, saveNew,
      Transaction.validate, Offramp.newWithdrawal, amountInrValidator, tokenTypeEnum,
      statusEnum, subStatusEnum, jsTrim]
    simp +decide,
   createWithdrawal_reference_collision sampleBank 10 laterReq sampleWithdrawalBody
    [Offramp.newWithdrawal 9 sampleReq sampleWithdrawalBody 10 100 5] sampleReq.now
    (Offramp.newWithdrawal 9 sampleReq sampleWithdrawalBody 10 100 5)
    (by norm_num [Offramp.withdrawalValidation, sampleWithdrawalBody])
    (by decide) (by norm_num [sampleWithdrawalBody]) (List.mem_singleton.mpr rfl) rfl
    (by decide) (by decide)⟩

/-- C29 (code at the failing input, and in general). The filter of
`GET /withdrawals` accepts every record of the caller whose status is completed,
whatever created it, because `metadata.withdrawalType` is stored on no record
and the status completed is shared by both directions: such a record is on the
first page of the listing, without a status filter and with the status filter
completed, when the page size is at least the size of the collection. -/
theorem getWithdrawals_lists_completed (req : Req) (limit : Nat) (status : Option String)
    (db : Db) (r : Transaction)
    (hr : r ∈ db) (huser : r.user = req.userId) (hstatus : r.status = "completed")
    (hq : status = none ∨ status = some "completed") (hlimit : db.length ≤ limit) :
    r ∈ (Offramp.getWithdrawals req 1 limit status db).withdrawals := by
  have hpass : Offramp.withdrawalsFilter req.userId status r = true := by
    unfold Offramp.withdrawalsFilter
    rcases hq with h | h <;> rw [h] <;>
      simp +decide [huser, hstatus, Offramp.withdrawalStatuses]
  have hmem : r ∈ db.filter (Offramp.withdrawalsFilter req.userId status) :=
    List.mem_filter.mpr ⟨hr, hpass⟩
  have hlen : ((db.filter (Offramp.withdrawalsFilter req.userId status)).insertionSort
      (fun a b => b.createdAt ≤ a.createdAt)).length ≤ limit := by
    rw [List.length_insertionSort]
    exact (List.length_filter_le _ _).trans hlimit
  unfold Offramp.getWithdrawals
  dsimp only
  rw [Nat.sub_self, Nat.zero_mul, List.drop_zero, List.take_of_length_le hlen]
  exact (List.perm_insertionSort _ _).mem_iff.mpr hmem

/-- Witness for `getWithdrawals_lists_completed`: the sample user buys APT
(create-order, then verify-payment with a valid proof and a successful
transfer), makes no withdrawal, and finds the purchase in the withdrawal
history. -/
theorem getWithdrawals_lists_completed_witness :
    ∃ r ∈ (Offramp.getWithdrawals otherReqSameUser 1 10 none
        (Payments.verifyPayment sampleHmac "k" sampleTransfer sampleReq
          ⟨"order_9", "pay_1", "k#order_9|pay_1"⟩
          (Payments.createOrder sampleGateway 8 sampleReq ⟨100, "APT", "0xabc"⟩ []).db).db
        ).withdrawals,
      r.orderId = "order_9" ∧ r.status = "completed" := by
  have hdb : (Payments.createOrder sampleGateway 8 sampleReq ⟨100, "APT", "0xabc"⟩ []).db
      = [Payments.newOrderTransaction 8 sampleReq ⟨100, "APT", "0xabc"⟩ (1 / 10) 10 "order_9"
          "onramp_00000123"] := by
    have ht : jsTrim "0xabc" = "0xabc" := by decide
    have hl : last8 sampleReq.now = "00000123" := by decide
    norm_num [Payments.createOrder, Payments.createOrderValidation, Payments.CONVERSION_RATES,
      saveNew, Transaction.validate, Payments.newOrderTransaction, statusEnum, subStatusEnum,
      tokenTypeEnum, amountInrValidator, sampleGateway, ht, hl]
    simp +decide
  rw [hdb]
  have hfind : [Payments.newOrderTransaction 8 sampleReq ⟨100, "APT", "0xabc"⟩ (1 / 10) 10
      "order_9" "onramp_00000123"].find?
      (fun t => decide (t.orderId
          = (⟨"order_9", "pay_1", "k#order_9|pay_1"⟩ : Payments.VerifyPaymentBody).razorpay_order_id
        ∧ t.user = sampleReq.userId))
      = some (Payments.newOrderTransaction 8 sampleReq ⟨100, "APT", "0xabc"⟩ (1 / 10) 10
          "order_9" "onramp_00000123") := by
    simp +decide [Payments.newOrderTransaction, sampleReq, Req.userId, sampleUser]
  obtain ⟨-, t', hf, hq, -, hok, -⟩ := verifyPayment_valid sampleHmac "k" sampleTransfer
    sampleReq ⟨"order_9", "pay_1", "k#order_9|pay_1"⟩ _ _ (by decide) hfind (by decide)
    sampleOrder_valid sampleOrder_amount
  have hp := List.find?_some hf
  simp only [decide_eq_true_eq] at hp
  have hst := (hok _ rfl).2.1
  have hlen := congrArg List.length (verifyPayment_frame (fun _ => ()) (fun _ _ _ _ => rfl)
    [Payments.newOrderTransaction 8 sampleReq ⟨100, "APT", "0xabc"⟩ (1 / 10) 10 "order_9"
      "onramp_00000123"]
    (by
      intro x hx y hy _
      rw [List.mem_singleton.mp hx, List.mem_singleton.mp hy])
    sampleHmac "k" sampleTransfer sampleReq ⟨"order_9", "pay_1", "k#order_9|pay_1"⟩)
  simp only [List.length_map, List.length_singleton] at hlen
  exact ⟨t', getWithdrawals_lists_completed otherReqSameUser 10 none _ t'
    (List.mem_of_find?_eq_some hf) hp.2 hst (Or.inl rfl) (by rw [hlen]; decide), hp.1, hst⟩

/-- C30. The rate table of `transferTokens` and the table `CONVERSION_RATES` of
`routes/payments.js` agree on every token type. Hence, for a record created by
`create-order` (token type APT or USDC), the transfer executor called as
`verify-payment` calls it, with the record's token type and fiat amount, hands
`transferAPT` or `transferUSDC` exactly the record's quoted `amount.token`. -/
theorem transferTokens_amount_eq_quote
    (razorpayCreate : ℤ → String → Except String String) (newId : Nat) (req : Req)
    (b : Payments.CreateOrderBody) (db : Db) (t : Transaction)
    (L : AptosService.Ledger) (random : Nat → ℚ) (svc : AptosService.Service)
    (hcreated : (Payments.createOrder razorpayCreate newId req b db).db = db ++ [t]) :
    (∀ T, AptosService.conversionRates T = Payments.CONVERSION_RATES T) ∧
    t.amount.inr = b.amount ∧ t.tokenType = b.tokenType ∧
    (t.tokenType = "APT" ∨ t.tokenType = "USDC") ∧
    (∃ rate, AptosService.conversionRates t.tokenType = some rate ∧
      Payments.CONVERSION_RATES t.tokenType = some rate ∧
      t.amount.inr * rate = t.amount.token) ∧
    (t.tokenType = "APT" →
      AptosService.transferTokens L random svc t.walletAddress t.tokenType t.amount.inr
        = ⟨(AptosService.transferAPT L (AptosService.initialized svc) t.walletAddress
              t.amount.token).result,
           AptosService.initCalls svc ++
             (AptosService.transferAPT L (AptosService.initialized svc) t.walletAddress
               t.amount.token).calls⟩) ∧
    (t.tokenType = "USDC" →
      AptosService.transferTokens L random svc t.walletAddress t.tokenType t.amount.inr
        = ⟨(AptosService.transferUSDC random (AptosService.initialized svc) t.walletAddress
              t.amount.token).result,
           AptosService.initCalls svc ++
             (AptosService.transferUSDC random (AptosService.initialized svc) t.walletAddress
               t.amount.token).calls⟩) := by
  have htables : ∀ T, AptosService.conversionRates T = Payments.CONVERSION_RATES T :=
    fun _ => rfl
  have hshape : ∃ rate oid receipt, Payments.createOrderValidation b = true ∧
      Payments.CONVERSION_RATES b.tokenType = some rate ∧
      t = Payments.newOrderTransaction newId req b rate (b.amount * rate) oid receipt := by
    have h := hcreated
    unfold Payments.createOrder at h
    by_cases hv : Payments.createOrderValidation b = true
    · simp only [hv, not_true_eq_false, if_false] at h
      cases hr : Payments.CONVERSION_RATES b.tokenType with
      | none => rw [hr] at h; exact absurd h (ne_append_singleton db t)
      | some rate =>
        rw [hr] at h
        simp only at h
        cases hg : razorpayCreate (mathRound (b.amount * 100)) ("onramp_" ++ last8 req.now) with
        | error e => rw [hg] at h; exact absurd h (ne_append_singleton db t)
        | ok oid =>
          rw [hg] at h
          simp only at h
          cases hins : saveNew db (Payments.newOrderTransaction newId req b rate (b.amount * rate)
              oid ("onramp_" ++ last8 req.now)) with
          | error e => rw [hins] at h; exact absurd h (ne_append_singleton db t)
          | ok db1 =>
            rw [hins] at h
            simp only at h
            rw [saveNew_ok _ _ _ hins] at h
            exact ⟨rate, oid, _, hv, rfl, (append_singleton_inj db _ _ h).symm⟩
    · simp only [hv, not_false_eq_true, if_true] at h
      exact absurd h (ne_append_singleton db t)
  obtain ⟨rate, oid, receipt, hv, hrate, ht⟩ := hshape
  have htok : b.tokenType = "APT" ∨ b.tokenType = "USDC" := by
    simp only [Payments.createOrderValidation, Bool.and_eq_true, decide_eq_true_eq,
      List.mem_cons, List.mem_singleton, List.not_mem_nil, or_false] at hv
    exact hv.1.2
  have h1 : t.amount.inr = b.amount := by rw [ht]; rfl
  have h2 : t.tokenType = b.tokenType := by rw [ht]; rfl
  have h3 : t.amount.token = b.amount * rate := by rw [ht]; rfl
  have hsvc : AptosService.conversionRates t.tokenType = some rate := by
    rw [htables, h2, hrate]
  refine ⟨htables, h1, h2, by rw [h2]; exact htok, ⟨rate, hsvc, by rw [h2, hrate], ?_⟩, ?_, ?_⟩
  · rw [h1, h3]
  · intro hapt
    unfold AptosService.transferTokens
    rw [hsvc]
    dsimp only
    rw [if_pos hapt, h1, h3]
  · intro husdc
    have hnapt : ¬ t.tokenType = "APT" := by rw [husdc]; decide
    unfold AptosService.transferTokens
    rw [hsvc]
    dsimp only
    rw [if_neg hnapt, if_pos husdc, h1, h3]

/-- Witness for `transferTokens_amount_eq_quote`: for the order of 100 INR in
APT the executor's table gives the rate 1/10, and 100 × 1/10 is the quoted
amount of the stored record. -/
theorem transferTokens_amount_eq_quote_witness :
    ∃ rate, AptosService.conversionRates
        (Payments.newOrderTransaction 8 sampleReq ⟨100, "APT", "0xabc"⟩ (1 / 10) 10 "order_9"
          "onramp_00000123").tokenType = some rate ∧
      Payments.CONVERSION_RATES
        (Payments.newOrderTransaction 8 sampleReq ⟨100, "APT", "0xabc"⟩ (1 / 10) 10 "order_9"
          "onramp_00000123").tokenType = some rate ∧
      (Payments.newOrderTransaction 8 sampleReq ⟨100, "APT", "0xabc"⟩ (1 / 10) 10 "order_9"
          "onramp_00000123").amount.inr * rate
        = (Payments.newOrderTransaction 8 sampleReq ⟨100, "APT", "0xabc"⟩ (1 / 10) 10 "order_9"
          "onramp_00000123").amount.token :=
  (transferTokens_amount_eq_quote sampleGateway 8 sampleReq ⟨100, "APT", "0xabc"⟩ []
    (Payments.newOrderTransaction 8 sampleReq ⟨100, "APT", "0xabc"⟩ (1 / 10) 10 "order_9"
      "onramp_00000123")
    poorLedger sampleRandom sampleService
    (by
      have ht : jsTrim "0xabc" = "0xabc" := by decide
      have hl : last8 sampleReq.now = "00000123" := by decide
      norm_num [Payments.createOrder, Payments.createOrderValidation,
        Payments.CONVERSION_RATES, saveNew, Transaction.validate,
        Payments.newOrderTransaction, statusEnum, subStatusEnum, tokenTypeEnum,
        amountInrValidator, sampleGateway, ht, hl]
      simp +decide)).2.2.2.2.1

end WalletFlow
